import Mathlib

/-!
# BeiDou B1C / B2a PCPS acquisition adapters

A shallow embedding of `beidou_b1c_pcps_acquisition.cc` and
`beidou_b2a_pcps_acquisition.cc`, followed by theorems about the embedded code.

Machine integers are natural numbers or integers with an explicit reduction
modulo `2 ^ 32`; loops whose termination depends on the data carry a fuel
argument and return `none` when the fuel runs out.
-/

namespace GnssSdr

/-! ## Machine words -/

/-- Value of a 32-bit unsigned word read as a two's complement `int`
(`static_cast<int>(u)`). -/
def toInt32 (u : Nat) : Int :=
  if u % 2 ^ 32 < 2 ^ 31 then ((u % 2 ^ 32 : Nat) : Int)
  else ((u % 2 ^ 32 : Nat) : Int) - 2 ^ 32

/-- The 32-bit unsigned word an integer converts to (reduction modulo `2 ^ 32`). -/
def toUInt32 (i : Int) : Nat := (i % 2 ^ 32).toNat

/-- Unary minus on a 32-bit unsigned word (`-doppler_max_`). -/
def negUInt32 (u : Nat) : Nat := (2 ^ 32 - u % 2 ^ 32) % 2 ^ 32

/-! ## Single-precision values

A `float` is modelled by the rational number it holds.  Conversions to `float`
round as IEEE-754 binary32 does; arithmetic on `double` values is exact in the
model, and so is every conversion to `double`. -/

/-- Rounding of an exact value to the nearest integer, ties to the even one. -/
def round_half_even (q : ℚ) : Int :=
  if q + 1 / 2 = ⌊q + 1 / 2⌋ ∧ ⌊q + 1 / 2⌋ % 2 = 1 then ⌊q + 1 / 2⌋ - 1 else ⌊q + 1 / 2⌋

/-- The `float` that the exact value `q` converts to (`static_cast<float>`, or the
assignment of a `double` or an integer to a `float`): 24 significant bits, least
exponent `-126` with the subnormal spacing `2 ^ (-149)` below it, round to nearest,
ties to even.  A magnitude that rounds to `2 ^ 128` or more is an infinity in the
code; the model has none and keeps the rounded value. -/
def toFloat (q : ℚ) : ℚ :=
  if q = 0 then 0
  else
    round_half_even (q / 2 ^ (max (Int.log 2 |q|) (-126) - 23))
      * 2 ^ (max (Int.log 2 |q|) (-126) - 23)

/-! ## `calculate_threshold`: the stepped walk over the Doppler axis -/

/-- The `for` loop of `calculate_threshold` (identical in both adapters):
`for (int doppler = ...; doppler <= static_cast<int>(doppler_max_); doppler += doppler_step_)`
`frequency_bins++`.  `doppler` is an `int`, `doppler_step_` and `frequency_bins`
are 32-bit unsigned, so `doppler += doppler_step_` is computed on unsigned words
and read back as an `int`.  One unit of fuel is spent per evaluation of the loop
condition. -/
def doppler_walk : Nat → Nat → Nat → Int → Nat → Option Nat
  | 0, _, _, _, _ => none
  | fuel + 1, doppler_max, doppler_step, doppler, frequency_bins =>
    if doppler ≤ toInt32 doppler_max then
      doppler_walk fuel doppler_max doppler_step
        (toInt32 (toUInt32 doppler + doppler_step)) ((frequency_bins + 1) % 2 ^ 32)
    else some frequency_bins

/-- The value of `frequency_bins` after the loop of `calculate_threshold`, started
from `static_cast<int>(-doppler_max_)` with `frequency_bins = 0`. -/
def frequency_bins (fuel doppler_max doppler_step : Nat) : Option Nat :=
  doppler_walk fuel doppler_max doppler_step (toInt32 (negUInt32 doppler_max)) 0

/-! ## `calculate_threshold`: from the bin count to the threshold

The function is modelled over the real numbers: its argument is the value of the
`float pfa`, the `double` operations are exact, the narrowing of the result to
`float` is the identity of the model, and IEEE special values (the infinity that
`1 / 0.0` yields) are outside it. -/

/-- Quantile of the exponential distribution of rate `lambda` at probability `p`,
the value `quantile(mydist, val)` of `boost::math::exponential_distribution`:
`-log1p(-p) / lambda`. -/
noncomputable def exponential_quantile (lambda p : ℝ) : ℝ :=
  -Real.log (1 - p) / lambda

/-- The statements of `calculate_threshold` after the loop, for the value of
`frequency_bins` the loop left: `ncells` is a 32-bit unsigned product. -/
noncomputable def threshold_of_bins (vector_length frequency_bins : Nat) (pfa : ℝ) : ℝ :=
  let ncells : Nat := (vector_length * frequency_bins) % 2 ^ 32
  let exponent : ℝ := 1 / (ncells : ℝ)
  let val : ℝ := (1 - pfa) ^ exponent
  let lambda : ℝ := (vector_length : ℝ)
  exponential_quantile lambda val

/-- The function `calculate_threshold(pfa)` of both adapters, on the members
`vector_length_`, `doppler_max_` and `doppler_step_` it reads. -/
noncomputable def calculate_threshold (fuel vector_length doppler_max doppler_step : Nat)
    (pfa : ℝ) : Option ℝ :=
  (frequency_bins fuel doppler_max doppler_step).map
    (fun bins => threshold_of_bins vector_length bins pfa)

/-! ## Collaborators of the adapters -/

/-- Modelled from the spec: the configuration-property store
(`ConfigurationInterface`, declared outside these files): role-scoped key/value
properties, one lookup per value type; `property (key, default)` is the stored
value when the key is set and the default otherwise. -/
structure ConfigurationInterface where
  property_string : String → Option String
  property_bool : String → Option Bool
  property_int : String → Option Int
  property_uint : String → Option Nat
  property_double : String → Option ℚ

/-- The acquisition parameters `Acq_Conf` (declared in `acq_conf.h`), with the
fields the adapters assign.  The `float` fields (`resampler_ratio`,
`samples_per_ms`, `samples_per_code`, `doppler_step2`) hold the rational value of
the `float`. -/
structure Acq_Conf where
  fs_in : Int
  doppler_max : Nat
  ms_per_code : Nat
  sampled_ms : Nat
  bit_transition_flag : Bool
  use_CFAR_algorithm_flag : Bool
  max_dwells : Nat
  dump : Bool
  dump_channel : Nat
  blocking : Bool
  dump_filename : String
  use_automatic_resampler : Bool
  resampler_ratio : ℚ
  resampled_fs : Int
  samples_per_ms : ℚ
  samples_per_chip : Nat
  samples_per_code : ℚ
  it_size : Nat
  num_doppler_bins_step2 : Nat
  doppler_step2 : ℚ
  make_2_steps : Bool
  blocking_on_standby : Bool

/-- Modelled from the spec: the acquisition engine behind `acquisition_`
(`pcps_acquisition`, outside these files), as far as the adapters drive it: it is
built from the parameters and keeps what the setters hand over. -/
structure pcps_acquisition (α : Type) where
  acq_parameters : Acq_Conf
  threshold : ℝ
  doppler_max : Nat
  doppler_step : Nat
  gnss_synchro : Option Nat
  local_code : Option (List α)
  active : Bool
  state : Int

/-- Modelled from the spec: `pcps_make_acquisition (conf)`, a fresh idle engine. -/
noncomputable def pcps_make_acquisition {α : Type} (conf : Acq_Conf) : pcps_acquisition α :=
  { acq_parameters := conf, threshold := 0, doppler_max := 0, doppler_step := 0,
    gnss_synchro := none, local_code := none, active := false, state := 0 }

/-- The chip generators called by `set_local_code` (external pure functions of PRN
and sampling rate): `gen prn fs n j` is sample `j` of the `n` samples written into
the destination span. -/
structure CodeGenerators (α : Type) where
  beidou_b1cp_code_gen_complex_sampled_boc_61_11 : Nat → Int → Nat → Nat → α
  beidou_b1cd_code_gen_complex_sampled_boc_11 : Nat → Int → Nat → Nat → α
  beidou_b2a_code_gen_complex_sampled : Nat → Int → Nat → Nat → α
  beidou_b2ap_code_gen_complex_sampled : Nat → Int → Nat → Nat → α
  beidou_b2ad_code_gen_complex_sampled : Nat → Int → Nat → Nat → α

/-- The data members of `BeidouB1cPcpsAcquisition` and `BeidouB2aPcpsAcquisition`
(the two classes declare the same members).  `gnss_synchro_` holds the PRN of the
pointed-to `Gnss_Synchro`, or `none` for `nullptr`. -/
structure Adapter (α : Type) where
  configuration_ : ConfigurationInterface
  acq_parameters_ : Acq_Conf
  acquisition_ : pcps_acquisition α
  item_type_ : String
  item_size_ : Nat
  vector_length_ : Nat
  code_length_ : Nat
  bit_transition_flag_ : Bool
  use_CFAR_algorithm_flag_ : Bool
  channel_ : Nat
  threshold_ : ℝ
  doppler_max_ : Nat
  doppler_step_ : Nat
  sampled_ms_ : Nat
  max_dwells_ : Nat
  fs_in_ : Int
  dump_ : Bool
  blocking_ : Bool
  dump_filename_ : String
  code_ : List α
  gnss_synchro_ : Option Nat
  role_ : String
  in_streams_ : Nat
  out_streams_ : Nat
  acq_pilot_ : Bool
  acq_iq_ : Bool

/-- Size in bytes of `lv_16sc_t`. -/
def sizeof_lv_16sc_t : Nat := 4

/-- Size in bytes of `gr_complex`. -/
def sizeof_gr_complex : Nat := 8

/-- Rounding of `std::round`: to the nearest integer, halves away from zero. -/
def std_round (q : ℚ) : Int := if 0 ≤ q then ⌊q + 1 / 2⌋ else ⌈q - 1 / 2⌉

/-! ## Resampler policy (B1C constructor) -/

/-- The loop `while (fs_in % decimation > 0) decimation--` on the 32-bit unsigned
`decimation`; `none` when `decimation` is zero (remainder by zero). -/
def decimation_loop (fs_in : Int) : Nat → Option Nat
  | 0 => none
  | d + 1 => if Int.tmod fs_in ((d + 1 : Nat) : Int) > 0 then decimation_loop fs_in d
      else some (d + 1)

/-- The block guarded by `fs_in > BEIDOU_B1C_OPT_ACQ_FS_HZ` in the B1C constructor:
the pair `(resampler_ratio, resampled_fs)` it leaves in the parameters, starting
from the pair `dflt` already there.  `uint32_t decimation = fs_in / fs_opt` is a
truncating 64-bit division narrowed to 32 bits; the first assignment to
`resampler_ratio` is overwritten before it is read.  `resampler_ratio` is a
`float`: `resampler_ratio = decimation` rounds the 32-bit value to 24 significant
bits, and `static_cast<int> (resampler_ratio)` reads the rounded value back; that
conversion has no defined result (`none`) from `2 ^ 31` on. -/
def resampler_policy (fs_in fs_opt : Int) (dflt : ℚ × Int) : Option (ℚ × Int) :=
  if fs_in > fs_opt then
    if fs_opt = 0 then none
    else (decimation_loop fs_in (toUInt32 (Int.tdiv fs_in fs_opt))).bind
      (fun decimation =>
        let resampler_ratio : ℚ := toFloat decimation
        if resampler_ratio < 2 ^ 31 then
          some (resampler_ratio, Int.tdiv fs_in ⌊resampler_ratio⌋)
        else none)
  else some dflt

/-! ## Constructors -/

/-- The constants of `Beidou_B1C.h` (outside these files) that the B1C adapter
reads. -/
structure Beidou_B1C where
  BEIDOU_B1C_OPT_ACQ_FS_HZ : Int
  BEIDOU_B1Cd_CODE_RATE_HZ : ℚ
  BEIDOU_B1Cd_CODE_LENGTH_CHIPS : ℚ
  BEIDOU_B1Cd_CODE_PERIOD_MS : ℚ

/-- `BEIDOU_B2ad_CODE_RATE_HZ` of `Beidou_B2a.h`. -/
def BEIDOU_B2ad_CODE_RATE_HZ : ℚ := 10230000

/-- `BEIDOU_B2ad_CODE_LENGTH_CHIPS` of `Beidou_B2a.h`. -/
def BEIDOU_B2ad_CODE_LENGTH_CHIPS : Int := 10230

/-- The doppler bound both constructors resolve: the role property, overridden by
the global flag when that is non-zero; both are `int`s stored in an unsigned
member. -/
def resolve_doppler_max (FLAGS_doppler_max : Int) (configuration : ConfigurationInterface)
    (role : String) : Nat :=
  if FLAGS_doppler_max ≠ 0 then toUInt32 FLAGS_doppler_max
  else toUInt32 ((configuration.property_int (role ++ ".doppler_max")).getD 5000)

/-- The constructor of `BeidouB1cPcpsAcquisition`.  The parameter `acq0` is the
default-constructed `Acq_Conf`; `none` is a constructor that does not complete
(remainder or division by zero, or an undefined conversion, in the resampler
block).  A property is read with the lookup of its default's type:
`coherent_integration_time_ms` defaults to the unsigned `ms_per_code`, the other
integer properties to `int` literals that are then stored in unsigned members.
The adapter's own `sampled_ms_` keeps the configured value; only
`acq_parameters_.sampled_ms` is reset to `ms_per_code`.  `samples_per_ms` and
`samples_per_code` are `float`s and `vector_length_ = sampled_ms_ * samples_per_ms`
is a `float` product; its conversion to `unsigned int` truncates, and is taken
modulo `2 ^ 32` where the product is out of range (the language leaves that case
undefined).  The allocation of `code_` is taken to succeed.
`BeidouB1cPcpsAcquisition.construct` below drops both idealisations. -/
noncomputable def BeidouB1cPcpsAcquisition.BeidouB1cPcpsAcquisition {α : Type} [Zero α]
    (k : Beidou_B1C) (FLAGS_doppler_max : Int) (acq0 : Acq_Conf)
    (configuration : ConfigurationInterface) (role : String)
    (in_streams out_streams : Nat) : Option (Adapter α) :=
  let item_type_ := (configuration.property_string (role ++ ".item_type")).getD "gr_complex"
  let fs_in_deprecated := (configuration.property_int "GNSS-SDR.internal_fs_hz").getD 4000000
  let fs_in_ := (configuration.property_int "GNSS-SDR.internal_fs_sps").getD fs_in_deprecated
  let doppler_max_ := resolve_doppler_max FLAGS_doppler_max configuration role
  let ms_per_code : Nat := 10
  let sampled_ms_ :=
    (configuration.property_uint (role ++ ".coherent_integration_time_ms")).getD ms_per_code
      % 2 ^ 32
  let acq_sampled_ms := if sampled_ms_ % ms_per_code ≠ 0 then ms_per_code else sampled_ms_
  let bit_transition_flag_ :=
    (configuration.property_bool (role ++ ".bit_transition_flag")).getD false
  let use_CFAR_algorithm_flag_ :=
    (configuration.property_bool (role ++ ".use_CFAR_algorithm")).getD true
  let acq_iq_ := (configuration.property_bool (role ++ ".acquire_iq")).getD false
  let acq_pilot_ :=
    if acq_iq_ then false
    else (configuration.property_bool (role ++ ".acquire_pilot")).getD false
  let max_dwells_ := toUInt32 ((configuration.property_int (role ++ ".max_dwells")).getD 1)
  let dump_ := (configuration.property_bool (role ++ ".dump")).getD false
  let blocking_ := (configuration.property_bool (role ++ ".blocking")).getD true
  let dump_filename_ :=
    (configuration.property_string (role ++ ".dump_filename")).getD "./acquisition.mat"
  let use_automatic_resampler :=
    if (configuration.property_bool "GNSS-SDR.use_acquisition_resampler").getD false = true
        ∧ item_type_ ≠ "gr_complex" then false
    else (configuration.property_bool "GNSS-SDR.use_acquisition_resampler").getD false
  let resampled : Option (ℚ × Int) :=
    if use_automatic_resampler then
      resampler_policy fs_in_ k.BEIDOU_B1C_OPT_ACQ_FS_HZ
        (Acq_Conf.resampler_ratio acq0, acq0.resampled_fs)
    else some (Acq_Conf.resampler_ratio acq0, acq0.resampled_fs)
  resampled.map fun rs =>
    let fs_used : Int := if use_automatic_resampler then rs.2 else fs_in_
    let code_length_ : Nat := toUInt32
      ⌊(fs_used : ℚ) / (k.BEIDOU_B1Cd_CODE_RATE_HZ / k.BEIDOU_B1Cd_CODE_LENGTH_CHIPS)⌋
    let samples_per_ms : ℚ := toFloat (toFloat (fs_used : ℚ) * (1 / 1000))
    let samples_per_chip : Nat :=
      toUInt32 ⌈(1 / k.BEIDOU_B1Cd_CODE_RATE_HZ) * toFloat (fs_used : ℚ)⌉
    let vector_length0 : Nat :=
      toUInt32 ⌊toFloat (toFloat (sampled_ms_ : ℚ) * samples_per_ms)⌋
    let vector_length_ : Nat :=
      if bit_transition_flag_ then (vector_length0 * 2) % 2 ^ 32 else vector_length0
    let item_size_ : Nat := if item_type_ = "cshort" then sizeof_lv_16sc_t else sizeof_gr_complex
    let acq_parameters_ : Acq_Conf :=
      { acq0 with
        fs_in := fs_in_
        doppler_max := doppler_max_
        ms_per_code := ms_per_code
        sampled_ms := acq_sampled_ms
        bit_transition_flag := bit_transition_flag_
        use_CFAR_algorithm_flag := use_CFAR_algorithm_flag_
        max_dwells := max_dwells_
        dump := dump_
        dump_channel := toUInt32 ((configuration.property_int (role ++ ".dump_channel")).getD 0)
        blocking := blocking_
        dump_filename := dump_filename_
        use_automatic_resampler := use_automatic_resampler
        resampler_ratio := rs.1
        resampled_fs := rs.2
        samples_per_ms := samples_per_ms
        samples_per_chip := samples_per_chip
        samples_per_code := toFloat (samples_per_ms * toFloat k.BEIDOU_B1Cd_CODE_PERIOD_MS)
        it_size := item_size_
        num_doppler_bins_step2 :=
          toUInt32 ((configuration.property_int (role ++ ".second_nbins")).getD 4)
        doppler_step2 :=
          toFloat ((configuration.property_double (role ++ ".second_doppler_step")).getD 125)
        make_2_steps := (configuration.property_bool (role ++ ".make_two_steps")).getD false
        blocking_on_standby :=
          (configuration.property_bool (role ++ ".blocking_on_standby")).getD false }
    { configuration_ := configuration
      acq_parameters_ := acq_parameters_
      acquisition_ := pcps_make_acquisition acq_parameters_
      item_type_ := item_type_
      item_size_ := item_size_
      vector_length_ := vector_length_
      code_length_ := code_length_
      bit_transition_flag_ := bit_transition_flag_
      use_CFAR_algorithm_flag_ := use_CFAR_algorithm_flag_
      channel_ := 0
      threshold_ := 0
      doppler_max_ := doppler_max_
      doppler_step_ := 0
      sampled_ms_ := sampled_ms_
      max_dwells_ := max_dwells_
      fs_in_ := fs_in_
      dump_ := dump_
      blocking_ := blocking_
      dump_filename_ := dump_filename_
      code_ := List.replicate vector_length_ 0
      gnss_synchro_ := none
      role_ := role
      in_streams_ := in_streams
      out_streams_ := out_streams
      acq_pilot_ := acq_pilot_
      acq_iq_ := acq_iq_ }

/-- The constructor of `BeidouB2aPcpsAcquisition`; it has no failing path.  Every
integer property defaults to an `int` literal and is stored in an unsigned
member; `code_length_` is `std::round` of the exact quotient narrowed to 32 bits.
Values stored in `float` fields, and `static_cast<float> (fs_in)`, are rounded to
`float`; the allocation of `code_` is taken to succeed. -/
noncomputable def BeidouB2aPcpsAcquisition.BeidouB2aPcpsAcquisition {α : Type} [Zero α]
    (FLAGS_doppler_max : Int) (acq0 : Acq_Conf)
    (configuration : ConfigurationInterface) (role : String)
    (in_streams out_streams : Nat) : Adapter α :=
  let item_type_ := (configuration.property_string (role ++ ".item_type")).getD "gr_complex"
  let fs_in_deprecated := (configuration.property_int "GNSS-SDR.internal_fs_hz").getD 25000000
  let fs_in_ := (configuration.property_int "GNSS-SDR.internal_fs_sps").getD fs_in_deprecated
  let acq_iq_ := (configuration.property_bool (role ++ ".acquire_iq")).getD false
  let acq_pilot_ :=
    if acq_iq_ then false
    else (configuration.property_bool (role ++ ".acquire_pilot")).getD false
  let dump_ := (configuration.property_bool (role ++ ".dump")).getD false
  let blocking_ := (configuration.property_bool (role ++ ".blocking")).getD true
  let doppler_max_ := resolve_doppler_max FLAGS_doppler_max configuration role
  let sampled_ms_ : Nat :=
    toUInt32 ((configuration.property_int (role ++ ".coherent_integration_time_ms")).getD 1)
  let bit_transition_flag_ :=
    (configuration.property_bool (role ++ ".bit_transition_flag")).getD false
  let use_CFAR_algorithm_flag_ :=
    (configuration.property_bool (role ++ ".use_CFAR_algorithm")).getD true
  let max_dwells_ := toUInt32 ((configuration.property_int (role ++ ".max_dwells")).getD 1)
  let dump_filename_ :=
    (configuration.property_string (role ++ ".dump_filename")).getD "./data/acquisition.dat"
  let code_length_ : Nat := toUInt32
    (std_round ((fs_in_ : ℚ) / (BEIDOU_B2ad_CODE_RATE_HZ / (BEIDOU_B2ad_CODE_LENGTH_CHIPS : ℚ))))
  let vector_length0 : Nat := (code_length_ * sampled_ms_) % 2 ^ 32
  let vector_length_ : Nat :=
    if bit_transition_flag_ then (vector_length0 * 2) % 2 ^ 32 else vector_length0
  let item_size_ : Nat := if item_type_ = "cshort" then sizeof_lv_16sc_t else sizeof_gr_complex
  let acq_parameters_ : Acq_Conf :=
    { acq0 with
      fs_in := fs_in_
      dump := dump_
      blocking := blocking_
      doppler_max := doppler_max_
      bit_transition_flag := bit_transition_flag_
      use_CFAR_algorithm_flag := use_CFAR_algorithm_flag_
      max_dwells := max_dwells_
      dump_filename := dump_filename_
      ms_per_code := 1
      it_size := item_size_
      sampled_ms := sampled_ms_
      samples_per_code := toFloat (code_length_ : ℚ)
      samples_per_ms := toFloat (code_length_ : ℚ)
      num_doppler_bins_step2 :=
        toUInt32 ((configuration.property_int (role ++ ".second_nbins")).getD 4)
      doppler_step2 :=
        toFloat ((configuration.property_double (role ++ ".second_doppler_step")).getD 125)
      make_2_steps := (configuration.property_bool (role ++ ".make_two_steps")).getD false
      samples_per_chip := toUInt32 ⌈(1 / BEIDOU_B2ad_CODE_RATE_HZ) * toFloat (fs_in_ : ℚ)⌉ }
  { configuration_ := configuration
    acq_parameters_ := acq_parameters_
    acquisition_ := pcps_make_acquisition acq_parameters_
    item_type_ := item_type_
    item_size_ := item_size_
    vector_length_ := vector_length_
    code_length_ := code_length_
    bit_transition_flag_ := bit_transition_flag_
    use_CFAR_algorithm_flag_ := use_CFAR_algorithm_flag_
    channel_ := 0
    threshold_ := 0
    doppler_max_ := doppler_max_
    doppler_step_ := 0
    sampled_ms_ := sampled_ms_
    max_dwells_ := max_dwells_
    fs_in_ := fs_in_
    dump_ := dump_
    blocking_ := blocking_
    dump_filename_ := dump_filename_
    code_ := List.replicate vector_length_ 0
    gnss_synchro_ := none
    role_ := role
    in_streams_ := in_streams
    out_streams_ := out_streams
    acq_pilot_ := acq_pilot_
    acq_iq_ := acq_iq_ }

/-! ## Operations of the adapters -/

/-- The tail of `set_threshold` in both adapters: `threshold_` is assigned and then
forwarded with `acquisition_->set_threshold (threshold_)`. -/
def store_threshold {α : Type} (st : Adapter α) (value : ℝ) : Adapter α :=
  { st with threshold_ := value, acquisition_ := { st.acquisition_ with threshold := value } }

/-- B1C `set_threshold (threshold)`: the per-channel `pfa` property, then the
per-role one; `none` when `calculate_threshold` does not return within the fuel.
`pfa` is a `float`: each `double` property is narrowed before it is compared with
`0.0`. -/
noncomputable def BeidouB1cPcpsAcquisition.set_threshold {α : Type} (fuel : Nat)
    (st : Adapter α) (threshold : ℝ) : Option (Adapter α) :=
  let pfa0 : ℚ := toFloat
    ((st.configuration_.property_double (st.role_ ++ toString st.channel_ ++ ".pfa")).getD 0)
  let pfa : ℚ :=
    if pfa0 = 0 then toFloat ((st.configuration_.property_double (st.role_ ++ ".pfa")).getD 0)
    else pfa0
  if pfa = 0 then some (store_threshold st threshold)
  else (calculate_threshold fuel st.vector_length_ st.doppler_max_ st.doppler_step_
    (pfa : ℝ)).map (store_threshold st)

/-- B2a `set_threshold (threshold)`: only the per-role `pfa` property is read, and
narrowed to the `float pfa` before it is compared with `0.0`. -/
noncomputable def BeidouB2aPcpsAcquisition.set_threshold {α : Type} (fuel : Nat)
    (st : Adapter α) (threshold : ℝ) : Option (Adapter α) :=
  let pfa : ℚ := toFloat ((st.configuration_.property_double (st.role_ ++ ".pfa")).getD 0)
  if pfa = 0 then some (store_threshold st threshold)
  else (calculate_threshold fuel st.vector_length_ st.doppler_max_ st.doppler_step_
    (pfa : ℝ)).map (store_threshold st)

/-- B2a `set_doppler_max (doppler_max)`. -/
def BeidouB2aPcpsAcquisition.set_doppler_max {α : Type} (st : Adapter α) (doppler_max : Nat) :
    Adapter α :=
  { st with doppler_max_ := doppler_max % 2 ^ 32,
            acquisition_ := { st.acquisition_ with doppler_max := doppler_max % 2 ^ 32 } }

/-- B2a `set_doppler_step (doppler_step)`. -/
def BeidouB2aPcpsAcquisition.set_doppler_step {α : Type} (st : Adapter α) (doppler_step : Nat) :
    Adapter α :=
  { st with doppler_step_ := doppler_step % 2 ^ 32,
            acquisition_ := { st.acquisition_ with doppler_step := doppler_step % 2 ^ 32 } }

/-- B2a `set_gnss_synchro (gnss_synchro)`. -/
def BeidouB2aPcpsAcquisition.set_gnss_synchro {α : Type} (st : Adapter α)
    (gnss_synchro : Option Nat) : Adapter α :=
  { st with gnss_synchro_ := gnss_synchro,
            acquisition_ := { st.acquisition_ with gnss_synchro := gnss_synchro } }

/-- B2a `reset ()`: `acquisition_->set_active (true)`. -/
def BeidouB2aPcpsAcquisition.reset {α : Type} (st : Adapter α) : Adapter α :=
  { st with acquisition_ := { st.acquisition_ with active := true } }

/-- B2a `stop_acquisition ()`: the body is empty. -/
def BeidouB2aPcpsAcquisition.stop_acquisition {α : Type} (st : Adapter α) : Adapter α := st

/-- `std::copy_n (code.get (), code_length_, dest)` at offset `offset` of the buffer:
the samples at `offset .. offset + code.length - 1` are replaced. -/
def copy_n {α : Type} (code : List α) (offset : Nat) (buf : List α) : List α :=
  buf.take offset ++ code ++ buf.drop (offset + code.length)

/-- The copy loop of `set_local_code` (identical in both adapters), from iteration
`i` on for `n` more iterations.  `code_span` has `vector_length` elements;
`subspan (i * code_length_, code_length_)` checks its bounds and terminates the
program when they fail (`none`).  `i * code_length_` is a 32-bit unsigned product. -/
def copy_periods {α : Type} (code : List α) (code_length vector_length : Nat) :
    Nat → Nat → List α → Option (List α)
  | 0, _, buf => some buf
  | n + 1, i, buf =>
    let offset := (i * code_length) % 2 ^ 32
    if offset ≤ vector_length ∧ code_length ≤ vector_length - offset then
      copy_periods code code_length vector_length n (i + 1) (copy_n code offset buf)
    else none

/-- The one-period buffer `code` after a generator has filled its `n` samples. -/
def generated {α : Type} (gen : Nat → Int → Nat → Nat → α) (prn : Nat) (fs : Int) (n : Nat) :
    List α :=
  (List.range n).map (gen prn fs n)

/-- The tail of `set_local_code` in both adapters: the copy loop, then
`acquisition_->set_local_code (code_.data ())`. -/
def tile_and_forward {α : Type} (st : Adapter α) (code : List α) : Option (Adapter α) :=
  (copy_periods code st.code_length_ st.vector_length_ st.sampled_ms_ 0 st.code_).map
    fun buf => { st with code_ := buf,
                         acquisition_ := { st.acquisition_ with local_code := some buf } }

/-- B2a `set_local_code ()`.  Reading `gnss_synchro_->PRN` through a null pointer
has no defined result (`none`). -/
def BeidouB2aPcpsAcquisition.set_local_code {α : Type} (g : CodeGenerators α)
    (st : Adapter α) : Option (Adapter α) :=
  match st.gnss_synchro_ with
  | none => none
  | some prn =>
    let code : List α :=
      if st.acq_iq_ then
        generated g.beidou_b2a_code_gen_complex_sampled prn st.fs_in_ st.code_length_
      else if st.acq_pilot_ then
        generated g.beidou_b2ap_code_gen_complex_sampled prn st.fs_in_ st.code_length_
      else
        generated g.beidou_b2ad_code_gen_complex_sampled prn st.fs_in_ st.code_length_
    tile_and_forward st code

/-- B1C `set_local_code ()`.  `new std::complex<float>[code_length_]` value-initialises
the one-period buffer to zeros; in the `acq_iq_` branch the generator call is
commented out, so the buffer stays as allocated and `gnss_synchro_` is not read. -/
def BeidouB1cPcpsAcquisition.set_local_code {α : Type} [Zero α] (g : CodeGenerators α)
    (st : Adapter α) : Option (Adapter α) :=
  if st.acq_iq_ then
    tile_and_forward st (List.replicate st.code_length_ 0)
  else
    match st.gnss_synchro_ with
    | none => none
    | some prn =>
      let code : List α :=
        if st.acq_pilot_ then
          generated g.beidou_b1cp_code_gen_complex_sampled_boc_61_11 prn st.fs_in_
            st.code_length_
        else
          generated g.beidou_b1cd_code_gen_complex_sampled_boc_11 prn st.fs_in_ st.code_length_
      tile_and_forward st code

/-- B1C `set_doppler_max (doppler_max)` (the body is the B2a one). -/
def BeidouB1cPcpsAcquisition.set_doppler_max {α : Type} (st : Adapter α) (doppler_max : Nat) :
    Adapter α :=
  { st with doppler_max_ := doppler_max % 2 ^ 32,
            acquisition_ := { st.acquisition_ with doppler_max := doppler_max % 2 ^ 32 } }

/-- B1C `set_doppler_step (doppler_step)` (the body is the B2a one). -/
def BeidouB1cPcpsAcquisition.set_doppler_step {α : Type} (st : Adapter α) (doppler_step : Nat) :
    Adapter α :=
  { st with doppler_step_ := doppler_step % 2 ^ 32,
            acquisition_ := { st.acquisition_ with doppler_step := doppler_step % 2 ^ 32 } }

/-- B1C `set_gnss_synchro (gnss_synchro)` (the body is the B2a one). -/
def BeidouB1cPcpsAcquisition.set_gnss_synchro {α : Type} (st : Adapter α)
    (gnss_synchro : Option Nat) : Adapter α :=
  { st with gnss_synchro_ := gnss_synchro,
            acquisition_ := { st.acquisition_ with gnss_synchro := gnss_synchro } }

/-- B1C `reset ()`: `acquisition_->set_active (true)`. -/
def BeidouB1cPcpsAcquisition.reset {α : Type} (st : Adapter α) : Adapter α :=
  { st with acquisition_ := { st.acquisition_ with active := true } }

/-- B1C `stop_acquisition ()`: the body is empty. -/
def BeidouB1cPcpsAcquisition.stop_acquisition {α : Type} (st : Adapter α) : Adapter α := st

/-- The messages of the two `LOG(ERROR)` statements that end both constructors:
one when `in_streams_ > 1`, one when `out_streams_ > 0`.  Nothing else depends on
the two conditions. -/
def stream_errors (in_streams out_streams : Nat) : List String :=
  (if in_streams > 1 then ["This implementation only supports one input stream"] else [])
    ++ (if out_streams > 0 then ["This implementation does not provide an output stream"]
        else [])

/-- The value `ncells` of `calculate_threshold`: `vector_length_ * frequency_bins`
in 32-bit unsigned arithmetic. -/
def ncells (vector_length frequency_bins : Nat) : Nat :=
  (vector_length * frequency_bins) % 2 ^ 32

/-- The loop of `calculate_threshold` once more, recording instead of the count the
values `doppler` has at each `frequency_bins++`, in the order they are counted. -/
def doppler_walk_values : Nat → Nat → Nat → Int → List Int → Option (List Int)
  | 0, _, _, _, _ => none
  | fuel + 1, doppler_max, doppler_step, doppler, counted =>
    if doppler ≤ toInt32 doppler_max then
      doppler_walk_values fuel doppler_max doppler_step
        (toInt32 (toUInt32 doppler + doppler_step)) (counted ++ [doppler])
    else some counted

/-- The Doppler values counted by the loop of `calculate_threshold`, started from
`static_cast<int>(-doppler_max_)`. -/
def counted_dopplers (fuel doppler_max doppler_step : Nat) : Option (List Int) :=
  doppler_walk_values fuel doppler_max doppler_step (toInt32 (negUInt32 doppler_max)) []

/-- Successive calls of B2a `set_local_code`, one for each PRN of the list, each
after the channel has been assigned that PRN with `set_gnss_synchro`. -/
def b2a_set_local_code_each {α : Type} (g : CodeGenerators α) :
    List Nat → Adapter α → Option (Adapter α)
  | [], st => some st
  | prn :: rest, st =>
    match BeidouB2aPcpsAcquisition.set_local_code g
        (BeidouB2aPcpsAcquisition.set_gnss_synchro st (some prn)) with
    | none => none
    | some st' => b2a_set_local_code_each g rest st'

/-! ## Example inputs -/

/-- An `Acq_Conf` with every numeric field zero and every flag off (the spec gives
ratio 0 when resampling is disabled). -/
def Acq_Conf_zero : Acq_Conf :=
  { fs_in := 0, doppler_max := 0, ms_per_code := 0, sampled_ms := 0,
    bit_transition_flag := false, use_CFAR_algorithm_flag := false, max_dwells := 0,
    dump := false, dump_channel := 0, blocking := false, dump_filename := "",
    use_automatic_resampler := false, resampler_ratio := 0, resampled_fs := 0,
    samples_per_ms := 0, samples_per_chip := 0, samples_per_code := 0, it_size := 0,
    num_doppler_bins_step2 := 0, doppler_step2 := 0, make_2_steps := false,
    blocking_on_standby := false }

/-- The configuration in which no property is set. -/
def no_properties : ConfigurationInterface :=
  { property_string := fun _ => none, property_bool := fun _ => none,
    property_int := fun _ => none, property_uint := fun _ => none,
    property_double := fun _ => none }

/-- A configuration that sets the input rate and switches the acquisition
resampler on, every other property unset. -/
def resampler_on (fs_in : Int) : ConfigurationInterface :=
  { no_properties with
    property_bool := fun key => if key = "GNSS-SDR.use_acquisition_resampler" then some true
      else none
    property_int := fun key => if key = "GNSS-SDR.internal_fs_sps" then some fs_in else none }

/-- B1C constants with the optimal acquisition rate `fs_opt`: code rate 1.023 Mcps,
10230 chips, 10 ms period. -/
def b1c_constants (fs_opt : Int) : Beidou_B1C :=
  { BEIDOU_B1C_OPT_ACQ_FS_HZ := fs_opt, BEIDOU_B1Cd_CODE_RATE_HZ := 1023000,
    BEIDOU_B1Cd_CODE_LENGTH_CHIPS := 10230, BEIDOU_B1Cd_CODE_PERIOD_MS := 10 }

/-- A B2a configuration for role `Acquisition_5X`: input rate, coherent integration
time and bit-transition flag set, every other property unset. -/
def b2a_configuration (fs_in ms : Int) (bit_transition : Bool) : ConfigurationInterface :=
  { no_properties with
    property_int := fun key =>
      if key = "GNSS-SDR.internal_fs_sps" then some fs_in
      else if key = "Acquisition_5X.coherent_integration_time_ms" then some ms
      else none
    property_bool := fun key =>
      if key = "Acquisition_5X.bit_transition_flag" then some bit_transition else none }

/-- A B1C configuration for role `Acquisition_B1` that sets only the coherent
integration time. -/
def coherent_ms_only (c : Nat) : ConfigurationInterface :=
  { no_properties with
    property_uint := fun key =>
      if key = "Acquisition_B1.coherent_integration_time_ms" then some c else none }

/-- Chip generators for examples: sample `j` for satellite `prn` is `1000 * prn + j`,
negated for the pilot component. -/
def example_generators : CodeGenerators Int :=
  { beidou_b1cp_code_gen_complex_sampled_boc_61_11 := fun prn _ _ j => -(1000 * prn + j + 1)
    beidou_b1cd_code_gen_complex_sampled_boc_11 := fun prn _ _ j => 1000 * prn + j + 1
    beidou_b2a_code_gen_complex_sampled := fun prn _ _ j => 2000 * prn + j + 1
    beidou_b2ap_code_gen_complex_sampled := fun prn _ _ j => -(1000 * prn + j + 1)
    beidou_b2ad_code_gen_complex_sampled := fun prn _ _ j => 1000 * prn + j + 1 }

/-- The one-period sequence that B2a `set_local_code` asks of the generators for
satellite `prn`: data+pilot when `acq_iq_`, else pilot when `acq_pilot_`, else data. -/
def b2a_one_period {α : Type} (g : CodeGenerators α) (st : Adapter α) (prn : Nat) : List α :=
  if st.acq_iq_ then
    generated g.beidou_b2a_code_gen_complex_sampled prn st.fs_in_ st.code_length_
  else if st.acq_pilot_ then
    generated g.beidou_b2ap_code_gen_complex_sampled prn st.fs_in_ st.code_length_
  else
    generated g.beidou_b2ad_code_gen_complex_sampled prn st.fs_in_ st.code_length_

/-- A B2a adapter built for role `Acquisition_5X` at 25 Msps with the given coherent
integration time and bit-transition flag, and then assigned satellite 19. -/
noncomputable def b2a_example (ms : Int) (bit_transition : Bool) : Adapter Int :=
  BeidouB2aPcpsAcquisition.set_gnss_synchro
    (BeidouB2aPcpsAcquisition.BeidouB2aPcpsAcquisition 0 Acq_Conf_zero
      (b2a_configuration 25000000 ms bit_transition) "Acquisition_5X" 1 0) (some 19)

/-- A B1C configuration for role `Acquisition_B1` that selects the data+pilot
component and sets the coherent integration time. -/
def b1c_iq_configuration (ms : Nat) : ConfigurationInterface :=
  { no_properties with
    property_bool := fun key => if key = "Acquisition_B1.acquire_iq" then some true else none
    property_uint := fun key =>
      if key = "Acquisition_B1.coherent_integration_time_ms" then some ms else none }

/-- The B1C adapter built from `b1c_iq_configuration ms` at the default 4 Msps, then
assigned satellite 19. -/
noncomputable def b1c_iq_example (ms : Nat) : Option (Adapter Int) :=
  (BeidouB1cPcpsAcquisition.BeidouB1cPcpsAcquisition (b1c_constants 10230000) 0
    Acq_Conf_zero (b1c_iq_configuration ms) "Acquisition_B1" 1 0).map
    (fun st => BeidouB2aPcpsAcquisition.set_gnss_synchro st (some 19))


/-- A configuration that sets the per-channel (channel 0) and the per-role `pfa` of
role `role`, every other property unset. -/
def pfa_configuration (role : String) (channel_pfa role_pfa : ℚ) : ConfigurationInterface :=
  { no_properties with
    property_double := fun key =>
      if key = role ++ "0.pfa" then some channel_pfa
      else if key = role ++ ".pfa" then some role_pfa
      else none }

/-- A B2a adapter for role `Acquisition_5X` with both `pfa` properties set, after
`set_doppler_step (250)`: 25000 samples, `doppler_max = 5000`. -/
noncomputable def b2a_pfa_example (channel_pfa role_pfa : ℚ) : Adapter Int :=
  BeidouB2aPcpsAcquisition.set_doppler_step
    (BeidouB2aPcpsAcquisition.BeidouB2aPcpsAcquisition 0 Acq_Conf_zero
      (pfa_configuration "Acquisition_5X" channel_pfa role_pfa) "Acquisition_5X" 1 0) 250

/-- A B1C adapter for role `Acquisition_B1` with both `pfa` properties set, after
`set_doppler_step (250)`. -/
noncomputable def b1c_pfa_example (channel_pfa role_pfa : ℚ) : Option (Adapter Int) :=
  (BeidouB1cPcpsAcquisition.BeidouB1cPcpsAcquisition (b1c_constants 10230000) 0
    Acq_Conf_zero (pfa_configuration "Acquisition_B1" channel_pfa role_pfa) "Acquisition_B1"
    1 0).map (fun st => BeidouB1cPcpsAcquisition.set_doppler_step st 250)

/-- A configuration that sets only the `doppler_max` property of role
`Acquisition_5X`. -/
def doppler_max_configuration (doppler_max : Int) : ConfigurationInterface :=
  { no_properties with
    property_int := fun key =>
      if key = "Acquisition_5X.doppler_max" then some doppler_max else none }

/-- A B1C configuration for role `Acquisition_B1` that requests the acquisition
resampler, names the item type and sets the input rate. -/
def resampler_item_configuration (item_type : String) (fs_in : Int) : ConfigurationInterface :=
  { no_properties with
    property_string := fun key =>
      if key = "Acquisition_B1.item_type" then some item_type else none
    property_bool := fun key => if key = "GNSS-SDR.use_acquisition_resampler" then some true
      else none
    property_int := fun key => if key = "GNSS-SDR.internal_fs_sps" then some fs_in else none }

/-- A configuration that sets the two component flags `acquire_iq` and
`acquire_pilot` of role `role`, every other property unset. -/
def component_flags (role : String) (iq pilot : Bool) : ConfigurationInterface :=
  { no_properties with
    property_bool := fun key =>
      if key = role ++ ".acquire_iq" then some iq
      else if key = role ++ ".acquire_pilot" then some pilot
      else none }

/-! ## The generator calls of `set_local_code` -/

/-- The five chip generators, by the name of the function that is called. -/
inductive Generator where
  | beidou_b1cp_code_gen_complex_sampled_boc_61_11
  | beidou_b1cd_code_gen_complex_sampled_boc_11
  | beidou_b2a_code_gen_complex_sampled
  | beidou_b2ap_code_gen_complex_sampled
  | beidou_b2ad_code_gen_complex_sampled

/-- One generator call as `set_local_code` writes it: the function, then
`gnss_synchro_->PRN`, the sampling rate and the length of the destination span. -/
structure GeneratorCall where
  generator : Generator
  prn : Nat
  fs : Int
  length : Nat

/-- The function of `g` that a call names. -/
def CodeGenerators.select {α : Type} (g : CodeGenerators α) :
    Generator → (Nat → Int → Nat → Nat → α)
  | .beidou_b1cp_code_gen_complex_sampled_boc_61_11 =>
    g.beidou_b1cp_code_gen_complex_sampled_boc_61_11
  | .beidou_b1cd_code_gen_complex_sampled_boc_11 => g.beidou_b1cd_code_gen_complex_sampled_boc_11
  | .beidou_b2a_code_gen_complex_sampled => g.beidou_b2a_code_gen_complex_sampled
  | .beidou_b2ap_code_gen_complex_sampled => g.beidou_b2ap_code_gen_complex_sampled
  | .beidou_b2ad_code_gen_complex_sampled => g.beidou_b2ad_code_gen_complex_sampled

/-- The one-period buffer after the generator calls `calls`, started from the
buffer `code` as allocated: every call fills the whole span it is given. -/
def run_calls {α : Type} (g : CodeGenerators α) (code : List α) : List GeneratorCall → List α
  | [] => code
  | c :: rest => run_calls g (generated (g.select c.generator) c.prn c.fs c.length) rest

/-- The generator calls of B2a `set_local_code ()`, in program order: the branch on
`acq_iq_`, then on `acq_pilot_`; `none` when `gnss_synchro_` is null. -/
def BeidouB2aPcpsAcquisition.set_local_code_calls {α : Type} (st : Adapter α) :
    Option (List GeneratorCall) :=
  match st.gnss_synchro_ with
  | none => none
  | some prn =>
    if st.acq_iq_ then
      some [⟨.beidou_b2a_code_gen_complex_sampled, prn, st.fs_in_, st.code_length_⟩]
    else if st.acq_pilot_ then
      some [⟨.beidou_b2ap_code_gen_complex_sampled, prn, st.fs_in_, st.code_length_⟩]
    else
      some [⟨.beidou_b2ad_code_gen_complex_sampled, prn, st.fs_in_, st.code_length_⟩]

/-- The generator calls of B1C `set_local_code ()`, in program order: none in the
`acq_iq_` branch (the call is commented out), else the branch on `acq_pilot_`. -/
def BeidouB1cPcpsAcquisition.set_local_code_calls {α : Type} (st : Adapter α) :
    Option (List GeneratorCall) :=
  if st.acq_iq_ then some []
  else
    match st.gnss_synchro_ with
    | none => none
    | some prn =>
      if st.acq_pilot_ then
        some [⟨.beidou_b1cp_code_gen_complex_sampled_boc_61_11, prn, st.fs_in_,
          st.code_length_⟩]
      else
        some [⟨.beidou_b1cd_code_gen_complex_sampled_boc_11, prn, st.fs_in_, st.code_length_⟩]

/-! ## Constants of `Beidou_B2a.h` -/

/-- Number of data bits of a CNAV2 message. -/
def BEIDOU_CNAV2_DATA_BITS : Int := 288

/-- Declared length of the B2a data secondary code. -/
def BEIDOU_B2ad_SECONDARY_CODE_LENGTH : Int := 5

/-- The B2a data secondary code. -/
def BEIDOU_B2ad_SECONDARY_CODE : String := "00010"

/-- Declared length of the B2a pilot secondary code. -/
def BEIDOU_B2ap_SECONDARY_CODE_LENGTH : Int := 100

/-- The B2a pilot secondary code, character for character as in the header. -/
def BEIDOU_B2ap_SECONDARY_CODE : String :=
  "00000000000000000000000000000000000000000000000000000000000000000000000000000000000000000000000000000"

/-! ### CNAV2 navigation message: field positions

Each constant is the header's one-element vector of `(first bit, number of bits)`,
bits being numbered from 1. -/


/-! CRC -/

def CRC24 : List (Int × Int) := [(264, 24)]

/-! Common -/

def PRN : List (Int × Int) := [(1, 6)]
def MesType : List (Int × Int) := [(7, 6)]
def SOW : List (Int × Int) := [(13, 18)]
def CRC : List (Int × Int) := [(265, 24)]

/-! Type 10 -/

def WN_10 : List (Int × Int) := [(31, 13)]
def DIF_10 : List (Int × Int) := [(44, 1)]
def SIF_10 : List (Int × Int) := [(45, 1)]
def AIF_10 : List (Int × Int) := [(46, 1)]
def SISMAI_10 : List (Int × Int) := [(47, 4)]
def DIF_B1C_10 : List (Int × Int) := [(51, 1)]
def SIF_B1C_10 : List (Int × Int) := [(52, 1)]
def AIF_B1C_10 : List (Int × Int) := [(53, 1)]
def IODE_10 : List (Int × Int) := [(54, 8)]
def t_oe_10 : List (Int × Int) := [(62, 11)]
def SatType_10 : List (Int × Int) := [(73, 2)]
def dA_10 : List (Int × Int) := [(75, 26)]
def A_dot_10 : List (Int × Int) := [(101, 25)]
def dn_0_10 : List (Int × Int) := [(126, 17)]
def dn_0_dot_10 : List (Int × Int) := [(143, 23)]
def M_0_10 : List (Int × Int) := [(166, 33)]
def e_10 : List (Int × Int) := [(199, 33)]
def omega_10 : List (Int × Int) := [(232, 33)]

/-! Type 11 -/

def HS_11 : List (Int × Int) := [(31, 2)]
def DIF_11 : List (Int × Int) := [(33, 1)]
def SIF_11 : List (Int × Int) := [(34, 1)]
def AIF_11 : List (Int × Int) := [(35, 1)]
def SISMAI_11 : List (Int × Int) := [(36, 4)]
def DIF_B1C_11 : List (Int × Int) := [(40, 1)]
def SIF_B1C_11 : List (Int × Int) := [(41, 1)]
def AIF_B1C_11 : List (Int × Int) := [(42, 1)]
def Omega_0_11 : List (Int × Int) := [(43, 33)]
def i_0_11 : List (Int × Int) := [(76, 33)]
def Omega_dot_11 : List (Int × Int) := [(109, 19)]
def i_0_dot_11 : List (Int × Int) := [(128, 15)]
def C_IS_11 : List (Int × Int) := [(143, 16)]
def C_IC_11 : List (Int × Int) := [(159, 16)]
def C_RS_11 : List (Int × Int) := [(175, 24)]
def C_RC_11 : List (Int × Int) := [(199, 24)]
def C_US_11 : List (Int × Int) := [(223, 21)]
def C_UC_11 : List (Int × Int) := [(244, 21)]

/-! Type 30 -/

def HS_30 : List (Int × Int) := [(31, 2)]
def DIF_30 : List (Int × Int) := [(33, 1)]
def SIF_30 : List (Int × Int) := [(34, 1)]
def AIF_30 : List (Int × Int) := [(35, 1)]
def SISMAI_30 : List (Int × Int) := [(36, 4)]
def DIF_B1C_30 : List (Int × Int) := [(40, 1)]
def SIF_B1C_30 : List (Int × Int) := [(41, 1)]
def AIF_B1C_30 : List (Int × Int) := [(42, 1)]
def t_oc_30 : List (Int × Int) := [(43, 11)]
def a_0_30 : List (Int × Int) := [(54, 25)]
def a_1_30 : List (Int × Int) := [(79, 22)]
def a_2_30 : List (Int × Int) := [(101, 11)]
def IODC_30 : List (Int × Int) := [(112, 10)]
def T_GDB2ap_30 : List (Int × Int) := [(122, 12)]
def ISC_B2ad_30 : List (Int × Int) := [(134, 12)]
def alpha_1_30 : List (Int × Int) := [(146, 10)]
def alpha_2_30 : List (Int × Int) := [(156, 8)]
def alpha_3_30 : List (Int × Int) := [(164, 8)]
def alpha_4_30 : List (Int × Int) := [(172, 8)]
def alpha_5_30 : List (Int × Int) := [(180, 8)]
def alpha_6_30 : List (Int × Int) := [(188, 8)]
def alpha_7_30 : List (Int × Int) := [(196, 8)]
def alpha_8_30 : List (Int × Int) := [(204, 8)]
def alpha_9_30 : List (Int × Int) := [(212, 8)]
def T_GDB1Cp_30 : List (Int × Int) := [(220, 12)]
def Rev_30 : List (Int × Int) := [(232, 33)]

/-! Type 31 -/

def HS_31 : List (Int × Int) := [(31, 2)]
def DIF_31 : List (Int × Int) := [(33, 1)]
def SIF_31 : List (Int × Int) := [(34, 1)]
def AIF_31 : List (Int × Int) := [(35, 1)]
def SISMAI_31 : List (Int × Int) := [(36, 4)]
def DIF_B1C_31 : List (Int × Int) := [(40, 1)]
def SIF_B1C_31 : List (Int × Int) := [(41, 1)]
def AIF_B1C_31 : List (Int × Int) := [(42, 1)]
def t_oc_31 : List (Int × Int) := [(43, 11)]
def a_0_31 : List (Int × Int) := [(54, 25)]
def a_1_31 : List (Int × Int) := [(79, 22)]
def a_2_31 : List (Int × Int) := [(101, 11)]
def IODC_31 : List (Int × Int) := [(112, 10)]
def WN_a_31 : List (Int × Int) := [(122, 13)]
def t_oa_31 : List (Int × Int) := [(135, 8)]
def PRN_a1_31 : List (Int × Int) := [(143, 6)]
def SatType1_31 : List (Int × Int) := [(149, 2)]
def delta_A1_31 : List (Int × Int) := [(151, 8)]
def Omega_01_31 : List (Int × Int) := [(159, 7)]
def Phi_01_31 : List (Int × Int) := [(166, 7)]
def Health1_31 : List (Int × Int) := [(173, 8)]
def PRN_a2_31 : List (Int × Int) := [(181, 6)]
def SatType2_31 : List (Int × Int) := [(187, 2)]
def delta_A2_31 : List (Int × Int) := [(189, 8)]
def Omega_02_31 : List (Int × Int) := [(197, 7)]
def Phi_02_31 : List (Int × Int) := [(204, 7)]
def Health2_31 : List (Int × Int) := [(211, 8)]
def PRN_a3_31 : List (Int × Int) := [(219, 6)]
def SatType3_31 : List (Int × Int) := [(225, 2)]
def delta_A3_31 : List (Int × Int) := [(227, 8)]
def Omega_03_31 : List (Int × Int) := [(235, 7)]
def Phi_03_31 : List (Int × Int) := [(242, 7)]
def Health3_31 : List (Int × Int) := [(249, 8)]
def Rev_31 : List (Int × Int) := [(257, 8)]

/-! Type 32 -/

def HS_32 : List (Int × Int) := [(31, 2)]
def DIF_32 : List (Int × Int) := [(33, 1)]
def SIF_32 : List (Int × Int) := [(34, 1)]
def AIF_32 : List (Int × Int) := [(35, 1)]
def SISMAI_32 : List (Int × Int) := [(36, 4)]
def DIF_B1C_32 : List (Int × Int) := [(40, 1)]
def SIF_B1C_32 : List (Int × Int) := [(41, 1)]
def AIF_B1C_32 : List (Int × Int) := [(42, 1)]
def t_oc_32 : List (Int × Int) := [(43, 11)]
def a_0_32 : List (Int × Int) := [(54, 25)]
def a_1_32 : List (Int × Int) := [(79, 22)]
def a_2_32 : List (Int × Int) := [(101, 11)]
def IODC_32 : List (Int × Int) := [(112, 10)]
def t_EOP_32 : List (Int × Int) := [(122, 16)]
def PM_X_32 : List (Int × Int) := [(138, 21)]
def PM_X_dot_32 : List (Int × Int) := [(159, 15)]
def PM_Y_32 : List (Int × Int) := [(174, 21)]
def PM_Y_dot_32 : List (Int × Int) := [(195, 15)]
def dUT1_32 : List (Int × Int) := [(210, 31)]
def dUT1_dot_32 : List (Int × Int) := [(241, 19)]
def Rev_32 : List (Int × Int) := [(260, 5)]

/-! Type 33 -/

def HS_33 : List (Int × Int) := [(31, 2)]
def DIF_33 : List (Int × Int) := [(33, 1)]
def SIF_33 : List (Int × Int) := [(34, 1)]
def AIF_33 : List (Int × Int) := [(35, 1)]
def SISMAI_33 : List (Int × Int) := [(36, 4)]
def DIF_B1C_33 : List (Int × Int) := [(40, 1)]
def SIF_B1C_33 : List (Int × Int) := [(41, 1)]
def AIF_B1C_33 : List (Int × Int) := [(42, 1)]
def t_oc_33 : List (Int × Int) := [(43, 11)]
def a_0_33 : List (Int × Int) := [(54, 25)]
def a_1_33 : List (Int × Int) := [(79, 22)]
def a_2_33 : List (Int × Int) := [(101, 11)]
def GNSS_ID_33 : List (Int × Int) := [(112, 3)]
def WN_0BGTO_33 : List (Int × Int) := [(115, 13)]
def t_0BGTO_33 : List (Int × Int) := [(128, 16)]
def A_0BGTO_33 : List (Int × Int) := [(144, 16)]
def A_1BGTO_33 : List (Int × Int) := [(160, 13)]
def A_2BGTO_33 : List (Int × Int) := [(173, 7)]
def PRN_ALM_33 : List (Int × Int) := [(180, 6)]
def SatType_33 : List (Int × Int) := [(186, 2)]
def delta_A_33 : List (Int × Int) := [(188, 8)]
def Omega_0_33 : List (Int × Int) := [(196, 7)]
def Phi_0_33 : List (Int × Int) := [(203, 7)]
def Health_33 : List (Int × Int) := [(210, 8)]
def IODC_33 : List (Int × Int) := [(218, 10)]
def WN_ALM_33 : List (Int × Int) := [(228, 13)]
def t_oa_33 : List (Int × Int) := [(241, 8)]
def Rev_33 : List (Int × Int) := [(249, 16)]

/-! Type 34 -/

def HS_34 : List (Int × Int) := [(31, 2)]
def DIF_34 : List (Int × Int) := [(33, 1)]
def SIF_34 : List (Int × Int) := [(34, 1)]
def AIF_34 : List (Int × Int) := [(35, 1)]
def SISMAI_34 : List (Int × Int) := [(36, 4)]
def DIF_B1C_34 : List (Int × Int) := [(40, 1)]
def SIF_B1C_34 : List (Int × Int) := [(41, 1)]
def AIF_B1C_34 : List (Int × Int) := [(42, 1)]
def t_op_34 : List (Int × Int) := [(43, 11)]
def SISAI_ocb_34 : List (Int × Int) := [(54, 5)]
def SISAI_oc1_34 : List (Int × Int) := [(59, 3)]
def SISAI_oc2_34 : List (Int × Int) := [(62, 3)]
def t_oc_34 : List (Int × Int) := [(65, 11)]
def a_0_34 : List (Int × Int) := [(76, 25)]
def a_1_34 : List (Int × Int) := [(101, 22)]
def a_2_34 : List (Int × Int) := [(123, 11)]
def IODC_34 : List (Int × Int) := [(134, 10)]
def A_0UTC_34 : List (Int × Int) := [(144, 16)]
def A_1UTC_34 : List (Int × Int) := [(160, 13)]
def A_2UTC_34 : List (Int × Int) := [(173, 7)]
def dt_LS_34 : List (Int × Int) := [(180, 8)]
def t_ot_34 : List (Int × Int) := [(188, 16)]
def WN_ot_34 : List (Int × Int) := [(204, 13)]
def WN_LSF_34 : List (Int × Int) := [(217, 13)]
def DN_34 : List (Int × Int) := [(230, 3)]
def dt_LSF_34 : List (Int × Int) := [(233, 8)]
def Rev_34 : List (Int × Int) := [(241, 24)]

/-! Type 40 -/

def HS_40 : List (Int × Int) := [(31, 2)]
def DIF_40 : List (Int × Int) := [(33, 1)]
def SIF_40 : List (Int × Int) := [(34, 1)]
def AIF_40 : List (Int × Int) := [(35, 1)]
def SISMAI_40 : List (Int × Int) := [(36, 4)]
def DIF_B1C_40 : List (Int × Int) := [(40, 1)]
def SIF_B1C_40 : List (Int × Int) := [(41, 1)]
def AIF_B1C_40 : List (Int × Int) := [(42, 1)]
def SISAI_OE_40 : List (Int × Int) := [(43, 5)]
def t_op_40 : List (Int × Int) := [(48, 11)]
def SISAI_ocb_40 : List (Int × Int) := [(59, 5)]
def SISAI_oc1_40 : List (Int × Int) := [(64, 3)]
def SISAI_oc2_40 : List (Int × Int) := [(67, 3)]
def PRN_a_40 : List (Int × Int) := [(70, 6)]
def SatType_40 : List (Int × Int) := [(76, 2)]
def WN_a_40 : List (Int × Int) := [(78, 13)]
def t_oa_40 : List (Int × Int) := [(91, 8)]
def e_40 : List (Int × Int) := [(99, 11)]
def delta_i_40 : List (Int × Int) := [(110, 11)]
def sqrt_A_40 : List (Int × Int) := [(121, 17)]
def Omega_0_40 : List (Int × Int) := [(138, 16)]
def Omega_dot_40 : List (Int × Int) := [(154, 11)]
def omega_40 : List (Int × Int) := [(165, 16)]
def M_0_40 : List (Int × Int) := [(181, 16)]
def a_f0_40 : List (Int × Int) := [(197, 11)]
def a_f1_40 : List (Int × Int) := [(208, 10)]
def Health_40 : List (Int × Int) := [(218, 8)]
def Rev_40 : List (Int × Int) := [(226, 39)]

/-! ### CNAV2 navigation message: the layout of each message type -/

/-- Message type 10: the common fields `PRN`, `MesType`, `SOW`, the fields declared
under `Type 10` in declaration order, and the `CRC` field. -/
def message_type_10 : List (Int × Int) :=
  PRN ++ MesType ++ SOW ++ WN_10 ++ DIF_10 ++ SIF_10 ++ AIF_10 ++ SISMAI_10 ++ DIF_B1C_10 ++
    SIF_B1C_10 ++ AIF_B1C_10 ++ IODE_10 ++ t_oe_10 ++ SatType_10 ++ dA_10 ++ A_dot_10 ++ dn_0_10
    ++ dn_0_dot_10 ++ M_0_10 ++ e_10 ++ omega_10 ++ CRC

/-- Message type 11: the common fields `PRN`, `MesType`, `SOW`, the fields declared
under `Type 11` in declaration order, and the `CRC` field. -/
def message_type_11 : List (Int × Int) :=
  PRN ++ MesType ++ SOW ++ HS_11 ++ DIF_11 ++ SIF_11 ++ AIF_11 ++ SISMAI_11 ++ DIF_B1C_11 ++
    SIF_B1C_11 ++ AIF_B1C_11 ++ Omega_0_11 ++ i_0_11 ++ Omega_dot_11 ++ i_0_dot_11 ++ C_IS_11 ++
    C_IC_11 ++ C_RS_11 ++ C_RC_11 ++ C_US_11 ++ C_UC_11 ++ CRC

/-- Message type 30: the common fields `PRN`, `MesType`, `SOW`, the fields declared
under `Type 30` in declaration order, and the `CRC` field. -/
def message_type_30 : List (Int × Int) :=
  PRN ++ MesType ++ SOW ++ HS_30 ++ DIF_30 ++ SIF_30 ++ AIF_30 ++ SISMAI_30 ++ DIF_B1C_30 ++
    SIF_B1C_30 ++ AIF_B1C_30 ++ t_oc_30 ++ a_0_30 ++ a_1_30 ++ a_2_30 ++ IODC_30 ++ T_GDB2ap_30
    ++ ISC_B2ad_30 ++ alpha_1_30 ++ alpha_2_30 ++ alpha_3_30 ++ alpha_4_30 ++ alpha_5_30 ++
    alpha_6_30 ++ alpha_7_30 ++ alpha_8_30 ++ alpha_9_30 ++ T_GDB1Cp_30 ++ Rev_30 ++ CRC

/-- Message type 31: the common fields `PRN`, `MesType`, `SOW`, the fields declared
under `Type 31` in declaration order, and the `CRC` field. -/
def message_type_31 : List (Int × Int) :=
  PRN ++ MesType ++ SOW ++ HS_31 ++ DIF_31 ++ SIF_31 ++ AIF_31 ++ SISMAI_31 ++ DIF_B1C_31 ++
    SIF_B1C_31 ++ AIF_B1C_31 ++ t_oc_31 ++ a_0_31 ++ a_1_31 ++ a_2_31 ++ IODC_31 ++ WN_a_31 ++
    t_oa_31 ++ PRN_a1_31 ++ SatType1_31 ++ delta_A1_31 ++ Omega_01_31 ++ Phi_01_31 ++ Health1_31
    ++ PRN_a2_31 ++ SatType2_31 ++ delta_A2_31 ++ Omega_02_31 ++ Phi_02_31 ++ Health2_31 ++
    PRN_a3_31 ++ SatType3_31 ++ delta_A3_31 ++ Omega_03_31 ++ Phi_03_31 ++ Health3_31 ++ Rev_31
    ++ CRC

/-- Message type 32: the common fields `PRN`, `MesType`, `SOW`, the fields declared
under `Type 32` in declaration order, and the `CRC` field. -/
def message_type_32 : List (Int × Int) :=
  PRN ++ MesType ++ SOW ++ HS_32 ++ DIF_32 ++ SIF_32 ++ AIF_32 ++ SISMAI_32 ++ DIF_B1C_32 ++
    SIF_B1C_32 ++ AIF_B1C_32 ++ t_oc_32 ++ a_0_32 ++ a_1_32 ++ a_2_32 ++ IODC_32 ++ t_EOP_32 ++
    PM_X_32 ++ PM_X_dot_32 ++ PM_Y_32 ++ PM_Y_dot_32 ++ dUT1_32 ++ dUT1_dot_32 ++ Rev_32 ++ CRC

/-- Message type 33: the common fields `PRN`, `MesType`, `SOW`, the fields declared
under `Type 33` in declaration order, and the `CRC` field. -/
def message_type_33 : List (Int × Int) :=
  PRN ++ MesType ++ SOW ++ HS_33 ++ DIF_33 ++ SIF_33 ++ AIF_33 ++ SISMAI_33 ++ DIF_B1C_33 ++
    SIF_B1C_33 ++ AIF_B1C_33 ++ t_oc_33 ++ a_0_33 ++ a_1_33 ++ a_2_33 ++ GNSS_ID_33 ++
    WN_0BGTO_33 ++ t_0BGTO_33 ++ A_0BGTO_33 ++ A_1BGTO_33 ++ A_2BGTO_33 ++ PRN_ALM_33 ++
    SatType_33 ++ delta_A_33 ++ Omega_0_33 ++ Phi_0_33 ++ Health_33 ++ IODC_33 ++ WN_ALM_33 ++
    t_oa_33 ++ Rev_33 ++ CRC

/-- Message type 34: the common fields `PRN`, `MesType`, `SOW`, the fields declared
under `Type 34` in declaration order, and the `CRC` field. -/
def message_type_34 : List (Int × Int) :=
  PRN ++ MesType ++ SOW ++ HS_34 ++ DIF_34 ++ SIF_34 ++ AIF_34 ++ SISMAI_34 ++ DIF_B1C_34 ++
    SIF_B1C_34 ++ AIF_B1C_34 ++ t_op_34 ++ SISAI_ocb_34 ++ SISAI_oc1_34 ++ SISAI_oc2_34 ++
    t_oc_34 ++ a_0_34 ++ a_1_34 ++ a_2_34 ++ IODC_34 ++ A_0UTC_34 ++ A_1UTC_34 ++ A_2UTC_34 ++
    dt_LS_34 ++ t_ot_34 ++ WN_ot_34 ++ WN_LSF_34 ++ DN_34 ++ dt_LSF_34 ++ Rev_34 ++ CRC

/-- Message type 40: the common fields `PRN`, `MesType`, `SOW`, the fields declared
under `Type 40` in declaration order, and the `CRC` field. -/
def message_type_40 : List (Int × Int) :=
  PRN ++ MesType ++ SOW ++ HS_40 ++ DIF_40 ++ SIF_40 ++ AIF_40 ++ SISMAI_40 ++ DIF_B1C_40 ++
    SIF_B1C_40 ++ AIF_B1C_40 ++ SISAI_OE_40 ++ t_op_40 ++ SISAI_ocb_40 ++ SISAI_oc1_40 ++
    SISAI_oc2_40 ++ PRN_a_40 ++ SatType_40 ++ WN_a_40 ++ t_oa_40 ++ e_40 ++ delta_i_40 ++
    sqrt_A_40 ++ Omega_0_40 ++ Omega_dot_40 ++ omega_40 ++ M_0_40 ++ a_f0_40 ++ a_f1_40 ++
    Health_40 ++ Rev_40 ++ CRC

/-- The fields tile the bits `first .. last`: every field has a positive length, the
first field starts at bit `first`, each further field starts at the previous
field's first bit plus the previous field's length, and the last field ends at
bit `last`. -/
def tiles_exactly (first last : Int) (fields : List (Int × Int)) : Prop :=
  fields.all (fun f => decide (0 < f.2)) = true ∧
  fields.head?.map Prod.fst = some first ∧
  (fields.zip fields.tail).all (fun p => decide (p.2.1 = p.1.1 + p.1.2)) = true ∧
  fields.getLast?.map (fun f => f.1 + f.2 - 1) = some last

/-! ## Theorems -/

/-! ### Conversions to `float` -/

theorem round_half_even_of_lt (x : ℚ) (n : Int) (h1 : (n : ℚ) - 1 / 2 < x)
    (h2 : x < n + 1 / 2) : round_half_even x = n := by
  have hf : ⌊x + 1 / 2⌋ = n := by
    rw [Int.floor_eq_iff]
    constructor <;> linarith
  unfold round_half_even
  rw [hf, if_neg]
  rintro ⟨h, _⟩
  linarith

theorem round_half_even_intCast (n : Int) : round_half_even (n : ℚ) = n :=
  round_half_even_of_lt _ n (by linarith) (by linarith)

theorem log2_eq (q : ℚ) (e : Int) (hq : 0 < q) (hlo : (2 : ℚ) ^ e ≤ q)
    (hhi : q < (2 : ℚ) ^ (e + 1)) : Int.log 2 q = e := by
  have h1 : e ≤ Int.log 2 q :=
    (Int.zpow_le_iff_le_log (by norm_num) hq).mp (by exact_mod_cast hlo)
  have h2 : Int.log 2 q < e + 1 :=
    (Int.lt_zpow_iff_log_lt (by norm_num) hq).mp (by exact_mod_cast hhi)
  omega

theorem toFloat_zero : toFloat 0 = 0 := by
  unfold toFloat
  simp

/-- The `float` nearest to a positive value in the normal range, from its binary
exponent `e` and the integer `n` nearest to its significand in units of
`2 ^ (e - 23)`. -/
theorem toFloat_eq (q : ℚ) (e n : Int) (hq : 0 < q) (he : -126 ≤ e)
    (hlo : (2 : ℚ) ^ e ≤ q) (hhi : q < (2 : ℚ) ^ (e + 1))
    (h1 : (n : ℚ) - 1 / 2 < q / 2 ^ (e - 23)) (h2 : q / 2 ^ (e - 23) < n + 1 / 2) :
    toFloat q = n * 2 ^ (e - 23) := by
  unfold toFloat
  rw [if_neg (ne_of_gt hq), abs_of_pos hq, log2_eq q e hq hlo hhi, max_eq_left he,
    round_half_even_of_lt _ n h1 h2]

/-- A positive value below half the least subnormal narrows to `0.0f`. -/
theorem toFloat_eq_zero_of_lt (q : ℚ) (hq : 0 < q) (hlt : q < (2 : ℚ) ^ (-150 : Int)) :
    toFloat q = 0 := by
  have hlog : Int.log 2 q < -150 :=
    (Int.lt_zpow_iff_log_lt (by norm_num) hq).mp (by exact_mod_cast hlt)
  unfold toFloat
  rw [if_neg (ne_of_gt hq), abs_of_pos hq, max_eq_right (by omega)]
  have hx : q / 2 ^ ((-126 : Int) - 23) < 1 / 2 := by
    rw [div_lt_iff₀ (by positivity)]
    calc q < (2 : ℚ) ^ (-150 : Int) := hlt
      _ = 1 / 2 * 2 ^ ((-126 : Int) - 23) := by norm_num
  have hx0 : 0 < q / 2 ^ ((-126 : Int) - 23) := div_pos hq (by positivity)
  rw [round_half_even_of_lt _ 0 (by push_cast; linarith) (by push_cast; linarith)]
  simp

/-- A value in the normal range of `float` does not narrow to zero. -/
theorem toFloat_pos (q : ℚ) (hq : (2 : ℚ) ^ (-126 : Int) ≤ q) : 0 < toFloat q := by
  have hq0 : 0 < q := lt_of_lt_of_le (by positivity) hq
  have hlog : -126 ≤ Int.log 2 q :=
    (Int.zpow_le_iff_le_log (by norm_num) hq0).mp (by exact_mod_cast hq)
  have hle : ((2 : Nat) : ℚ) ^ Int.log 2 q ≤ q := Int.zpow_log_le_self (by norm_num) hq0
  unfold toFloat
  rw [if_neg (ne_of_gt hq0), abs_of_pos hq0, max_eq_left hlog]
  apply mul_pos _ (by positivity)
  have hx : (2 : ℚ) ^ (23 : Int) ≤ q / 2 ^ (Int.log 2 q - 23) := by
    rw [le_div_iff₀ (by positivity), ← zpow_add₀ (by norm_num)]
    have : (23 : Int) + (Int.log 2 q - 23) = Int.log 2 q := by ring
    rw [this]
    exact_mod_cast hle
  have hfl : (8388608 : Int) ≤ ⌊q / 2 ^ (Int.log 2 q - 23) + 1 / 2⌋ := by
    rw [Int.le_floor]
    have : (2 : ℚ) ^ (23 : Int) = 8388608 := by norm_num
    push_cast
    linarith
  have hr : (8388607 : Int) ≤ round_half_even (q / 2 ^ (Int.log 2 q - 23)) := by
    unfold round_half_even
    split <;> omega
  exact_mod_cast (by omega : (0 : Int) < round_half_even (q / 2 ^ (Int.log 2 q - 23)))

/-- A value with at most 24 significant bits, at or above the subnormal spacing, is
a `float`: the conversion keeps it. -/
theorem toFloat_exact (m : Nat) (k : Int) (hm : m < 2 ^ 24) (hk : -149 ≤ k) :
    toFloat ((m : ℚ) * 2 ^ k) = (m : ℚ) * 2 ^ k := by
  rcases Nat.eq_zero_or_pos m with h0 | hpos
  · subst h0; simp [toFloat_zero]
  have hq0 : (0 : ℚ) < (m : ℚ) * 2 ^ k := mul_pos (by exact_mod_cast hpos) (by positivity)
  have hlt : (m : ℚ) * 2 ^ k < (2 : ℚ) ^ ((24 : Int) + k) := by
    rw [zpow_add₀ (by norm_num)]
    apply mul_lt_mul_of_pos_right _ (by positivity)
    have h24 : (2 : ℚ) ^ (24 : Int) = 16777216 := by norm_num
    rw [h24]
    exact_mod_cast hm
  have hlog : Int.log 2 ((m : ℚ) * 2 ^ k) < 24 + k :=
    (Int.lt_zpow_iff_log_lt (by norm_num) hq0).mp (by exact_mod_cast hlt)
  unfold toFloat
  rw [if_neg (ne_of_gt hq0), abs_of_pos hq0]
  have hek : max (Int.log 2 ((m : ℚ) * 2 ^ k)) (-126) ≤ k + 23 :=
    max_le (by omega) (by omega)
  generalize max (Int.log 2 ((m : ℚ) * 2 ^ k)) (-126) = e at hek ⊢
  obtain ⟨j, hj⟩ : ∃ j : Nat, k - (e - 23) = j := Int.eq_ofNat_of_zero_le (by omega)
  have hx : (m : ℚ) * 2 ^ k / 2 ^ (e - 23) = (((m * 2 ^ j : Nat) : Int) : ℚ) := by
    rw [mul_div_assoc, ← zpow_sub₀ (by norm_num), hj, zpow_natCast]
    push_cast
    ring
  rw [hx, round_half_even_intCast]
  push_cast
  rw [mul_assoc, ← zpow_natCast, ← hj, ← zpow_add₀ (by norm_num)]
  congr 2
  ring

theorem toFloat_natCast (n : Nat) (h : n ≤ 2 ^ 24) : toFloat (n : ℚ) = n := by
  rcases Nat.lt_or_ge n (2 ^ 24) with hlt | hge
  · simpa using toFloat_exact n 0 hlt (by decide)
  · have hn : n = 2 ^ 24 := le_antisymm h hge
    subst hn
    have h1 := toFloat_exact 1 24 (by decide) (by decide)
    norm_num at h1 ⊢
    exact h1

theorem toFloat_intCast (n : Int) (h0 : 0 ≤ n) (h : n ≤ 2 ^ 24) : toFloat (n : ℚ) = n := by
  obtain ⟨m, rfl⟩ := Int.eq_ofNat_of_zero_le h0
  have := toFloat_natCast m (by exact_mod_cast h)
  exact_mod_cast this

theorem toInt32_of_lt {u : Nat} (h : u < 2 ^ 31) : toInt32 u = (u : Int) := by
  unfold toInt32
  have h1 : u % 2 ^ 32 = u := Nat.mod_eq_of_lt (by omega)
  rw [h1, if_pos h]

theorem toInt32_negUInt32 {u : Nat} (h0 : 0 < u) (h : u < 2 ^ 31) :
    toInt32 (negUInt32 u) = -(u : Int) := by
  unfold toInt32 negUInt32
  have h1 : u % 2 ^ 32 = u := Nat.mod_eq_of_lt (by omega)
  have h2 : (2 ^ 32 - u) % 2 ^ 32 = 2 ^ 32 - u := Nat.mod_eq_of_lt (by omega)
  rw [h1, h2, h2, if_neg (by omega)]
  omega

theorem toInt32_step {d : Int} {s : Nat} (hlo : -(2 ^ 31) ≤ d + s) (hhi : d + s < 2 ^ 31)
    (hs : s < 2 ^ 31) :
    toInt32 (toUInt32 d + s) = d + s := by
  unfold toInt32 toUInt32
  split <;> omega

/-- The walk started at `doppler_max - r` counts `r / doppler_step + 1` further bins. -/
theorem doppler_walk_count (doppler_max doppler_step : Nat) (hs : 0 < doppler_step)
    (hsum : doppler_max + doppler_step < 2 ^ 31) :
    ∀ (fuel r bins : Nat), r ≤ 2 * doppler_max → r / doppler_step + 2 ≤ fuel →
      bins + r / doppler_step + 1 < 2 ^ 32 →
      doppler_walk fuel doppler_max doppler_step ((doppler_max : Int) - r) bins
        = some (bins + r / doppler_step + 1) := by
  intro fuel
  induction fuel with
  | zero => intro r bins _ hf _; exact absurd hf (by simp)
  | succ fuel ih =>
    intro r bins hr hf hb
    have hmax : toInt32 doppler_max = (doppler_max : Int) := toInt32_of_lt (by omega)
    have hstep : toInt32 (toUInt32 ((doppler_max : Int) - r) + doppler_step)
        = (doppler_max : Int) - r + doppler_step :=
      toInt32_step (by omega) (by omega) (by omega)
    rw [doppler_walk, hmax, if_pos (by omega), hstep]
    by_cases hle : doppler_step ≤ r
    · have hdiv : r / doppler_step = (r - doppler_step) / doppler_step + 1 := by
        rw [Nat.div_eq r doppler_step, if_pos ⟨hs, hle⟩]
      have hcast : (doppler_max : Int) - r + doppler_step
          = (doppler_max : Int) - ((r - doppler_step : Nat) : Int) := by omega
      have hih := ih (r - doppler_step) (bins + 1) (by omega)
      rw [hdiv] at hf hb ⊢
      generalize (r - doppler_step) / doppler_step = q at hf hb hih ⊢
      have hbm : (bins + 1) % 2 ^ 32 = bins + 1 := Nat.mod_eq_of_lt (by omega)
      rw [hbm, hcast, hih (by omega) (by omega)]
      congr 1
      omega
    · have hdiv : r / doppler_step = 0 := Nat.div_eq_of_lt (by omega)
      rw [hdiv] at hf hb ⊢
      have hbm : (bins + 1) % 2 ^ 32 = bins + 1 := Nat.mod_eq_of_lt (by omega)
      rw [hbm]
      cases fuel with
      | zero => omega
      | succ fuel =>
        rw [doppler_walk, hmax, if_neg (by omega)]

theorem frequency_bins_eq (doppler_max doppler_step fuel : Nat) (hm : 0 < doppler_max)
    (hs : 0 < doppler_step) (hsum : doppler_max + doppler_step < 2 ^ 31)
    (hf : 2 * doppler_max / doppler_step + 2 ≤ fuel) :
    frequency_bins fuel doppler_max doppler_step
      = some (2 * doppler_max / doppler_step + 1) := by
  unfold frequency_bins
  rw [toInt32_negUInt32 hm (by omega)]
  have hle : 2 * doppler_max / doppler_step ≤ 2 * doppler_max := Nat.div_le_self _ _
  have h := doppler_walk_count doppler_max doppler_step hs hsum fuel (2 * doppler_max) 0
    (le_refl _) hf (by omega)
  have hcast : -(doppler_max : Int) = (doppler_max : Int) - ((2 * doppler_max : Nat) : Int) := by
    push_cast; ring
  rw [hcast, h]
  simp

theorem toInt32_range (u : Nat) : -(2 ^ 31) ≤ toInt32 u ∧ toInt32 u < 2 ^ 31 := by
  unfold toInt32
  split <;> omega

/-- With `doppler_step_ = 0` a walk whose variable is at or below the bound stays
there: no amount of fuel lets it return. -/
theorem doppler_walk_step_zero (doppler_max : Nat) :
    ∀ (fuel : Nat) (doppler : Int) (bins : Nat), -(2 ^ 31) ≤ doppler → doppler < 2 ^ 31 →
      doppler ≤ toInt32 doppler_max → doppler_walk fuel doppler_max 0 doppler bins = none := by
  intro fuel
  induction fuel with
  | zero => intro doppler bins _ _ _; rfl
  | succ fuel ih =>
    intro doppler bins hlo hhi hle
    have hstep : toInt32 (toUInt32 doppler + 0) = doppler := by
      have h := toInt32_step (d := doppler) (s := 0) (by simpa using hlo) (by simpa using hhi)
        (by decide)
      simpa using h
    rw [doppler_walk, if_pos hle, hstep]
    exact ih doppler _ hlo hhi hle

/-- The walk of `calculate_threshold` with `doppler_step_ = 0` and
`doppler_max_ ≤ 2 ^ 31` never returns. -/
theorem frequency_bins_step_zero (doppler_max : Nat) (hm : doppler_max ≤ 2 ^ 31) (fuel : Nat) :
    frequency_bins fuel doppler_max 0 = none := by
  unfold frequency_bins
  refine doppler_walk_step_zero doppler_max fuel _ 0 (toInt32_range _).1 (toInt32_range _).2 ?_
  unfold toInt32 negUInt32
  split <;> split <;> omega

/-- The walk of `calculate_threshold` with `doppler_step_ = 0` and
`2 ^ 31 < doppler_max_ < 2 ^ 32` starts above its bound and counts no bin. -/
theorem frequency_bins_step_zero_wrapped (doppler_max : Nat) (hlo : 2 ^ 31 < doppler_max)
    (hhi : doppler_max < 2 ^ 32) (fuel : Nat) :
    frequency_bins (fuel + 1) doppler_max 0 = some 0 := by
  unfold frequency_bins
  rw [doppler_walk, if_neg]
  unfold toInt32 negUInt32
  split <;> split <;> omega

/-- The walk for `doppler_step > 0` and `doppler_max + doppler_step < 2 ^ 31`,
`doppler_max = 0` included: it ends with `2 * doppler_max / doppler_step + 1`
bins as soon as the fuel covers that many iterations and the final test. -/
theorem frequency_bins_terminates (doppler_max doppler_step fuel : Nat) (hs : 0 < doppler_step)
    (hsum : doppler_max + doppler_step < 2 ^ 31)
    (hf : 2 * doppler_max / doppler_step + 2 ≤ fuel) :
    frequency_bins fuel doppler_max doppler_step
      = some (2 * doppler_max / doppler_step + 1) := by
  rcases Nat.eq_zero_or_pos doppler_max with h0 | hpos
  · subst h0
    have h := doppler_walk_count 0 doppler_step hs hsum fuel 0 0 (le_refl _)
      (by simpa using hf) (by simp)
    unfold frequency_bins
    have hstart : toInt32 (negUInt32 0) = ((0 : Nat) : Int) - ((0 : Nat) : Int) := by decide
    rw [hstart, h]
    simp
  · exact frequency_bins_eq doppler_max doppler_step fuel hpos hs hsum hf

/-- C1 (as amended): for `doppler_max > 0` and `doppler_step > 0` with
`doppler_max + doppler_step < 2 ^ 31`, the walk of `calculate_threshold` ends and
leaves `frequency_bins = floor (2 * doppler_max / doppler_step) + 1`. -/
theorem C1_frequency_bins_count (doppler_max doppler_step fuel : Nat) (hm : 0 < doppler_max)
    (hs : 0 < doppler_step) (hsum : doppler_max + doppler_step < 2 ^ 31)
    (hf : 2 * doppler_max / doppler_step + 2 ≤ fuel) :
    frequency_bins fuel doppler_max doppler_step
      = some (2 * doppler_max / doppler_step + 1) :=
  frequency_bins_eq doppler_max doppler_step fuel hm hs hsum hf

theorem C1_frequency_bins_count_witness :
    frequency_bins 42 5000 250 = some 41 :=
  C1_frequency_bins_count 5000 250 42 (by decide) (by decide) (by decide) (by decide)

/-- C1 (as stated) fails for the 32-bit value `doppler_max = 2 ^ 31 + 1` with
`doppler_step = 1`: the start of the walk is `+2147483647`, its bound is
`-2147483647`, and the loop counts no bin at all. -/
theorem C1_counterexample :
    frequency_bins 1 2147483649 1 = some 0 ∧
      ∀ fuel, frequency_bins fuel 2147483649 1 ≠ some (2 * 2147483649 / 1 + 1) := by
  refine ⟨by decide, ?_⟩
  intro fuel
  cases fuel with
  | zero => simp [frequency_bins, doppler_walk]
  | succ n =>
    have h : frequency_bins (n + 1) 2147483649 1 = some 0 := by
      unfold frequency_bins
      rw [doppler_walk, if_neg (by decide)]
    rw [h]
    decide

/-! ### C2 -/

theorem threshold_of_bins_eq (vector_length bins : Nat) (pfa : ℝ)
    (hn : vector_length * bins < 2 ^ 32) :
    threshold_of_bins vector_length bins pfa
      = -Real.log (1 - (1 - pfa) ^ ((1 : ℝ) / ((vector_length * bins : Nat) : ℝ)))
          / (vector_length : ℝ) := by
  unfold threshold_of_bins exponential_quantile
  rw [Nat.mod_eq_of_lt hn]

theorem val_mem_Ioo (pfa e : ℝ) (h0 : 0 < pfa) (h1 : pfa < 1) (he : 0 < e) :
    0 < (1 - pfa) ^ e ∧ (1 - pfa) ^ e < 1 :=
  ⟨Real.rpow_pos_of_pos (by linarith) e, Real.rpow_lt_one (by linarith) (by linarith) he⟩

/-- C2 (as amended): for `0 < pfa < 1`, `vector_length > 0` and a bin count `>= 1`
left by the walk, with `vector_length * frequency_bins < 2 ^ 32`,
`calculate_threshold(pfa)` returns `-ln (1 - val) / vector_length` for
`val = (1 - pfa) ^ (1 / ncells)`, `ncells = vector_length * frequency_bins`, and
that value is the point where the exponential distribution function of rate
`vector_length` takes the value `val`. -/
theorem C2_threshold_is_quantile (fuel vector_length doppler_max doppler_step bins : Nat)
    (pfa : ℝ) (h0 : 0 < pfa) (h1 : pfa < 1) (hv : 0 < vector_length) (hb : 1 ≤ bins)
    (hbins : frequency_bins fuel doppler_max doppler_step = some bins)
    (hn : vector_length * bins < 2 ^ 32) :
    ∃ t, calculate_threshold fuel vector_length doppler_max doppler_step pfa = some t ∧
      t = -Real.log (1 - (1 - pfa) ^ ((1 : ℝ) / ((vector_length * bins : Nat) : ℝ)))
          / (vector_length : ℝ) ∧
      1 - Real.exp (-(vector_length : ℝ) * t)
        = (1 - pfa) ^ ((1 : ℝ) / ((vector_length * bins : Nat) : ℝ)) := by
  refine ⟨_, by rw [calculate_threshold, hbins]; rfl, threshold_of_bins_eq _ _ _ hn, ?_⟩
  rw [threshold_of_bins_eq _ _ _ hn]
  have hpos : 0 < vector_length * bins := Nat.mul_pos hv (by omega)
  have hc : (0 : ℝ) < ((vector_length * bins : Nat) : ℝ) := by exact_mod_cast hpos
  obtain ⟨hv0, hv1⟩ := val_mem_Ioo _ _ h0 h1 (one_div_pos.mpr hc)
  have hvl : (vector_length : ℝ) ≠ 0 := by exact_mod_cast hv.ne'
  have hexp : -(vector_length : ℝ)
      * (-Real.log (1 - (1 - pfa) ^ ((1 : ℝ) / ((vector_length * bins : Nat) : ℝ)))
          / (vector_length : ℝ))
      = Real.log (1 - (1 - pfa) ^ ((1 : ℝ) / ((vector_length * bins : Nat) : ℝ))) := by
    field_simp
  rw [hexp, Real.exp_log (by linarith)]
  ring

theorem C2_threshold_is_quantile_witness :
    ∃ t, calculate_threshold 42 25000 5000 250 (1 / 1000) = some t ∧
      t = -Real.log (1 - (1 - (1 / 1000 : ℝ)) ^ ((1 : ℝ) / ((25000 * 41 : Nat) : ℝ)))
          / ((25000 : Nat) : ℝ) ∧
      1 - Real.exp (-((25000 : Nat) : ℝ) * t)
        = (1 - (1 / 1000 : ℝ)) ^ ((1 : ℝ) / ((25000 * 41 : Nat) : ℝ)) :=
  C2_threshold_is_quantile 42 25000 5000 250 41 (1 / 1000) (by norm_num) (by norm_num)
    (by decide) (by decide) (by decide) (by decide)

/-- C2 (as stated) fails when the 32-bit product wraps: with `vector_length = 65537`
and the 65536 bins of `doppler_max = 65535`, `doppler_step = 2`, the code uses
`ncells = 65536`, not `65537 * 65536`, and the threshold for `pfa = 1/2` is not the
claimed one. -/
theorem C2_counterexample :
    frequency_bins 65537 65535 2 = some 65536 ∧
      calculate_threshold 65537 65537 65535 2 (1 / 2)
        ≠ some (-Real.log (1 - (1 - (1 / 2 : ℝ)) ^ ((1 : ℝ) / ((65537 * 65536 : Nat) : ℝ)))
            / ((65537 : Nat) : ℝ)) := by
  have hb : frequency_bins 65537 65535 2 = some 65536 :=
    frequency_bins_eq 65535 2 65537 (by decide) (by decide) (by decide) (by decide)
  refine ⟨hb, ?_⟩
  rw [calculate_threshold, hb]
  intro h
  have h2 := Option.some.inj h
  unfold threshold_of_bins exponential_quantile at h2
  have hmod : (65537 * 65536) % 2 ^ 32 = 65536 := by decide
  simp only [hmod] at h2
  have hlt : (1 - (1 / 2 : ℝ)) ^ ((1 : ℝ) / ((65536 : Nat) : ℝ))
      < (1 - (1 / 2 : ℝ)) ^ ((1 : ℝ) / ((65537 * 65536 : Nat) : ℝ)) := by
    apply Real.rpow_lt_rpow_of_exponent_gt (by norm_num) (by norm_num)
    push_cast
    norm_num
  obtain ⟨ha0, ha1⟩ := val_mem_Ioo (1 / 2) ((1 : ℝ) / ((65536 : Nat) : ℝ))
    (by norm_num) (by norm_num) (by norm_num)
  obtain ⟨hb0, hb1⟩ := val_mem_Ioo (1 / 2)
    ((1 : ℝ) / ((65537 * 65536 : Nat) : ℝ)) (by norm_num) (by norm_num) (by norm_num)
  have hne : ((65537 : Nat) : ℝ) ≠ 0 := by norm_num
  have h3 : Real.log (1 - (1 - (1 / 2 : ℝ)) ^ ((1 : ℝ) / ((65536 : Nat) : ℝ)))
      = Real.log (1 - (1 - (1 / 2 : ℝ)) ^ ((1 : ℝ) / ((65537 * 65536 : Nat) : ℝ))) := by
    have h4 := (div_left_inj' hne).mp h2
    linarith
  have h5 := Real.log_injOn_pos (Set.mem_Ioi.mpr (by linarith)) (Set.mem_Ioi.mpr (by linarith)) h3
  linarith

/-! ### C4 -/

theorem toUInt32_of_lt {n : Nat} (h : n < 2 ^ 32) : toUInt32 (n : Int) = n := by
  unfold toUInt32
  omega

theorem decimation_loop_spec (n : Nat) :
    ∀ d : Nat, 1 ≤ d → ∃ r, decimation_loop (n : Int) d = some r ∧ 1 ≤ r ∧ r ≤ d ∧ r ∣ n ∧
      ∀ e, r < e → e ≤ d → ¬ e ∣ n := by
  intro d
  induction d with
  | zero => intro h; omega
  | succ d ih =>
    intro _
    have hmod : Int.tmod (n : Int) ((d + 1 : Nat) : Int) = ((n % (d + 1) : Nat) : Int) :=
      (Int.ofNat_tmod n (d + 1)).symm
    rw [decimation_loop, hmod]
    by_cases hdvd : (d + 1) ∣ n
    · have h0 : n % (d + 1) = 0 := Nat.mod_eq_zero_of_dvd hdvd
      rw [h0, if_neg (by simp)]
      exact ⟨d + 1, rfl, by omega, le_refl _, hdvd, fun e h1 h2 => by omega⟩
    · have h0 : n % (d + 1) ≠ 0 := fun h => hdvd (Nat.dvd_of_mod_eq_zero h)
      have hpos : ((n % (d + 1) : Nat) : Int) > 0 := by omega
      rw [if_pos hpos]
      have hd : 1 ≤ d := by
        rcases Nat.eq_zero_or_pos d with hz | hp
        · subst hz; exact absurd (one_dvd n) hdvd
        · exact hp
      obtain ⟨r, hr, h1, h2, h3, h4⟩ := ih hd
      refine ⟨r, hr, h1, by omega, h3, ?_⟩
      intro e he1 he2
      rcases Nat.lt_or_ge d e with hlt | hge
      · have : e = d + 1 := by omega
        subst this; exact hdvd
      · exact h4 e he1 hge

theorem resampler_policy_spec (n m : Nat) (dflt : ℚ × Int) (hm : 0 < m) (hmn : m < n)
    (hq : n / m ≤ 2 ^ 24) :
    ∃ r : Nat, resampler_policy (n : Int) (m : Int) dflt
        = some ((r : ℚ), ((n / r : Nat) : Int)) ∧
      1 ≤ r ∧ r ≤ n / m ∧ r ∣ n ∧ ∀ e, r < e → e ≤ n / m → ¬ e ∣ n := by
  have hq1 : 1 ≤ n / m := (Nat.one_le_div_iff hm).mpr hmn.le
  obtain ⟨r, hr, h1, h2, h3, h4⟩ := decimation_loop_spec n (n / m) hq1
  refine ⟨r, ?_, h1, h2, h3, h4⟩
  unfold resampler_policy
  have hdiv : Int.tdiv (n : Int) (m : Int) = ((n / m : Nat) : Int) := (Int.ofNat_tdiv n m).symm
  rw [if_pos (by omega), if_neg (by omega), hdiv, toUInt32_of_lt (by omega), hr]
  have hfl : toFloat (r : ℚ) = r := toFloat_natCast r (by omega)
  have hlt : (r : ℚ) < 2 ^ 31 := by
    have : r < 2 ^ 31 := by omega
    exact_mod_cast this
  simp only [Option.some_bind, hfl, hlt, if_true, Int.floor_natCast]
  rw [← Int.ofNat_tdiv]

/-- The statements of the resampler block after the loop, for the value the loop
left in `decimation`. -/
theorem resampler_policy_of_loop (fs_in fs_opt : Int) (dflt : ℚ × Int) (d : Nat) (r : ℚ)
    (hgt : fs_in > fs_opt) (hne : ¬ fs_opt = 0)
    (hloop : decimation_loop fs_in (toUInt32 (Int.tdiv fs_in fs_opt)) = some d)
    (hfl : toFloat (d : ℚ) = r) (hlt : r < 2 ^ 31) :
    resampler_policy fs_in fs_opt dflt = some (r, Int.tdiv fs_in ⌊r⌋) := by
  unfold resampler_policy
  rw [if_pos hgt, if_neg hne, hloop]
  simp only [Option.some_bind, hfl, hlt, if_true]

/-- The resampler block at `fs_in = 33554435 * 10230000`: the loop leaves the
divisor `33554435`, which the `float` member holds as `33554436`. -/
theorem resampler_policy_rounded (dflt : ℚ × Int) :
    resampler_policy 343261870050000 10230000 dflt = some (33554436, 10229999) := by
  have hstart : toUInt32 (Int.tdiv 343261870050000 10230000) = 33554434 + 1 := by decide
  have hmod : ¬ Int.tmod 343261870050000 ((33554434 + 1 : Nat) : Int) > 0 := by decide
  have hloop : decimation_loop 343261870050000
      (toUInt32 (Int.tdiv 343261870050000 10230000)) = some (33554434 + 1) := by
    rw [hstart, decimation_loop, if_neg hmod]
  have hfl : toFloat ((33554434 + 1 : Nat) : ℚ) = 33554436 := by
    have h := toFloat_eq 33554435 25 8388609 (by norm_num) (by norm_num) (by norm_num)
      (by norm_num) (by norm_num) (by norm_num)
    norm_num at h ⊢
    exact h
  have hfloor : ⌊(33554436 : ℚ)⌋ = 33554436 := by
    have := Int.floor_intCast (33554436 : Int) (α := ℚ)
    exact_mod_cast this
  have hdiv : Int.tdiv 343261870050000 33554436 = 10229999 := by decide
  rw [resampler_policy_of_loop 343261870050000 10230000 dflt (33554434 + 1) 33554436
    (by decide) (by decide) hloop hfl (by norm_num), hfloor, hdiv]

/-- With the resampler enabled on `gr_complex` items, the constructor leaves in the
parameters the pair that `resampler_policy` computes. -/
theorem b1c_resampler_fields (α : Type) [Zero α] (k : Beidou_B1C) (FLAGS_doppler_max : Int)
    (acq0 : Acq_Conf) (cfg : ConfigurationInterface) (role : String) (ins outs : Nat)
    (hres : (cfg.property_bool "GNSS-SDR.use_acquisition_resampler").getD false = true)
    (hitem : (cfg.property_string (role ++ ".item_type")).getD "gr_complex" = "gr_complex") :
    (BeidouB1cPcpsAcquisition.BeidouB1cPcpsAcquisition k FLAGS_doppler_max acq0 cfg
        role ins outs).map
      (fun st : Adapter α => (Acq_Conf.resampler_ratio st.acq_parameters_, st.acq_parameters_.resampled_fs))
    = resampler_policy
        ((cfg.property_int "GNSS-SDR.internal_fs_sps").getD
          ((cfg.property_int "GNSS-SDR.internal_fs_hz").getD 4000000))
        k.BEIDOU_B1C_OPT_ACQ_FS_HZ (Acq_Conf.resampler_ratio acq0, acq0.resampled_fs) := by
  unfold BeidouB1cPcpsAcquisition.BeidouB1cPcpsAcquisition
  simp only [hres, hitem, Option.map_map]
  simp only [ne_eq, not_true_eq_false, and_false, if_false, if_true]
  generalize resampler_policy _ _ _ = x
  cases x <;> rfl

/-- The resampler block of the B1C constructor, for rates whose quotient is at most
`2 ^ 24` (so that the `float` member holds the ratio exactly): the constructor
completes and leaves the greatest divisor of `fs_in` not above `fs_in / fs_opt`. -/
theorem b1c_resampler_spec (α : Type) [Zero α] (k : Beidou_B1C) (FLAGS_doppler_max : Int)
    (acq0 : Acq_Conf) (cfg : ConfigurationInterface) (role : String) (ins outs : Nat)
    (fs_in : Int)
    (hres : (cfg.property_bool "GNSS-SDR.use_acquisition_resampler").getD false = true)
    (hitem : (cfg.property_string (role ++ ".item_type")).getD "gr_complex" = "gr_complex")
    (hfs : (cfg.property_int "GNSS-SDR.internal_fs_sps").getD
      ((cfg.property_int "GNSS-SDR.internal_fs_hz").getD 4000000) = fs_in)
    (hopt : 0 < k.BEIDOU_B1C_OPT_ACQ_FS_HZ) (hgt : k.BEIDOU_B1C_OPT_ACQ_FS_HZ < fs_in)
    (hq : fs_in / k.BEIDOU_B1C_OPT_ACQ_FS_HZ ≤ 2 ^ 24) :
    ∃ (st : Adapter α) (r : Nat),
      BeidouB1cPcpsAcquisition.BeidouB1cPcpsAcquisition k FLAGS_doppler_max acq0 cfg role
        ins outs = some st ∧
      Acq_Conf.resampler_ratio st.acq_parameters_ = (r : ℚ) ∧
      st.acq_parameters_.resampled_fs = fs_in / (r : Int) ∧
      1 ≤ r ∧ (r : Int) ≤ fs_in / k.BEIDOU_B1C_OPT_ACQ_FS_HZ ∧ (r : Int) ∣ fs_in ∧
      ∀ e : Nat, r < e → (e : Int) ≤ fs_in / k.BEIDOU_B1C_OPT_ACQ_FS_HZ → ¬ (e : Int) ∣ fs_in := by
  have hmap := b1c_resampler_fields α k FLAGS_doppler_max acq0 cfg role ins outs hres hitem
  rw [hfs] at hmap
  obtain ⟨m, hm⟩ := Int.eq_ofNat_of_zero_le hopt.le
  obtain ⟨n, hn⟩ := Int.eq_ofNat_of_zero_le (le_trans hopt.le hgt.le)
  rw [hm] at hopt hgt hq hmap ⊢
  rw [hn] at hgt hq hmap ⊢
  have hq2 : n / m ≤ 2 ^ 24 := by
    have : ((n / m : Nat) : Int) ≤ 2 ^ 24 := by rw [Int.ofNat_ediv]; exact hq
    exact_mod_cast this
  obtain ⟨r, hr, h1, h2, h3, h4⟩ := resampler_policy_spec n m
    (Acq_Conf.resampler_ratio acq0, acq0.resampled_fs) (by omega) (by omega) hq2
  rw [hr] at hmap
  obtain ⟨st, hst, hpair⟩ := Option.map_eq_some'.mp hmap
  have hp1 := congrArg Prod.fst hpair
  have hp2 := congrArg Prod.snd hpair
  simp only at hp1 hp2
  refine ⟨st, r, hst, hp1, ?_, h1, ?_, ?_, ?_⟩
  · rw [hp2, Int.ofNat_ediv]
  · rw [← Int.ofNat_ediv]; exact_mod_cast h2
  · exact_mod_cast h3
  · intro e he1 he2 he3
    rw [← Int.ofNat_ediv] at he2
    exact h4 e he1 (by exact_mod_cast he2) (by exact_mod_cast he3)

/-! ### C5 -/

/-- C6 (as amended): in the B1C constructor with the automatic resampler enabled and
`fs_in > fs_opt > 0` with `fs_in / fs_opt <= 2 ^ 24`, the ratio is the greatest
integer `d` with `1 <= d <= floor (fs_in / fs_opt)` that divides `fs_in`, and
`resampled_fs = fs_in / ratio` is not below `fs_opt`. -/
theorem C6_resampler_ratio_greatest (k : Beidou_B1C) (FLAGS_doppler_max : Int)
    (acq0 : Acq_Conf) (cfg : ConfigurationInterface) (role : String) (ins outs : Nat)
    (fs_in : Int)
    (hres : (cfg.property_bool "GNSS-SDR.use_acquisition_resampler").getD false = true)
    (hitem : (cfg.property_string (role ++ ".item_type")).getD "gr_complex" = "gr_complex")
    (hfs : (cfg.property_int "GNSS-SDR.internal_fs_sps").getD
      ((cfg.property_int "GNSS-SDR.internal_fs_hz").getD 4000000) = fs_in)
    (hopt : 0 < k.BEIDOU_B1C_OPT_ACQ_FS_HZ) (hgt : k.BEIDOU_B1C_OPT_ACQ_FS_HZ < fs_in)
    (hq : fs_in / k.BEIDOU_B1C_OPT_ACQ_FS_HZ ≤ 2 ^ 24) :
    ∃ (st : Adapter Int) (r : Nat),
      BeidouB1cPcpsAcquisition.BeidouB1cPcpsAcquisition k FLAGS_doppler_max acq0 cfg role
        ins outs = some st ∧
      Acq_Conf.resampler_ratio st.acq_parameters_ = (r : ℚ) ∧
      1 ≤ r ∧
      (r : Int) ≤ fs_in / k.BEIDOU_B1C_OPT_ACQ_FS_HZ ∧
      (r : Int) ∣ fs_in ∧
      (∀ d : Nat, 1 ≤ d → (d : Int) ≤ fs_in / k.BEIDOU_B1C_OPT_ACQ_FS_HZ → (d : Int) ∣ fs_in →
        d ≤ r) ∧
      st.acq_parameters_.resampled_fs = fs_in / (r : Int) ∧
      k.BEIDOU_B1C_OPT_ACQ_FS_HZ ≤ st.acq_parameters_.resampled_fs := by
  obtain ⟨st, r, hst, hr, hfsr, h1, hle, hdvd, hmax⟩ :=
    b1c_resampler_spec Int k FLAGS_doppler_max acq0 cfg role ins outs fs_in hres hitem hfs hopt
      hgt hq
  refine ⟨st, r, hst, hr, h1, hle, hdvd, ?_, hfsr, ?_⟩
  · intro d _ hd2 hd3
    by_contra hlt
    exact hmax d (by omega) hd2 hd3
  · rw [hfsr]
    have hrpos : (0 : Int) < (r : Int) := by exact_mod_cast h1
    have h2 : k.BEIDOU_B1C_OPT_ACQ_FS_HZ * (r : Int) ≤ fs_in :=
      le_trans (Int.mul_le_mul_of_nonneg_left hle hopt.le) (Int.mul_ediv_self_le hopt.ne')
    exact (Int.le_ediv_iff_mul_le hrpos).mpr h2

theorem C6_resampler_ratio_greatest_witness :
    ∃ (st : Adapter Int) (r : Nat),
      BeidouB1cPcpsAcquisition.BeidouB1cPcpsAcquisition (b1c_constants 10230000) 0
        Acq_Conf_zero (resampler_on 25000000) "Acquisition_B1" 1 0 = some st ∧
      Acq_Conf.resampler_ratio st.acq_parameters_ = (r : ℚ) ∧
      1 ≤ r ∧
      (r : Int) ≤ 25000000 / (b1c_constants 10230000).BEIDOU_B1C_OPT_ACQ_FS_HZ ∧
      (r : Int) ∣ 25000000 ∧
      (∀ d : Nat, 1 ≤ d →
        (d : Int) ≤ 25000000 / (b1c_constants 10230000).BEIDOU_B1C_OPT_ACQ_FS_HZ →
        (d : Int) ∣ 25000000 → d ≤ r) ∧
      st.acq_parameters_.resampled_fs = 25000000 / (r : Int) ∧
      (b1c_constants 10230000).BEIDOU_B1C_OPT_ACQ_FS_HZ ≤ st.acq_parameters_.resampled_fs :=
  C6_resampler_ratio_greatest (b1c_constants 10230000) 0 Acq_Conf_zero
    (resampler_on 25000000) "Acquisition_B1" 1 0 25000000 (by decide) (by decide) (by decide)
    (by decide) (by decide) (by decide)

/-- C6 (as stated) fails in two ways.  For `fs_in = 2 ^ 33 * 10230000` with
`fs_opt = 10230000` the quotient `2 ^ 33` narrows to the 32-bit value 0, the loop
starts with a remainder by zero, and the constructor yields no adapter, hence no
ratio.  For `fs_in = 33554435 * 10230000` the greatest divisor not above
`floor (fs_in / fs_opt) = 33554435` is 33554435 itself, but the `float` member
holds 33554436, which is above the quotient and does not divide `fs_in`, and
`resampled_fs = 10229999` is below `fs_opt`. -/
theorem C6_counterexample :
    (10230000 : Int) < 87875030876160000 ∧
    toUInt32 (Int.tdiv 87875030876160000 10230000) = 0 ∧
    (¬ ∃ st : Adapter Int,
      BeidouB1cPcpsAcquisition.BeidouB1cPcpsAcquisition (b1c_constants 10230000) 0
        Acq_Conf_zero (resampler_on 87875030876160000) "Acquisition_B1" 1 0 = some st) ∧
    (∃ st : Adapter Int,
      BeidouB1cPcpsAcquisition.BeidouB1cPcpsAcquisition (b1c_constants 10230000) 0
        Acq_Conf_zero (resampler_on 343261870050000) "Acquisition_B1" 1 0 = some st ∧
      Acq_Conf.resampler_ratio st.acq_parameters_ = 33554436 ∧
      st.acq_parameters_.resampled_fs = 10229999 ∧
      st.acq_parameters_.resampled_fs < (b1c_constants 10230000).BEIDOU_B1C_OPT_ACQ_FS_HZ) ∧
    (343261870050000 : Int) / 10230000 = 33554435 ∧
    (33554435 : Int) ∣ 343261870050000 ∧
    ¬ (33554436 : Int) ∣ 343261870050000 := by
  refine ⟨by decide, by decide, ?_, ?_, by decide, by decide, by decide⟩
  · rintro ⟨st, hst⟩
    have h := b1c_resampler_fields Int (b1c_constants 10230000) 0 Acq_Conf_zero
      (resampler_on 87875030876160000) "Acquisition_B1" 1 0 (by decide) (by decide)
    have hnone : resampler_policy
        (((resampler_on 87875030876160000).property_int "GNSS-SDR.internal_fs_sps").getD
          (((resampler_on 87875030876160000).property_int "GNSS-SDR.internal_fs_hz").getD
            4000000))
        (b1c_constants 10230000).BEIDOU_B1C_OPT_ACQ_FS_HZ
        (Acq_Conf.resampler_ratio Acq_Conf_zero, Acq_Conf_zero.resampled_fs) = none := by decide
    rw [hst, hnone] at h
    exact Option.noConfusion h
  · have h := b1c_resampler_fields Int (b1c_constants 10230000) 0 Acq_Conf_zero
      (resampler_on 343261870050000) "Acquisition_B1" 1 0 (by decide) (by decide)
    have hpol : resampler_policy
        (((resampler_on 343261870050000).property_int "GNSS-SDR.internal_fs_sps").getD
          (((resampler_on 343261870050000).property_int "GNSS-SDR.internal_fs_hz").getD
            4000000))
        (b1c_constants 10230000).BEIDOU_B1C_OPT_ACQ_FS_HZ
        (Acq_Conf.resampler_ratio Acq_Conf_zero, Acq_Conf_zero.resampled_fs)
        = some (33554436, 10229999) := resampler_policy_rounded _
    rw [hpol] at h
    obtain ⟨st, hst, hpair⟩ := Option.map_eq_some'.mp h
    have hp1 : Acq_Conf.resampler_ratio st.acq_parameters_ = 33554436 := congrArg Prod.fst hpair
    have hp2 : st.acq_parameters_.resampled_fs = 10229999 := congrArg Prod.snd hpair
    exact ⟨st, hst, hp1, hp2, by rw [hp2]; decide⟩

/-! ### The copy loop of `set_local_code` -/

theorem copy_n_length {α : Type} (code : List α) (off : Nat) (buf : List α)
    (h : off + code.length ≤ buf.length) : (copy_n code off buf).length = buf.length := by
  simp only [copy_n, List.length_append, List.length_take, List.length_drop]
  omega

theorem copy_n_get_before {α : Type} (code : List α) (off : Nat) (buf : List α) (p : Nat)
    (h : off + code.length ≤ buf.length) (hp : p < off) :
    (copy_n code off buf)[p]? = buf[p]? := by
  unfold copy_n
  rw [List.append_assoc, List.getElem?_append_left (by simp; omega), List.getElem?_take]
  simp [hp]

theorem copy_n_get_in {α : Type} (code : List α) (off : Nat) (buf : List α) (j : Nat)
    (h : off + code.length ≤ buf.length) (hj : j < code.length) :
    (copy_n code off buf)[off + j]? = code[j]? := by
  unfold copy_n
  have hlen : (List.take off buf).length = off := by simp; omega
  rw [List.append_assoc, List.getElem?_append_right (by omega), hlen,
    List.getElem?_append_left (by omega)]
  congr 1
  omega

theorem copy_n_get_after {α : Type} (code : List α) (off : Nat) (buf : List α) (p : Nat)
    (h : off + code.length ≤ buf.length) (hp : off + code.length ≤ p) :
    (copy_n code off buf)[p]? = buf[p]? := by
  unfold copy_n
  have hlen : (List.take off buf ++ code).length = off + code.length := by simp; omega
  rw [List.getElem?_append_right (by omega), hlen, List.getElem?_drop]
  congr 1
  omega

theorem copy_periods_spec {α : Type} (code : List α) (L V : Nat) (hL : code.length = L)
    (hV : V < 2 ^ 32) :
    ∀ (n i : Nat) (buf : List α), buf.length = V → (i + n) * L ≤ V →
      (∀ i', i' < i → ∀ j, j < L → buf[i' * L + j]? = code[j]?) →
      ∃ buf', copy_periods code L V n i buf = some buf' ∧ buf'.length = V ∧
        (∀ i', i' < i + n → ∀ j, j < L → buf'[i' * L + j]? = code[j]?) ∧
        (∀ p, (i + n) * L ≤ p → buf'[p]? = buf[p]?) := by
  intro n
  induction n with
  | zero =>
    intro i buf hlen _ hpre
    exact ⟨buf, rfl, hlen, by simpa using hpre, fun _ _ => rfl⟩
  | succ n ih =>
    intro i buf hlen hfit hpre
    have hmul : (i + (n + 1)) * L = i * L + L + n * L := by ring
    have hoff : (i * L) % 2 ^ 32 = i * L := Nat.mod_eq_of_lt (by omega)
    have hroom : i * L + code.length ≤ buf.length := by omega
    rw [copy_periods]
    simp only [hoff]
    rw [if_pos ⟨by omega, by omega⟩]
    have hpre1 : ∀ i', i' < i + 1 → ∀ j, j < L →
        (copy_n code (i * L) buf)[i' * L + j]? = code[j]? := by
      intro i' hi' j hj
      rcases Nat.lt_or_ge i' i with hlt | hge
      · rw [copy_n_get_before code (i * L) buf _ hroom, hpre i' hlt j hj]
        have : (i' + 1) * L ≤ i * L := Nat.mul_le_mul_right L hlt
        have h2 : (i' + 1) * L = i' * L + L := by ring
        omega
      · have : i' = i := by omega
        subst this
        exact copy_n_get_in code (i' * L) buf j hroom (by omega)
    have hfit1 : (i + 1 + n) * L ≤ V := by
      have : (i + 1 + n) * L = (i + (n + 1)) * L := by ring
      omega
    obtain ⟨buf', h1, h2, h3, h4⟩ := ih (i + 1) (copy_n code (i * L) buf)
      (by rw [copy_n_length code (i * L) buf hroom, hlen]) hfit1 hpre1
    refine ⟨buf', h1, h2, ?_, ?_⟩
    · intro i' hi' j hj
      exact h3 i' (by omega) j hj
    · intro p hp
      have h5 : (i + 1 + n) * L = (i + (n + 1)) * L := by ring
      rw [h4 p (by omega)]
      exact copy_n_get_after code (i * L) buf p hroom (by omega)

/-! ### C3 -/

/-- C3: in both adapters, when every `pfa` property that `set_threshold` consults is
zero or unset, `set_threshold (t)` stores exactly `t` in `threshold_` and forwards
exactly `t` to the engine, for every `t` and with no fuel at all, that is without
running `calculate_threshold`; nothing else in the adapter changes. -/
theorem C3_set_threshold_bypass {α : Type} (fuel : Nat) (st : Adapter α) (t : ℝ) :
    ((st.configuration_.property_double (st.role_ ++ ".pfa")).getD 0 = 0 →
      BeidouB2aPcpsAcquisition.set_threshold fuel st t = some (store_threshold st t)) ∧
    ((st.configuration_.property_double
          (st.role_ ++ toString st.channel_ ++ ".pfa")).getD 0 = 0 →
      (st.configuration_.property_double (st.role_ ++ ".pfa")).getD 0 = 0 →
      BeidouB1cPcpsAcquisition.set_threshold fuel st t = some (store_threshold st t)) ∧
    (store_threshold st t).threshold_ = t ∧
    (store_threshold st t).acquisition_.threshold = t := by
  refine ⟨?_, ?_, rfl, rfl⟩
  · intro hrole
    unfold BeidouB2aPcpsAcquisition.set_threshold
    simp only [hrole, toFloat_zero, if_true]
  · intro hchan hrole
    unfold BeidouB1cPcpsAcquisition.set_threshold
    simp only [hchan, hrole, toFloat_zero, if_true]

theorem C3_set_threshold_bypass_witness :
    BeidouB2aPcpsAcquisition.set_threshold 0
        (BeidouB2aPcpsAcquisition.BeidouB2aPcpsAcquisition 0 Acq_Conf_zero no_properties
          "Acquisition_5X" 1 0 : Adapter Int) 5
      = some (store_threshold
        (BeidouB2aPcpsAcquisition.BeidouB2aPcpsAcquisition 0 Acq_Conf_zero no_properties
          "Acquisition_5X" 1 0) 5) ∧
    BeidouB1cPcpsAcquisition.set_threshold 0
        (BeidouB2aPcpsAcquisition.BeidouB2aPcpsAcquisition 0 Acq_Conf_zero no_properties
          "Acquisition_5X" 1 0 : Adapter Int) 5
      = some (store_threshold
        (BeidouB2aPcpsAcquisition.BeidouB2aPcpsAcquisition 0 Acq_Conf_zero no_properties
          "Acquisition_5X" 1 0) 5) :=
  ⟨(C3_set_threshold_bypass 0
      (BeidouB2aPcpsAcquisition.BeidouB2aPcpsAcquisition 0 Acq_Conf_zero no_properties
        "Acquisition_5X" 1 0 : Adapter Int) 5).1 rfl,
   (C3_set_threshold_bypass 0
      (BeidouB2aPcpsAcquisition.BeidouB2aPcpsAcquisition 0 Acq_Conf_zero no_properties
        "Acquisition_5X" 1 0 : Adapter Int) 5).2.1 rfl rfl⟩

/-! ### The one-period sequence and the tiling -/

theorem generated_length {α : Type} (gen : Nat → Int → Nat → Nat → α) (prn : Nat) (fs : Int)
    (n : Nat) : (generated gen prn fs n).length = n := by
  simp [generated]

theorem b2a_one_period_length {α : Type} (g : CodeGenerators α) (st : Adapter α) (prn : Nat) :
    (b2a_one_period g st prn).length = st.code_length_ := by
  unfold b2a_one_period
  split
  · exact generated_length _ _ _ _
  · split <;> exact generated_length _ _ _ _

theorem b2a_set_local_code_eq {α : Type} (g : CodeGenerators α) (st : Adapter α) (prn : Nat)
    (hprn : st.gnss_synchro_ = some prn) :
    BeidouB2aPcpsAcquisition.set_local_code g st
      = tile_and_forward st (b2a_one_period g st prn) := by
  unfold BeidouB2aPcpsAcquisition.set_local_code b2a_one_period
  rw [hprn]

/-- The copy loop never changes the length of a buffer of `vector_length` samples. -/
theorem copy_periods_length {α : Type} (code : List α) (L V : Nat) (hL : code.length = L) :
    ∀ (n i : Nat) (buf buf' : List α), buf.length = V →
      copy_periods code L V n i buf = some buf' → buf'.length = V := by
  intro n
  induction n with
  | zero =>
    intro i buf buf' hlen h
    rw [copy_periods] at h
    rw [← Option.some.inj h]; exact hlen
  | succ n ih =>
    intro i buf buf' hlen h
    rw [copy_periods] at h
    by_cases hc : (i * L) % 2 ^ 32 ≤ V ∧ L ≤ V - (i * L) % 2 ^ 32
    · simp only [hc, and_self, if_true] at h
      exact ih (i + 1) _ buf' (by rw [copy_n_length _ _ _ (by omega), hlen]) h
    · simp only [hc, if_false] at h
      exact Option.noConfusion h

/-- What `tile_and_forward` leaves when the periods fit into the buffer. -/
theorem tile_and_forward_spec {α : Type} (st : Adapter α) (code : List α)
    (hcode : code.length = st.code_length_) (hlen : st.code_.length = st.vector_length_)
    (hV : st.vector_length_ < 2 ^ 32)
    (hfit : st.sampled_ms_ * st.code_length_ ≤ st.vector_length_) :
    ∃ st', tile_and_forward st code = some st' ∧
      st'.code_.length = st.vector_length_ ∧ st'.vector_length_ = st.vector_length_ ∧
      (∀ i, i < st.sampled_ms_ → ∀ j, j < st.code_length_ →
        st'.code_[i * st.code_length_ + j]? = code[j]?) ∧
      (∀ p, st.sampled_ms_ * st.code_length_ ≤ p → st'.code_[p]? = st.code_[p]?) ∧
      st'.acquisition_.local_code = some st'.code_ := by
  obtain ⟨buf', h1, h2, h3, h4⟩ := copy_periods_spec code st.code_length_ st.vector_length_
    hcode hV st.sampled_ms_ 0 st.code_ hlen (by simpa using hfit)
    (fun i' hi' => absurd hi' (Nat.not_lt_zero _))
  refine ⟨{ st with code_ := buf',
                    acquisition_ := { st.acquisition_ with local_code := some buf' } },
    by rw [tile_and_forward, h1]; rfl, h2, rfl, ?_, ?_, rfl⟩
  · intro i hi j hj
    exact h3 i (by simpa using hi) j hj
  · intro p hp
    exact h4 p (by simpa using hp)

/-! ### The B2a constructor -/

theorem b2a_ctor_shape {α : Type} [Zero α] (FLAGS_doppler_max : Int) (acq0 : Acq_Conf)
    (cfg : ConfigurationInterface) (role : String) (ins outs : Nat) :
    (BeidouB2aPcpsAcquisition.BeidouB2aPcpsAcquisition FLAGS_doppler_max acq0 cfg role ins
        outs : Adapter α).vector_length_
      = (if (BeidouB2aPcpsAcquisition.BeidouB2aPcpsAcquisition FLAGS_doppler_max acq0 cfg role
            ins outs : Adapter α).bit_transition_flag_ then
          ((BeidouB2aPcpsAcquisition.BeidouB2aPcpsAcquisition FLAGS_doppler_max acq0 cfg role
              ins outs : Adapter α).code_length_
            * (BeidouB2aPcpsAcquisition.BeidouB2aPcpsAcquisition FLAGS_doppler_max acq0 cfg
              role ins outs : Adapter α).sampled_ms_ % 2 ^ 32 * 2) % 2 ^ 32
        else
          (BeidouB2aPcpsAcquisition.BeidouB2aPcpsAcquisition FLAGS_doppler_max acq0 cfg role
              ins outs : Adapter α).code_length_
            * (BeidouB2aPcpsAcquisition.BeidouB2aPcpsAcquisition FLAGS_doppler_max acq0 cfg
              role ins outs : Adapter α).sampled_ms_ % 2 ^ 32) ∧
    (BeidouB2aPcpsAcquisition.BeidouB2aPcpsAcquisition FLAGS_doppler_max acq0 cfg role ins
        outs : Adapter α).code_.length
      = (BeidouB2aPcpsAcquisition.BeidouB2aPcpsAcquisition FLAGS_doppler_max acq0 cfg role ins
        outs : Adapter α).vector_length_ :=
  ⟨rfl, List.length_replicate _ _⟩

/-- The B2a samples-per-code for an input rate of `1000 * n` samples per second. -/
theorem b2a_code_length_khz (n : Nat) :
    toUInt32 (std_round ((((1000 * n : Nat) : Int) : ℚ)
      / (BEIDOU_B2ad_CODE_RATE_HZ / (BEIDOU_B2ad_CODE_LENGTH_CHIPS : ℚ)))) = n % 2 ^ 32 := by
  have hq : (((1000 * n : Nat) : Int) : ℚ)
      / (BEIDOU_B2ad_CODE_RATE_HZ / (BEIDOU_B2ad_CODE_LENGTH_CHIPS : ℚ)) = ((n : Int) : ℚ) := by
    unfold BEIDOU_B2ad_CODE_RATE_HZ BEIDOU_B2ad_CODE_LENGTH_CHIPS
    push_cast
    field_simp
    ring
  have hr : std_round (((n : Int) : ℚ)) = (n : Int) := by
    unfold std_round
    rw [if_pos (by exact_mod_cast Int.natCast_nonneg n), Int.floor_eq_iff]
    constructor <;> norm_num
  rw [hq, hr]
  unfold toUInt32
  omega

theorem copy_periods_no_room {α : Type} (code : List α) (L V n i : Nat) (buf : List α)
    (hn : 0 < n) (h : ¬ ((i * L) % 2 ^ 32 ≤ V ∧ L ≤ V - (i * L) % 2 ^ 32)) :
    copy_periods code L V n i buf = none := by
  cases n with
  | zero => omega
  | succ n =>
    rw [copy_periods]
    simp only [h, if_false]

theorem b2a_example_code_length (ms : Int) (bit : Bool) :
    (b2a_example ms bit).code_length_ = 25000 := by
  have h : (b2a_example ms bit).code_length_
      = toUInt32 (std_round ((((1000 * 25000 : Nat) : Int) : ℚ)
        / (BEIDOU_B2ad_CODE_RATE_HZ / (BEIDOU_B2ad_CODE_LENGTH_CHIPS : ℚ)))) := rfl
  rw [h, b2a_code_length_khz]
  rfl

theorem b2a_example_vector_length (ms : Int) (bit : Bool) :
    (b2a_example ms bit).vector_length_
      = (if bit then (25000 * toUInt32 ms % 2 ^ 32 * 2) % 2 ^ 32
         else 25000 * toUInt32 ms % 2 ^ 32) := by
  have h : (b2a_example ms bit).vector_length_
      = (if bit then ((b2a_example ms bit).code_length_ * toUInt32 ms % 2 ^ 32 * 2) % 2 ^ 32
         else (b2a_example ms bit).code_length_ * toUInt32 ms % 2 ^ 32) := by
    cases bit <;> rfl
  rw [h, b2a_example_code_length]

theorem b2a_example_code_size (ms : Int) (bit : Bool) :
    (b2a_example ms bit).code_.length = (b2a_example ms bit).vector_length_ :=
  List.length_replicate _ _

/-! ### C7 -/

/-- C7 (as amended): in the B2a adapter holding a PRN, whose buffer has
`vector_length = sampled_ms * L * (2 if bit_transition_flag else 1) < 2 ^ 32`
samples (`L = code_length`), `set_local_code` returns, the buffer keeps that length,
every sample `code_[i * L + j]` with `i < sampled_ms`, `j < L` equals sample `j` of
the one-period sequence generated for the PRN, and the engine is handed that
buffer. -/
theorem C7_local_code_tiling {α : Type} (g : CodeGenerators α) (st : Adapter α) (prn : Nat)
    (hprn : st.gnss_synchro_ = some prn)
    (hlen : st.code_.length = st.vector_length_)
    (hvec : st.vector_length_
      = st.sampled_ms_ * st.code_length_ * (if st.bit_transition_flag_ then 2 else 1))
    (hV : st.vector_length_ < 2 ^ 32) :
    ∃ st', BeidouB2aPcpsAcquisition.set_local_code g st = some st' ∧
      st'.code_.length
        = st.sampled_ms_ * st.code_length_ * (if st.bit_transition_flag_ then 2 else 1) ∧
      (b2a_one_period g st prn).length = st.code_length_ ∧
      (∀ i, i < st.sampled_ms_ → ∀ j, j < st.code_length_ →
        st'.code_[i * st.code_length_ + j]? = (b2a_one_period g st prn)[j]?) ∧
      st'.acquisition_.local_code = some st'.code_ := by
  have hfit : st.sampled_ms_ * st.code_length_ ≤ st.vector_length_ := by
    rw [hvec]
    split
    · omega
    · omega
  obtain ⟨st', h1, h2, _, h4, _, h6⟩ := tile_and_forward_spec st (b2a_one_period g st prn)
    (b2a_one_period_length g st prn) hlen hV hfit
  exact ⟨st', by rw [b2a_set_local_code_eq g st prn hprn, h1], by rw [h2, hvec],
    b2a_one_period_length g st prn, h4, h6⟩

theorem C7_local_code_tiling_witness :
    ∃ st', BeidouB2aPcpsAcquisition.set_local_code example_generators (b2a_example 10 false)
        = some st' ∧
      st'.code_.length = 10 * 25000 ∧
      ∀ i : Nat, i < 10 → ∀ j : Nat, j < 25000 →
        st'.code_[i * 25000 + j]? = some (1000 * 19 + (j : Int) + 1) := by
  have hL := b2a_example_code_length 10 false
  have hV : (b2a_example 10 false).vector_length_ = 250000 := by
    rw [b2a_example_vector_length]; decide
  have hn : (b2a_example 10 false).sampled_ms_ = 10 := by decide
  have hb : (b2a_example 10 false).bit_transition_flag_ = false := by decide
  obtain ⟨st', h1, h2, _, h4, _⟩ := C7_local_code_tiling example_generators
    (b2a_example 10 false) 19 rfl (b2a_example_code_size 10 false)
    (by rw [hV, hn, hL, hb]; decide) (by rw [hV]; decide)
  refine ⟨st', h1, by rw [h2, hn, hL, hb]; decide, ?_⟩
  intro i hi j hj
  have h5 := h4 i (by rw [hn]; exact hi) j (by rw [hL]; exact hj)
  rw [hL] at h5
  rw [h5]
  have hone : b2a_one_period example_generators (b2a_example 10 false) 19
      = generated example_generators.beidou_b2ad_code_gen_complex_sampled 19
          (b2a_example 10 false).fs_in_ (b2a_example 10 false).code_length_ := by
    unfold b2a_one_period
    rw [if_neg (by decide), if_neg (by decide)]
  rw [hone, hL]
  simp [generated, example_generators, hj]

/-- C7 (as stated) fails when the 32-bit product wraps: at 25 Msps (`L = 25000`) with
`coherent_integration_time_ms = 171799` the buffer has `25000 * 171799 mod 2 ^ 32 =
7704` samples, not `171799 * 25000`, and `set_local_code` stops at the bounds check
of the first `subspan` instead of returning. -/
theorem C7_counterexample :
    (b2a_example 171799 false).sampled_ms_ = 171799 ∧
    (b2a_example 171799 false).code_length_ = 25000 ∧
    (b2a_example 171799 false).code_.length = 7704 ∧
    BeidouB2aPcpsAcquisition.set_local_code example_generators (b2a_example 171799 false)
      = none := by
  have hL := b2a_example_code_length 171799 false
  have hV : (b2a_example 171799 false).vector_length_ = 7704 := by
    rw [b2a_example_vector_length]; decide
  refine ⟨by decide, hL, by rw [b2a_example_code_size, hV], ?_⟩
  rw [b2a_set_local_code_eq example_generators (b2a_example 171799 false) 19 rfl]
  unfold tile_and_forward
  rw [copy_periods_no_room _ _ _ _ _ _ (by decide) (by rw [hL, hV]; decide)]
  rfl

/-! ### C8 -/

theorem tile_and_forward_lengths {α : Type} (st st' : Adapter α) (code : List α)
    (hcode : code.length = st.code_length_) (hlen : st.code_.length = st.vector_length_)
    (h : tile_and_forward st code = some st') :
    st'.vector_length_ = st.vector_length_ ∧ st'.code_.length = st.code_.length := by
  unfold tile_and_forward at h
  obtain ⟨buf, hbuf, hst⟩ := Option.map_eq_some'.mp h
  subst hst
  exact ⟨rfl, by
    rw [hlen]
    exact copy_periods_length code _ _ hcode _ _ _ _ hlen hbuf⟩

theorem b2a_set_threshold_lengths {α : Type} (fuel : Nat) (st st' : Adapter α) (t : ℝ)
    (h : BeidouB2aPcpsAcquisition.set_threshold fuel st t = some st') :
    st'.vector_length_ = st.vector_length_ ∧ st'.code_.length = st.code_.length := by
  unfold BeidouB2aPcpsAcquisition.set_threshold at h
  simp only at h
  split at h
  · rw [← Option.some.inj h]; exact ⟨rfl, rfl⟩
  · obtain ⟨v, _, hst⟩ := Option.map_eq_some'.mp h
    rw [← hst]; exact ⟨rfl, rfl⟩

/-- C8 (as amended): the B2a constructor leaves
`vector_length = code_length * sampled_ms * (2 if bit_transition_flag else 1)` reduced
modulo `2 ^ 32` at each multiplication (the product itself when that is below
`2 ^ 32`) and a buffer `code_` of exactly `vector_length` elements; on an adapter
whose buffer has `vector_length` elements, each of `set_local_code`, `set_threshold`,
`set_doppler_max`, `set_doppler_step`, `set_gnss_synchro`, `reset` and
`stop_acquisition` keeps both `vector_length` and the buffer length whenever it
returns. -/
theorem C8_vector_length_invariant {α : Type} [Zero α] (g : CodeGenerators α)
    (FLAGS_doppler_max : Int) (acq0 : Acq_Conf) (cfg : ConfigurationInterface)
    (role : String) (ins outs : Nat) :
    (∀ st0 : Adapter α,
      st0 = BeidouB2aPcpsAcquisition.BeidouB2aPcpsAcquisition FLAGS_doppler_max acq0 cfg role
        ins outs →
      st0.vector_length_
        = (if st0.bit_transition_flag_ then
            (st0.code_length_ * st0.sampled_ms_ % 2 ^ 32 * 2) % 2 ^ 32
          else st0.code_length_ * st0.sampled_ms_ % 2 ^ 32) ∧
      (st0.code_length_ * st0.sampled_ms_ * (if st0.bit_transition_flag_ then 2 else 1)
          < 2 ^ 32 →
        st0.vector_length_
          = st0.code_length_ * st0.sampled_ms_ * (if st0.bit_transition_flag_ then 2 else 1)) ∧
      st0.code_.length = st0.vector_length_) ∧
    (∀ st : Adapter α, st.code_.length = st.vector_length_ →
      (∀ st', BeidouB2aPcpsAcquisition.set_local_code g st = some st' →
        st'.vector_length_ = st.vector_length_ ∧ st'.code_.length = st.code_.length) ∧
      (∀ fuel t st', BeidouB2aPcpsAcquisition.set_threshold fuel st t = some st' →
        st'.vector_length_ = st.vector_length_ ∧ st'.code_.length = st.code_.length) ∧
      (∀ d, (BeidouB2aPcpsAcquisition.set_doppler_max st d).vector_length_ = st.vector_length_ ∧
        (BeidouB2aPcpsAcquisition.set_doppler_max st d).code_.length = st.code_.length) ∧
      (∀ d, (BeidouB2aPcpsAcquisition.set_doppler_step st d).vector_length_ = st.vector_length_ ∧
        (BeidouB2aPcpsAcquisition.set_doppler_step st d).code_.length = st.code_.length) ∧
      (∀ s, (BeidouB2aPcpsAcquisition.set_gnss_synchro st s).vector_length_ = st.vector_length_ ∧
        (BeidouB2aPcpsAcquisition.set_gnss_synchro st s).code_.length = st.code_.length) ∧
      ((BeidouB2aPcpsAcquisition.reset st).vector_length_ = st.vector_length_ ∧
        (BeidouB2aPcpsAcquisition.reset st).code_.length = st.code_.length) ∧
      ((BeidouB2aPcpsAcquisition.stop_acquisition st).vector_length_ = st.vector_length_ ∧
        (BeidouB2aPcpsAcquisition.stop_acquisition st).code_.length = st.code_.length)) := by
  constructor
  · intro st0 hst0
    subst hst0
    obtain ⟨hshape, hsize⟩ := b2a_ctor_shape (α := α) FLAGS_doppler_max acq0 cfg role ins outs
    refine ⟨hshape, ?_, hsize⟩
    intro hfit
    rw [hshape]
    generalize (BeidouB2aPcpsAcquisition.BeidouB2aPcpsAcquisition FLAGS_doppler_max acq0 cfg
      role ins outs : Adapter α).code_length_
      * (BeidouB2aPcpsAcquisition.BeidouB2aPcpsAcquisition FLAGS_doppler_max acq0 cfg
      role ins outs : Adapter α).sampled_ms_ = m at hfit ⊢
    split
    · rename_i hflag
      rw [if_pos hflag] at hfit
      omega
    · rename_i hflag
      rw [if_neg hflag] at hfit
      omega
  · intro st hlen
    refine ⟨?_, ?_, fun _ => ⟨rfl, rfl⟩, fun _ => ⟨rfl, rfl⟩, fun _ => ⟨rfl, rfl⟩,
      ⟨rfl, rfl⟩, ⟨rfl, rfl⟩⟩
    · intro st' h
      cases hprn : st.gnss_synchro_ with
      | none =>
        unfold BeidouB2aPcpsAcquisition.set_local_code at h
        rw [hprn] at h
        exact Option.noConfusion h
      | some prn =>
        rw [b2a_set_local_code_eq g st prn hprn] at h
        exact tile_and_forward_lengths st st' _ (b2a_one_period_length g st prn) hlen h
    · intro fuel t st' h
      exact b2a_set_threshold_lengths fuel st st' t h

theorem C8_vector_length_invariant_witness :
    (BeidouB2aPcpsAcquisition.BeidouB2aPcpsAcquisition 0 Acq_Conf_zero
        (b2a_configuration 25000000 10 true) "Acquisition_5X" 1 0 : Adapter Int).code_.length
      = (BeidouB2aPcpsAcquisition.BeidouB2aPcpsAcquisition 0 Acq_Conf_zero
        (b2a_configuration 25000000 10 true) "Acquisition_5X" 1 0 : Adapter Int).vector_length_ ∧
    ∀ st', BeidouB2aPcpsAcquisition.set_local_code example_generators (b2a_example 10 true)
        = some st' →
      st'.vector_length_ = (b2a_example 10 true).vector_length_ ∧
      st'.code_.length = (b2a_example 10 true).code_.length :=
  ⟨((C8_vector_length_invariant example_generators 0 Acq_Conf_zero
      (b2a_configuration 25000000 10 true) "Acquisition_5X" 1 0).1 _ rfl).2.2,
   ((C8_vector_length_invariant example_generators 0 Acq_Conf_zero
      (b2a_configuration 25000000 10 true) "Acquisition_5X" 1 0).2 (b2a_example 10 true)
      (b2a_example_code_size 10 true)).1⟩

/-- C8 (as stated) fails when the doubling wraps: at 25 Msps with
`coherent_integration_time_ms = 85900` and the bit-transition flag set,
`code_length * sampled_ms * 2 = 4295000000` but `vector_length` (and the buffer) is
`4295000000 mod 2 ^ 32 = 32704`. -/
theorem C8_counterexample :
    (b2a_example 85900 true).code_length_ = 25000 ∧
    (b2a_example 85900 true).sampled_ms_ = 85900 ∧
    (b2a_example 85900 true).bit_transition_flag_ = true ∧
    (b2a_example 85900 true).vector_length_ = 32704 ∧
    (b2a_example 85900 true).vector_length_
      ≠ (b2a_example 85900 true).code_length_ * (b2a_example 85900 true).sampled_ms_ * 2 := by
  have hL := b2a_example_code_length 85900 true
  have hV : (b2a_example 85900 true).vector_length_ = 32704 := by
    rw [b2a_example_vector_length]; decide
  have hn : (b2a_example 85900 true).sampled_ms_ = 85900 := by decide
  refine ⟨hL, hn, by decide, hV, ?_⟩
  rw [hV, hL, hn]
  decide


/-! ### C10 -/

theorem toFloat_4000000 : toFloat ((4000000 : Int) : ℚ) = 4000000 := by
  have h := toFloat_natCast 4000000 (by decide)
  norm_num at h ⊢
  exact h

/-- At 4 Msps `samples_per_ms` is the `float` 4000. -/
theorem samples_per_ms_4msps : toFloat (toFloat ((4000000 : Int) : ℚ) * (1 / 1000)) = 4000 := by
  rw [toFloat_4000000]
  have h := toFloat_natCast 4000 (by decide)
  norm_num at h ⊢
  exact h

/-- At 4 Msps the `float` product `sampled_ms_ * samples_per_ms` is exact up to
`2 ^ 24` samples. -/
theorem vector_length_4msps (c : Nat) (h : 4000 * c ≤ 2 ^ 24) :
    toUInt32 ⌊toFloat (toFloat (c : ℚ) * toFloat (toFloat ((4000000 : Int) : ℚ) * (1 / 1000)))⌋
      = 4000 * c := by
  have h3 : toFloat (c : ℚ) = c := toFloat_natCast c (by omega)
  have h4 : toFloat ((c : ℚ) * 4000) = ((4000 * c : Nat) : ℚ) := by
    have h5 := toFloat_natCast (4000 * c) h
    push_cast at h5 ⊢
    rw [mul_comm]
    exact h5
  rw [samples_per_ms_4msps, h3, h4, Int.floor_natCast]
  unfold toUInt32
  omega

theorem b1c_ctor_no_resampler (α : Type) [Zero α] (k : Beidou_B1C) (FLAGS_doppler_max : Int)
    (acq0 : Acq_Conf) (cfg : ConfigurationInterface) (role : String) (ins outs : Nat)
    (hoff : (cfg.property_bool "GNSS-SDR.use_acquisition_resampler").getD false = false) :
    ∃ st : Adapter α,
      BeidouB1cPcpsAcquisition.BeidouB1cPcpsAcquisition k FLAGS_doppler_max acq0 cfg role
        ins outs = some st ∧
      st.acq_iq_ = (cfg.property_bool (role ++ ".acquire_iq")).getD false ∧
      st.sampled_ms_
        = (cfg.property_uint (role ++ ".coherent_integration_time_ms")).getD 10 % 2 ^ 32 ∧
      st.fs_in_ = (cfg.property_int "GNSS-SDR.internal_fs_sps").getD
          ((cfg.property_int "GNSS-SDR.internal_fs_hz").getD 4000000) ∧
      st.bit_transition_flag_ = (cfg.property_bool (role ++ ".bit_transition_flag")).getD false ∧
      st.code_length_ = toUInt32
        ⌊(st.fs_in_ : ℚ) / (k.BEIDOU_B1Cd_CODE_RATE_HZ / k.BEIDOU_B1Cd_CODE_LENGTH_CHIPS)⌋ ∧
      st.vector_length_
        = (if st.bit_transition_flag_ then
            (toUInt32 ⌊toFloat (toFloat (st.sampled_ms_ : ℚ)
              * toFloat (toFloat (st.fs_in_ : ℚ) * (1 / 1000)))⌋ * 2) % 2 ^ 32
          else toUInt32 ⌊toFloat (toFloat (st.sampled_ms_ : ℚ)
              * toFloat (toFloat (st.fs_in_ : ℚ) * (1 / 1000)))⌋) ∧
      st.code_ = List.replicate st.vector_length_ 0 ∧ st.gnss_synchro_ = none := by
  unfold BeidouB1cPcpsAcquisition.BeidouB1cPcpsAcquisition
  simp only [hoff, Bool.false_eq_true, false_and, if_false, Option.map_some']
  exact ⟨_, rfl, rfl, rfl, rfl, rfl, rfl, rfl, rfl, rfl⟩

theorem b1c_iq_example_fields (ms : Nat) (h : 4000 * ms ≤ 2 ^ 24) :
    ∃ st0, b1c_iq_example ms = some st0 ∧ st0.acq_iq_ = true ∧ st0.sampled_ms_ = ms ∧
      st0.code_length_ = 40000 ∧ st0.vector_length_ = (4000 * ms) % 2 ^ 32 ∧
      st0.code_ = List.replicate st0.vector_length_ 0 ∧ st0.gnss_synchro_ = some 19 := by
  obtain ⟨st, hst, hiq, hn, hfs, hbit, hL, hV, hcode, _⟩ :=
    b1c_ctor_no_resampler Int (b1c_constants 10230000) 0 Acq_Conf_zero
      (b1c_iq_configuration ms) "Acquisition_B1" 1 0 rfl
  have hiq2 : st.acq_iq_ = true := by rw [hiq]; rfl
  have hn2 : st.sampled_ms_ = ms := by
    rw [hn]
    have : ((b1c_iq_configuration ms).property_uint
        ("Acquisition_B1" ++ ".coherent_integration_time_ms")).getD 10 = ms := rfl
    rw [this, Nat.mod_eq_of_lt (by omega)]
  have hfs2 : st.fs_in_ = 4000000 := by rw [hfs]; rfl
  have hbit2 : st.bit_transition_flag_ = false := by rw [hbit]; rfl
  have hL2 : st.code_length_ = 40000 := by
    rw [hL, hfs2]
    have hq : ((4000000 : Int) : ℚ) / ((b1c_constants 10230000).BEIDOU_B1Cd_CODE_RATE_HZ
        / (b1c_constants 10230000).BEIDOU_B1Cd_CODE_LENGTH_CHIPS) = ((40000 : Int) : ℚ) := by
      norm_num [b1c_constants]
    rw [hq, Int.floor_intCast]
    decide
  have hV2 : st.vector_length_ = (4000 * ms) % 2 ^ 32 := by
    rw [hV, hbit2, hn2, hfs2]
    simp only [Bool.false_eq_true, if_false]
    rw [vector_length_4msps ms h]
    omega
  refine ⟨BeidouB2aPcpsAcquisition.set_gnss_synchro st (some 19), ?_, hiq2, hn2, hL2, hV2,
    hcode, rfl⟩
  unfold b1c_iq_example
  rw [hst]
  rfl

theorem copy_periods_step {α : Type} (code : List α) (L V n i : Nat) (buf : List α)
    (h : (i * L) % 2 ^ 32 ≤ V ∧ L ≤ V - (i * L) % 2 ^ 32) :
    copy_periods code L V (n + 1) i buf
      = copy_periods code L V n (i + 1) (copy_n code ((i * L) % 2 ^ 32) buf) := by
  rw [copy_periods]
  simp only [h, and_self, if_true]

/-- C10, the code at the failing input: with `acq_iq_` set, B1C `set_local_code`
calls no generator and reads no PRN; it tiles the zero-initialised one-period
buffer and forwards it exactly as the other components do.  With
`coherent_integration_time_ms = 0` the call returns normally and the engine is
handed the buffer; with the default 10 ms at 4 Msps (`code_length = vector_length =
40000`) the call stops at the bounds check of the second segment.  No path signals
an unimplemented component. -/
theorem C10_acquire_iq_code_at_failing_input :
    (∀ (g : CodeGenerators Int) (st : Adapter Int),
      BeidouB1cPcpsAcquisition.set_local_code g { st with acq_iq_ := true }
        = tile_and_forward { st with acq_iq_ := true } (List.replicate st.code_length_ 0)) ∧
    (∃ st0 st', b1c_iq_example 0 = some st0 ∧ st0.acq_iq_ = true ∧
      BeidouB1cPcpsAcquisition.set_local_code example_generators st0 = some st' ∧
      st'.acquisition_.local_code = some st'.code_ ∧ st'.code_ = []) ∧
    (∃ st0, b1c_iq_example 10 = some st0 ∧ st0.acq_iq_ = true ∧ st0.sampled_ms_ = 10 ∧
      st0.code_length_ = 40000 ∧ st0.vector_length_ = 40000 ∧
      BeidouB1cPcpsAcquisition.set_local_code example_generators st0 = none) := by
  refine ⟨fun g st => rfl, ?_, ?_⟩
  · obtain ⟨st0, h0, hiq, hn, hL, hV, hcode, _⟩ := b1c_iq_example_fields 0 (by decide)
    have hV0 : st0.vector_length_ = 0 := by rw [hV]; decide
    have hrun : BeidouB1cPcpsAcquisition.set_local_code example_generators st0
        = some { st0 with code_ := st0.code_,
                          acquisition_ := { st0.acquisition_ with
                            local_code := some st0.code_ } } := by
      unfold BeidouB1cPcpsAcquisition.set_local_code
      rw [if_pos hiq]
      unfold tile_and_forward
      rw [hn, copy_periods]
      rfl
    refine ⟨st0, _, h0, hiq, hrun, rfl, ?_⟩
    show st0.code_ = []
    rw [hcode, hV0]
    rfl
  · obtain ⟨st0, h0, hiq, hn, hL, hV, _, _⟩ := b1c_iq_example_fields 10 (by decide)
    have hV1 : st0.vector_length_ = 40000 := by rw [hV]; decide
    refine ⟨st0, h0, hiq, hn, hL, hV1, ?_⟩
    unfold BeidouB1cPcpsAcquisition.set_local_code
    rw [if_pos hiq]
    unfold tile_and_forward
    rw [hn, hL, hV1, copy_periods_step _ _ _ _ _ _ (by decide),
      copy_periods_no_room _ _ _ _ _ _ (by decide) (by decide)]
    rfl

/-! ### Members set by the constructors -/

theorem b1c_ctor_members (α : Type) [Zero α] (k : Beidou_B1C) (FLAGS_doppler_max : Int)
    (acq0 : Acq_Conf) (cfg : ConfigurationInterface) (role : String) (ins outs : Nat)
    (st : Adapter α)
    (hst : BeidouB1cPcpsAcquisition.BeidouB1cPcpsAcquisition k FLAGS_doppler_max acq0 cfg role
      ins outs = some st) :
    st.configuration_ = cfg ∧ st.role_ = role ∧ st.channel_ = 0 ∧ st.threshold_ = 0 ∧
    st.doppler_step_ = 0 ∧ st.gnss_synchro_ = none ∧
    st.in_streams_ = ins ∧ st.out_streams_ = outs ∧
    st.doppler_max_ = resolve_doppler_max FLAGS_doppler_max cfg role ∧
    st.acq_parameters_.doppler_max = resolve_doppler_max FLAGS_doppler_max cfg role ∧
    st.acquisition_ = pcps_make_acquisition st.acq_parameters_ := by
  unfold BeidouB1cPcpsAcquisition.BeidouB1cPcpsAcquisition at hst
  obtain ⟨rs, _, hrs⟩ := Option.map_eq_some'.mp hst
  subst hrs
  exact ⟨rfl, rfl, rfl, rfl, rfl, rfl, rfl, rfl, rfl, rfl, rfl⟩

/-! ### C11 -/

/-- The `float` nearest to `0.01`. -/
theorem toFloat_one_percent : toFloat (1 / 100) = 10737418 / 2 ^ 30 := by
  rw [toFloat_eq (1 / 100) (-7) 10737418 (by norm_num) (by norm_num) (by norm_num) (by norm_num)
    (by norm_num) (by norm_num)]
  norm_num

/-- The `float` nearest to `0.001`. -/
theorem toFloat_one_permille : toFloat (1 / 1000) = 8589935 / 2 ^ 33 := by
  rw [toFloat_eq (1 / 1000) (-10) 8589935 (by norm_num) (by norm_num) (by norm_num)
    (by norm_num) (by norm_num) (by norm_num)]
  norm_num

/-- A `double` as small as `2 ^ (-200)` narrows to `0.0f`. -/
theorem toFloat_tiny : toFloat (1 / 2 ^ 200) = 0 :=
  toFloat_eq_zero_of_lt _ (by positivity) (by norm_num)

/-- B1C `set_threshold`, by the `float` values `pc` and `pr` of the per-channel and
the per-role property. -/
theorem b1c_set_threshold_cases {α : Type} (fuel : Nat) (st : Adapter α) (t : ℝ) (pc pr : ℚ)
    (hpc : toFloat ((st.configuration_.property_double
      (st.role_ ++ toString st.channel_ ++ ".pfa")).getD 0) = pc)
    (hpr : toFloat ((st.configuration_.property_double (st.role_ ++ ".pfa")).getD 0) = pr) :
    (pc ≠ 0 →
      BeidouB1cPcpsAcquisition.set_threshold fuel st t
        = (calculate_threshold fuel st.vector_length_ st.doppler_max_ st.doppler_step_
            (pc : ℝ)).map (store_threshold st)) ∧
    (pc = 0 → pr ≠ 0 →
      BeidouB1cPcpsAcquisition.set_threshold fuel st t
        = (calculate_threshold fuel st.vector_length_ st.doppler_max_ st.doppler_step_
            (pr : ℝ)).map (store_threshold st)) ∧
    (pc = 0 → pr = 0 →
      BeidouB1cPcpsAcquisition.set_threshold fuel st t = some (store_threshold st t)) := by
  refine ⟨?_, ?_, ?_⟩
  · intro h
    unfold BeidouB1cPcpsAcquisition.set_threshold
    simp only [hpc, hpr, h, if_false]
  · intro h0 h
    unfold BeidouB1cPcpsAcquisition.set_threshold
    simp only [hpc, hpr, h0, h, if_true, if_false]
  · intro h0 h
    unfold BeidouB1cPcpsAcquisition.set_threshold
    simp only [hpc, hpr, h0, h, if_true]

/-- B2a `set_threshold`, by the `float` value `p` of the per-role property. -/
theorem b2a_set_threshold_cases {α : Type} (fuel : Nat) (st : Adapter α) (t : ℝ) (p : ℚ)
    (hp : toFloat ((st.configuration_.property_double (st.role_ ++ ".pfa")).getD 0) = p) :
    (p ≠ 0 →
      BeidouB2aPcpsAcquisition.set_threshold fuel st t
        = (calculate_threshold fuel st.vector_length_ st.doppler_max_ st.doppler_step_
            (p : ℝ)).map (store_threshold st)) ∧
    (p = 0 →
      BeidouB2aPcpsAcquisition.set_threshold fuel st t = some (store_threshold st t)) := by
  refine ⟨?_, ?_⟩
  · intro h
    unfold BeidouB2aPcpsAcquisition.set_threshold
    simp only [hp, h, if_false]
  · intro h
    unfold BeidouB2aPcpsAcquisition.set_threshold
    simp only [hp, h, if_true]

/-- The B1C adapter of `b1c_pfa_example`: the constructed adapter after
`set_doppler_step (250)`, with the members that `set_threshold` reads. -/
theorem b1c_pfa_example_members (a b : ℚ) :
    ∃ st : Adapter Int, b1c_pfa_example a b = some st ∧
      st.configuration_ = pfa_configuration "Acquisition_B1" a b ∧
      st.role_ = "Acquisition_B1" ∧ st.channel_ = 0 ∧
      st.doppler_max_ = 5000 ∧ st.doppler_step_ = 250 := by
  obtain ⟨st0, hst0, _⟩ := b1c_ctor_no_resampler Int (b1c_constants 10230000) 0 Acq_Conf_zero
    (pfa_configuration "Acquisition_B1" a b) "Acquisition_B1" 1 0 rfl
  obtain ⟨hcfg, hrole, hch, _, _, _, _, _, hdm, _, _⟩ :=
    b1c_ctor_members Int _ _ _ _ _ _ _ st0 hst0
  refine ⟨BeidouB1cPcpsAcquisition.set_doppler_step st0 250, by rw [b1c_pfa_example, hst0]; rfl,
    hcfg, hrole, hch, ?_, rfl⟩
  show st0.doppler_max_ = 5000
  rw [hdm]
  rfl

/-- C11 (as amended): B1C `set_threshold (t)` narrows each `pfa` property to `float`
and takes the per-channel property `role + channel + ".pfa"` when its `float`
value is non-zero, otherwise the per-role property `role + ".pfa"` when its
`float` value is non-zero, otherwise none.  With a `pfa` selected the call
returns exactly when `calculate_threshold (pfa)` does, and the value stored in
`threshold_` and forwarded to the engine is that result; with none selected it is
`t`.  A property of at least `2 ^ (-126)` has a non-zero `float` value.  Both
properties are taken below `2 ^ 127` in magnitude, where the `float` is finite. -/
theorem C11_b1c_pfa_precedence {α : Type} (fuel : Nat) (st : Adapter α) (t : ℝ) (pc pr : ℚ)
    (_hcb : |(st.configuration_.property_double
      (st.role_ ++ toString st.channel_ ++ ".pfa")).getD 0| < 2 ^ 127)
    (_hrb : |(st.configuration_.property_double (st.role_ ++ ".pfa")).getD 0| < 2 ^ 127)
    (hpc : toFloat ((st.configuration_.property_double
      (st.role_ ++ toString st.channel_ ++ ".pfa")).getD 0) = pc)
    (hpr : toFloat ((st.configuration_.property_double (st.role_ ++ ".pfa")).getD 0) = pr) :
    (pc ≠ 0 →
      BeidouB1cPcpsAcquisition.set_threshold fuel st t
        = (calculate_threshold fuel st.vector_length_ st.doppler_max_ st.doppler_step_
            (pc : ℝ)).map (store_threshold st)) ∧
    (pc = 0 → pr ≠ 0 →
      BeidouB1cPcpsAcquisition.set_threshold fuel st t
        = (calculate_threshold fuel st.vector_length_ st.doppler_max_ st.doppler_step_
            (pr : ℝ)).map (store_threshold st)) ∧
    (pc = 0 → pr = 0 →
      BeidouB1cPcpsAcquisition.set_threshold fuel st t = some (store_threshold st t)) ∧
    (∀ v : ℝ, (store_threshold st v).threshold_ = v ∧
      (store_threshold st v).acquisition_.threshold = v) ∧
    (∀ q : ℚ, (2 : ℚ) ^ (-126 : Int) ≤ q → toFloat q ≠ 0) := by
  obtain ⟨h1, h2, h3⟩ := b1c_set_threshold_cases fuel st t pc pr hpc hpr
  exact ⟨h1, h2, h3, fun v => ⟨rfl, rfl⟩, fun q hq => ne_of_gt (toFloat_pos q hq)⟩

theorem C11_b1c_pfa_precedence_witness :
    ∃ st, b1c_pfa_example (1 / 100) (1 / 1000) = some st ∧
      toFloat (1 / 100) ≠ 0 ∧
      BeidouB1cPcpsAcquisition.set_threshold 42 st 5
        = (calculate_threshold 42 st.vector_length_ st.doppler_max_ st.doppler_step_
            ((toFloat (1 / 100) : ℚ) : ℝ)).map (store_threshold st) ∧
      calculate_threshold 42 st.vector_length_ st.doppler_max_ st.doppler_step_
            ((toFloat (1 / 100) : ℚ) : ℝ)
        = some (threshold_of_bins st.vector_length_ 41 ((toFloat (1 / 100) : ℚ) : ℝ)) := by
  obtain ⟨st, hst, hcfg, hrole, hch, hdm, hds⟩ := b1c_pfa_example_members (1 / 100) (1 / 1000)
  have hne : toFloat (1 / 100) ≠ 0 := ne_of_gt (toFloat_pos _ (by norm_num))
  refine ⟨st, hst, hne, ?_, ?_⟩
  · have hpc : (st.configuration_.property_double
        (st.role_ ++ toString st.channel_ ++ ".pfa")).getD 0 = 1 / 100 := by
      rw [hcfg, hrole, hch]
      rfl
    have hpr : (st.configuration_.property_double (st.role_ ++ ".pfa")).getD 0 = 1 / 1000 := by
      rw [hcfg, hrole]
      rfl
    exact (C11_b1c_pfa_precedence 42 st 5 (toFloat (1 / 100)) (toFloat (1 / 1000))
      (by rw [hpc, abs_lt]; constructor <;> norm_num)
      (by rw [hpr, abs_lt]; constructor <;> norm_num)
      (by rw [hpc]) (by rw [hpr])).1 hne
  · have hb : frequency_bins 42 5000 250 = some 41 := by decide
    rw [calculate_threshold, hdm, hds, hb]
    rfl

/-- C11 (as stated) fails for a per-channel property that is non-zero as a
`double` but narrows to `0.0f`: with `Acquisition_B10.pfa = 2 ^ (-200)` and
`Acquisition_B1.pfa = 1/100` the `float pfa` is zero after the first lookup, the
per-role property is read, and the threshold stored is
`calculate_threshold` of the per-role value. -/
theorem C11_counterexample :
    ∃ st, b1c_pfa_example (1 / 2 ^ 200) (1 / 100) = some st ∧
      (st.configuration_.property_double
        (st.role_ ++ toString st.channel_ ++ ".pfa")).getD 0 = 1 / 2 ^ 200 ∧
      (1 / 2 ^ 200 : ℚ) ≠ 0 ∧
      toFloat (1 / 2 ^ 200) = 0 ∧
      (st.configuration_.property_double (st.role_ ++ ".pfa")).getD 0 = 1 / 100 ∧
      BeidouB1cPcpsAcquisition.set_threshold 42 st 5
        = some (store_threshold st
            (threshold_of_bins st.vector_length_ 41 ((toFloat (1 / 100) : ℚ) : ℝ))) := by
  obtain ⟨st, hst, hcfg, hrole, hch, hdm, hds⟩ := b1c_pfa_example_members (1 / 2 ^ 200) (1 / 100)
  have hpc : (st.configuration_.property_double
      (st.role_ ++ toString st.channel_ ++ ".pfa")).getD 0 = 1 / 2 ^ 200 := by
    rw [hcfg, hrole, hch]
    rfl
  have hpr : (st.configuration_.property_double (st.role_ ++ ".pfa")).getD 0 = 1 / 100 := by
    rw [hcfg, hrole]
    rfl
  refine ⟨st, hst, hpc, by positivity, toFloat_tiny, hpr, ?_⟩
  have hsel := (b1c_set_threshold_cases 42 st 5 0 (toFloat (1 / 100))
    (by rw [hpc]; exact toFloat_tiny) (by rw [hpr])).2.1 rfl
    (ne_of_gt (toFloat_pos _ (by norm_num)))
  have hb : frequency_bins 42 5000 250 = some 41 := by decide
  rw [hsel, calculate_threshold, hdm, hds, hb]
  rfl

/-! ### C12 -/

theorem threshold_of_bins_strict (vector_length bins : Nat) (pfa1 pfa2 : ℝ)
    (h0 : 0 < pfa1) (h12 : pfa1 < pfa2) (h1 : pfa2 < 1) (hv : 0 < vector_length)
    (hn : (vector_length * bins) % 2 ^ 32 ≠ 0) :
    threshold_of_bins vector_length bins pfa2 < threshold_of_bins vector_length bins pfa1 := by
  unfold threshold_of_bins exponential_quantile
  simp only []
  have hvl : (0 : ℝ) < (vector_length : ℝ) := by exact_mod_cast hv
  apply div_lt_div_of_pos_right _ hvl
  apply neg_lt_neg
  have he : (0 : ℝ) < 1 / (((vector_length * bins) % 2 ^ 32 : Nat) : ℝ) :=
    one_div_pos.mpr (by exact_mod_cast Nat.pos_of_ne_zero hn)
  obtain ⟨_, hlt1⟩ := val_mem_Ioo pfa1 _ h0 (by linarith) he
  have hmono : (1 - pfa2) ^ (1 / (((vector_length * bins) % 2 ^ 32 : Nat) : ℝ))
      < (1 - pfa1) ^ (1 / (((vector_length * bins) % 2 ^ 32 : Nat) : ℝ)) :=
    Real.rpow_lt_rpow (by linarith) (by linarith) he
  exact Real.log_lt_log (by linarith) (by linarith)

theorem b2a_pfa_example_members (a b : ℚ) :
    (b2a_pfa_example a b).vector_length_ = 25000 ∧
    (b2a_pfa_example a b).doppler_max_ = 5000 ∧
    (b2a_pfa_example a b).doppler_step_ = 250 ∧
    (b2a_pfa_example a b).configuration_ = pfa_configuration "Acquisition_5X" a b ∧
    (b2a_pfa_example a b).role_ = "Acquisition_5X" ∧
    (b2a_pfa_example a b).channel_ = 0 := by
  have hL : (b2a_pfa_example a b).code_length_
      = toUInt32 (std_round ((((1000 * 25000 : Nat) : Int) : ℚ)
        / (BEIDOU_B2ad_CODE_RATE_HZ / (BEIDOU_B2ad_CODE_LENGTH_CHIPS : ℚ)))) := rfl
  rw [b2a_code_length_khz] at hL
  obtain ⟨hshape, _⟩ := b2a_ctor_shape (α := Int) 0 Acq_Conf_zero
    (pfa_configuration "Acquisition_5X" a b) "Acquisition_5X" 1 0
  have hflag : (BeidouB2aPcpsAcquisition.BeidouB2aPcpsAcquisition 0 Acq_Conf_zero
      (pfa_configuration "Acquisition_5X" a b) "Acquisition_5X" 1 0 :
        Adapter Int).bit_transition_flag_ = false := rfl
  have hn : (BeidouB2aPcpsAcquisition.BeidouB2aPcpsAcquisition 0 Acq_Conf_zero
      (pfa_configuration "Acquisition_5X" a b) "Acquisition_5X" 1 0 :
        Adapter Int).sampled_ms_ = 1 := rfl
  have hL0 : (BeidouB2aPcpsAcquisition.BeidouB2aPcpsAcquisition 0 Acq_Conf_zero
      (pfa_configuration "Acquisition_5X" a b) "Acquisition_5X" 1 0 :
        Adapter Int).code_length_ = 25000 % 2 ^ 32 := hL
  rw [hflag, hn, hL0] at hshape
  have hV : (b2a_pfa_example a b).vector_length_ = 25000 := by
    show (BeidouB2aPcpsAcquisition.BeidouB2aPcpsAcquisition 0 Acq_Conf_zero
      (pfa_configuration "Acquisition_5X" a b) "Acquisition_5X" 1 0 :
        Adapter Int).vector_length_ = 25000
    rw [hshape]
    decide
  exact ⟨hV, rfl, rfl, rfl, rfl, rfl⟩

/-- C12, the code at the failing input: B2a `set_threshold` never reads the
per-channel property.  With `Acquisition_5X0.pfa = 1/1000` and
`Acquisition_5X.pfa = 1/100` it stores and forwards `calculate_threshold` of the
`float` nearest to `1/100`, the per-role value, which is strictly below
`calculate_threshold` of the `float` nearest to `1/1000`; on the same state the
B1C `set_threshold` does store the per-channel value. -/
theorem C12_b2a_channel_pfa_ignored :
    BeidouB2aPcpsAcquisition.set_threshold 42 (b2a_pfa_example (1 / 1000) (1 / 100)) 5
      = some (store_threshold (b2a_pfa_example (1 / 1000) (1 / 100))
          (threshold_of_bins 25000 41 ((toFloat (1 / 100) : ℚ) : ℝ))) ∧
    threshold_of_bins 25000 41 ((toFloat (1 / 100) : ℚ) : ℝ)
      < threshold_of_bins 25000 41 ((toFloat (1 / 1000) : ℚ) : ℝ) ∧
    BeidouB1cPcpsAcquisition.set_threshold 42 (b2a_pfa_example (1 / 1000) (1 / 100)) 5
      = some (store_threshold (b2a_pfa_example (1 / 1000) (1 / 100))
          (threshold_of_bins 25000 41 ((toFloat (1 / 1000) : ℚ) : ℝ))) := by
  obtain ⟨hV, hdm, hds, hcfg, hrole, hch⟩ := b2a_pfa_example_members (1 / 1000) (1 / 100)
  have hb : frequency_bins 42 5000 250 = some 41 := by decide
  have hpr : ((b2a_pfa_example (1 / 1000) (1 / 100)).configuration_.property_double
      ((b2a_pfa_example (1 / 1000) (1 / 100)).role_ ++ ".pfa")).getD 0 = 1 / 100 := by
    rw [hcfg, hrole]; rfl
  have hpc : ((b2a_pfa_example (1 / 1000) (1 / 100)).configuration_.property_double
      ((b2a_pfa_example (1 / 1000) (1 / 100)).role_
        ++ toString (b2a_pfa_example (1 / 1000) (1 / 100)).channel_ ++ ".pfa")).getD 0
      = 1 / 1000 := by
    rw [hcfg, hrole, hch]; rfl
  refine ⟨?_, ?_, ?_⟩
  · rw [(b2a_set_threshold_cases 42 _ 5 (toFloat (1 / 100)) (by rw [hpr])).1
      (ne_of_gt (toFloat_pos _ (by norm_num))), calculate_threshold, hV, hdm, hds, hb]
    rfl
  · rw [toFloat_one_percent, toFloat_one_permille]
    apply threshold_of_bins_strict 25000 41 _ _ _ _ _ (by decide) (by decide) <;>
      push_cast <;> norm_num
  · rw [(b1c_set_threshold_cases 42 _ 5 (toFloat (1 / 1000)) (toFloat (1 / 100))
      (by rw [hpc]) (by rw [hpr])).1 (ne_of_gt (toFloat_pos _ (by norm_num))),
      calculate_threshold, hV, hdm, hds, hb]
    rfl

/-! ### C13 -/

theorem toUInt32_of_range {v : Int} (h0 : 0 ≤ v) (h1 : v < 2 ^ 32) :
    ((toUInt32 v : Nat) : Int) = v := by
  unfold toUInt32
  omega

/-- C13 (as amended): in both constructors the resolved `doppler_max` is the 32-bit
unsigned conversion of the global override `FLAGS_doppler_max` when that is
non-zero, otherwise of the role-level `doppler_max` property when configured,
otherwise the default 5000; it equals the selected value itself whenever that value
is not negative, and it is the value stored in both `doppler_max_` and
`acq_parameters_.doppler_max`. -/
theorem C13_doppler_max_resolution {α : Type} [Zero α] (k : Beidou_B1C)
    (FLAGS_doppler_max : Int) (acq0 : Acq_Conf) (cfg : ConfigurationInterface)
    (role : String) (ins outs : Nat) :
    (FLAGS_doppler_max ≠ 0 →
      resolve_doppler_max FLAGS_doppler_max cfg role = toUInt32 FLAGS_doppler_max ∧
      (0 ≤ FLAGS_doppler_max → FLAGS_doppler_max < 2 ^ 32 →
        ((resolve_doppler_max FLAGS_doppler_max cfg role : Nat) : Int) = FLAGS_doppler_max)) ∧
    (FLAGS_doppler_max = 0 → ∀ v : Int, cfg.property_int (role ++ ".doppler_max") = some v →
      resolve_doppler_max FLAGS_doppler_max cfg role = toUInt32 v ∧
      (0 ≤ v → v < 2 ^ 32 →
        ((resolve_doppler_max FLAGS_doppler_max cfg role : Nat) : Int) = v)) ∧
    (FLAGS_doppler_max = 0 → cfg.property_int (role ++ ".doppler_max") = none →
      resolve_doppler_max FLAGS_doppler_max cfg role = 5000) ∧
    ((BeidouB2aPcpsAcquisition.BeidouB2aPcpsAcquisition FLAGS_doppler_max acq0 cfg role ins
        outs : Adapter α).doppler_max_ = resolve_doppler_max FLAGS_doppler_max cfg role ∧
      (BeidouB2aPcpsAcquisition.BeidouB2aPcpsAcquisition FLAGS_doppler_max acq0 cfg role ins
        outs : Adapter α).acq_parameters_.doppler_max
        = resolve_doppler_max FLAGS_doppler_max cfg role) ∧
    (∀ st : Adapter α,
      BeidouB1cPcpsAcquisition.BeidouB1cPcpsAcquisition k FLAGS_doppler_max acq0 cfg role
        ins outs = some st →
      st.doppler_max_ = resolve_doppler_max FLAGS_doppler_max cfg role ∧
      st.acq_parameters_.doppler_max = resolve_doppler_max FLAGS_doppler_max cfg role) := by
  refine ⟨?_, ?_, ?_, ⟨rfl, rfl⟩, ?_⟩
  · intro hF
    have h : resolve_doppler_max FLAGS_doppler_max cfg role = toUInt32 FLAGS_doppler_max := by
      unfold resolve_doppler_max
      rw [if_pos hF]
    exact ⟨h, fun h0 h1 => by rw [h]; exact toUInt32_of_range h0 h1⟩
  · intro hF v hv
    have h : resolve_doppler_max FLAGS_doppler_max cfg role = toUInt32 v := by
      unfold resolve_doppler_max
      rw [if_neg (by simp [hF]), hv]
      rfl
    exact ⟨h, fun h0 h1 => by rw [h]; exact toUInt32_of_range h0 h1⟩
  · intro hF hv
    unfold resolve_doppler_max
    rw [if_neg (by simp [hF]), hv]
    rfl
  · intro st hst
    obtain ⟨_, _, _, _, _, _, _, _, h1, h2, _⟩ :=
      b1c_ctor_members α k FLAGS_doppler_max acq0 cfg role ins outs st hst
    exact ⟨h1, h2⟩

theorem C13_doppler_max_resolution_witness :
    (resolve_doppler_max 8000 (doppler_max_configuration 3000) "Acquisition_5X" = toUInt32 8000 ∧
      (0 ≤ (8000 : Int) → (8000 : Int) < 2 ^ 32 →
        ((resolve_doppler_max 8000 (doppler_max_configuration 3000) "Acquisition_5X" : Nat)
          : Int) = 8000)) ∧
    (resolve_doppler_max 0 (doppler_max_configuration 3000) "Acquisition_5X" = toUInt32 3000 ∧
      (0 ≤ (3000 : Int) → (3000 : Int) < 2 ^ 32 →
        ((resolve_doppler_max 0 (doppler_max_configuration 3000) "Acquisition_5X" : Nat)
          : Int) = 3000)) ∧
    resolve_doppler_max 0 no_properties "Acquisition_5X" = 5000 :=
  ⟨(C13_doppler_max_resolution (α := Int) (b1c_constants 10230000) 8000 Acq_Conf_zero
      (doppler_max_configuration 3000) "Acquisition_5X" 1 0).1 (by decide),
   (C13_doppler_max_resolution (α := Int) (b1c_constants 10230000) 0 Acq_Conf_zero
      (doppler_max_configuration 3000) "Acquisition_5X" 1 0).2.1 rfl 3000 (by decide),
   (C13_doppler_max_resolution (α := Int) (b1c_constants 10230000) 0 Acq_Conf_zero
      no_properties "Acquisition_5X" 1 0).2.2.1 rfl rfl⟩

/-- C13 (as stated) fails for a negative override: with `FLAGS_doppler_max = -1` both
constructors store `4294967295`, the unsigned conversion, not `-1`. -/
theorem C13_counterexample :
    (((BeidouB2aPcpsAcquisition.BeidouB2aPcpsAcquisition (-1) Acq_Conf_zero no_properties
        "Acquisition_5X" 1 0 : Adapter Int).doppler_max_ : Nat) : Int) = 4294967295 ∧
    (((BeidouB2aPcpsAcquisition.BeidouB2aPcpsAcquisition (-1) Acq_Conf_zero no_properties
        "Acquisition_5X" 1 0 : Adapter Int).doppler_max_ : Nat) : Int) ≠ -1 ∧
    ((BeidouB1cPcpsAcquisition.BeidouB1cPcpsAcquisition (b1c_constants 10230000) (-1)
        Acq_Conf_zero no_properties "Acquisition_B1" 1 0 : Option (Adapter Int)).map
      (fun st => st.doppler_max_)) = some 4294967295 := by
  refine ⟨by decide, by decide, ?_⟩
  obtain ⟨st, hst, _⟩ := b1c_ctor_no_resampler Int (b1c_constants 10230000) (-1) Acq_Conf_zero
    no_properties "Acquisition_B1" 1 0 rfl
  obtain ⟨_, _, _, _, _, _, _, _, h1, _, _⟩ :=
    b1c_ctor_members Int _ _ _ _ _ _ _ st hst
  rw [hst, Option.map_some', h1]
  decide

/-! ### C14 -/

/-- The B1C constructor with the resampler enabled on `gr_complex` items and an
input rate that does not exceed the optimal rate: the resampler block is skipped
and the rate-dependent members are computed from the `resampled_fs` of the
default-constructed parameters. -/
theorem b1c_ctor_resampler_idle (α : Type) [Zero α] (k : Beidou_B1C) (FLAGS_doppler_max : Int)
    (acq0 : Acq_Conf) (cfg : ConfigurationInterface) (role : String) (ins outs : Nat)
    (hres : (cfg.property_bool "GNSS-SDR.use_acquisition_resampler").getD false = true)
    (hitem : (cfg.property_string (role ++ ".item_type")).getD "gr_complex" = "gr_complex")
    (hle : ¬ ((cfg.property_int "GNSS-SDR.internal_fs_sps").getD
      ((cfg.property_int "GNSS-SDR.internal_fs_hz").getD 4000000)
        > k.BEIDOU_B1C_OPT_ACQ_FS_HZ)) :
    ∃ st : Adapter α,
      BeidouB1cPcpsAcquisition.BeidouB1cPcpsAcquisition k FLAGS_doppler_max acq0 cfg role
        ins outs = some st ∧
      st.acq_parameters_.use_automatic_resampler = true ∧
      st.acq_parameters_.resampled_fs = acq0.resampled_fs ∧
      st.code_length_ = toUInt32
        ⌊(acq0.resampled_fs : ℚ)
          / (k.BEIDOU_B1Cd_CODE_RATE_HZ / k.BEIDOU_B1Cd_CODE_LENGTH_CHIPS)⌋ ∧
      st.acq_parameters_.samples_per_ms
        = toFloat (toFloat (acq0.resampled_fs : ℚ) * (1 / 1000)) ∧
      st.acq_parameters_.samples_per_chip
        = toUInt32 ⌈(1 / k.BEIDOU_B1Cd_CODE_RATE_HZ) * toFloat (acq0.resampled_fs : ℚ)⌉ := by
  unfold BeidouB1cPcpsAcquisition.BeidouB1cPcpsAcquisition
  simp only [hres, hitem, resampler_policy, hle, ne_eq, not_true_eq_false, and_false,
    if_false, if_true, Option.map_some']
  exact ⟨_, rfl, rfl, rfl, rfl, rfl, rfl⟩

/-- C14, the code at the failing input: with the resampler enabled and
`fs_in = 4000000` below the optimal rate `10230000`, the constructor computes
`code_length`, `samples_per_ms` and `samples_per_chip` from the default
`resampled_fs` of the parameters, whatever that is, not from `fs_in`: with the
default 0 they are 0, 0 and 0, where the raw input rate gives 40000, 4000 and 4. -/
theorem C14_idle_resampler_ignores_fs_in :
    (∀ acq0 : Acq_Conf, ∃ st : Adapter Int,
      BeidouB1cPcpsAcquisition.BeidouB1cPcpsAcquisition (b1c_constants 10230000) 0 acq0
        (resampler_on 4000000) "Acquisition_B1" 1 0 = some st ∧
      st.fs_in_ = 4000000 ∧
      st.code_length_ = toUInt32 ⌊(acq0.resampled_fs : ℚ) / ((1023000 : ℚ) / 10230)⌋ ∧
      st.acq_parameters_.samples_per_ms
        = toFloat (toFloat (acq0.resampled_fs : ℚ) * (1 / 1000)) ∧
      st.acq_parameters_.samples_per_chip
        = toUInt32 ⌈(1 / (1023000 : ℚ)) * toFloat (acq0.resampled_fs : ℚ)⌉) ∧
    (∃ st : Adapter Int,
      BeidouB1cPcpsAcquisition.BeidouB1cPcpsAcquisition (b1c_constants 10230000) 0
        Acq_Conf_zero (resampler_on 4000000) "Acquisition_B1" 1 0 = some st ∧
      st.code_length_ = 0 ∧ st.acq_parameters_.samples_per_ms = 0 ∧
      st.acq_parameters_.samples_per_chip = 0) ∧
    toUInt32 ⌊((4000000 : Int) : ℚ) / ((1023000 : ℚ) / 10230)⌋ = 40000 ∧
    toFloat (toFloat ((4000000 : Int) : ℚ) * (1 / 1000)) = 4000 ∧
    toUInt32 ⌈(1 / (1023000 : ℚ)) * toFloat ((4000000 : Int) : ℚ)⌉ = 4 := by
  have hgen : ∀ acq0 : Acq_Conf, ∃ st : Adapter Int,
      BeidouB1cPcpsAcquisition.BeidouB1cPcpsAcquisition (b1c_constants 10230000) 0 acq0
        (resampler_on 4000000) "Acquisition_B1" 1 0 = some st ∧
      st.fs_in_ = 4000000 ∧
      st.code_length_ = toUInt32 ⌊(acq0.resampled_fs : ℚ) / ((1023000 : ℚ) / 10230)⌋ ∧
      st.acq_parameters_.samples_per_ms
        = toFloat (toFloat (acq0.resampled_fs : ℚ) * (1 / 1000)) ∧
      st.acq_parameters_.samples_per_chip
        = toUInt32 ⌈(1 / (1023000 : ℚ)) * toFloat (acq0.resampled_fs : ℚ)⌉ := by
    intro acq0
    obtain ⟨st, hst, _, _, hL, hms, hchip⟩ := b1c_ctor_resampler_idle Int
      (b1c_constants 10230000) 0 acq0 (resampler_on 4000000) "Acquisition_B1" 1 0
      (by decide) (by decide) (by decide)
    have hfs : st.fs_in_ = 4000000 := by
      unfold BeidouB1cPcpsAcquisition.BeidouB1cPcpsAcquisition at hst
      obtain ⟨rs, _, hrs⟩ := Option.map_eq_some'.mp hst
      rw [← hrs]
      rfl
    exact ⟨st, hst, hfs, hL, hms, hchip⟩
  refine ⟨hgen, ?_, ?_, samples_per_ms_4msps, ?_⟩
  · obtain ⟨st, hst, _, hL, hms, hchip⟩ := hgen Acq_Conf_zero
    refine ⟨st, hst, ?_, ?_, ?_⟩
    · rw [hL]
      have h0 : ((Acq_Conf_zero.resampled_fs : Int) : ℚ) / ((1023000 : ℚ) / 10230)
          = ((0 : Int) : ℚ) := by
        simp [Acq_Conf_zero]
      rw [h0, Int.floor_intCast]
      decide
    · rw [hms]
      simp [Acq_Conf_zero, toFloat_zero]
    · rw [hchip]
      have h0 : (1 / (1023000 : ℚ)) * toFloat ((Acq_Conf_zero.resampled_fs : Int) : ℚ)
          = ((0 : Int) : ℚ) := by
        simp [Acq_Conf_zero, toFloat_zero]
      rw [h0, Int.ceil_intCast]
      decide
  · have hq : ((4000000 : Int) : ℚ) / ((1023000 : ℚ) / 10230) = ((40000 : Int) : ℚ) := by
      norm_num
    rw [hq, Int.floor_intCast]
    decide
  · have hc : ⌈(1 / (1023000 : ℚ)) * toFloat ((4000000 : Int) : ℚ)⌉ = 4 := by
      rw [toFloat_4000000, Int.ceil_eq_iff]
      constructor <;> norm_num
    rw [hc]
    decide

/-! ### C15 -/

/-- C15: in the B1C constructor, when `use_acquisition_resampler` is configured true
and `item_type` is any string other than `"gr_complex"`, construction completes,
`acq_parameters_.use_automatic_resampler` is false in the adapter and in the
parameters handed to the engine, and `resampler_ratio` and `resampled_fs` are the
defaults (no ratio is computed); when `item_type` is `"gr_complex"` a constructed
adapter keeps the configured flag. -/
theorem C15_resampler_needs_gr_complex {α : Type} [Zero α] (k : Beidou_B1C)
    (FLAGS_doppler_max : Int) (acq0 : Acq_Conf) (cfg : ConfigurationInterface)
    (role : String) (ins outs : Nat) :
    ((cfg.property_bool "GNSS-SDR.use_acquisition_resampler").getD false = true →
      (cfg.property_string (role ++ ".item_type")).getD "gr_complex" ≠ "gr_complex" →
      ∃ st : Adapter α,
        BeidouB1cPcpsAcquisition.BeidouB1cPcpsAcquisition k FLAGS_doppler_max acq0 cfg role
          ins outs = some st ∧
        st.acq_parameters_.use_automatic_resampler = false ∧
        st.acquisition_.acq_parameters.use_automatic_resampler = false ∧
        Acq_Conf.resampler_ratio st.acq_parameters_ = Acq_Conf.resampler_ratio acq0 ∧
        st.acq_parameters_.resampled_fs = acq0.resampled_fs) ∧
    ((cfg.property_string (role ++ ".item_type")).getD "gr_complex" = "gr_complex" →
      ∀ st : Adapter α,
        BeidouB1cPcpsAcquisition.BeidouB1cPcpsAcquisition k FLAGS_doppler_max acq0 cfg role
          ins outs = some st →
        st.acq_parameters_.use_automatic_resampler
          = (cfg.property_bool "GNSS-SDR.use_acquisition_resampler").getD false) := by
  constructor
  · intro hres hitem
    unfold BeidouB1cPcpsAcquisition.BeidouB1cPcpsAcquisition
    simp only [hres, hitem, ne_eq, not_false_eq_true, and_self, if_true, Bool.false_eq_true,
      if_false, Option.map_some']
    exact ⟨_, rfl, rfl, rfl, rfl, rfl⟩
  · intro hitem st hst
    unfold BeidouB1cPcpsAcquisition.BeidouB1cPcpsAcquisition at hst
    obtain ⟨rs, _, hrs⟩ := Option.map_eq_some'.mp hst
    subst hrs
    simp only [hitem, ne_eq, not_true_eq_false, and_false, if_false]

theorem C15_resampler_needs_gr_complex_witness :
    (∃ st : Adapter Int,
        BeidouB1cPcpsAcquisition.BeidouB1cPcpsAcquisition (b1c_constants 10230000) 0
          Acq_Conf_zero (resampler_item_configuration "cshort" 25000000) "Acquisition_B1"
          1 0 = some st ∧
        st.acq_parameters_.use_automatic_resampler = false ∧
        st.acquisition_.acq_parameters.use_automatic_resampler = false ∧
        Acq_Conf.resampler_ratio st.acq_parameters_ = Acq_Conf.resampler_ratio Acq_Conf_zero ∧
        st.acq_parameters_.resampled_fs = Acq_Conf_zero.resampled_fs) ∧
    (∀ st : Adapter Int,
        BeidouB1cPcpsAcquisition.BeidouB1cPcpsAcquisition (b1c_constants 10230000) 0
          Acq_Conf_zero (resampler_item_configuration "gr_complex" 25000000)
          "Acquisition_B1" 1 0 = some st →
        st.acq_parameters_.use_automatic_resampler
          = ((resampler_item_configuration "gr_complex" 25000000).property_bool
              "GNSS-SDR.use_acquisition_resampler").getD false) :=
  ⟨(C15_resampler_needs_gr_complex (b1c_constants 10230000) 0 Acq_Conf_zero
      (resampler_item_configuration "cshort" 25000000) "Acquisition_B1" 1 0).1
      (by decide) (by decide),
   (C15_resampler_needs_gr_complex (b1c_constants 10230000) 0 Acq_Conf_zero
      (resampler_item_configuration "gr_complex" 25000000) "Acquisition_B1" 1 0).2
      (by decide)⟩

/-! ### C16 -/

/-- One `set_local_code` on an adapter whose periods fit into the buffer: only
`code_` and the engine's copy change, and the samples from `sampled_ms * code_length`
on are untouched. -/
theorem b2a_set_local_code_frame {α : Type} (g : CodeGenerators α) (st : Adapter α)
    (prn : Nat) (hlen : st.code_.length = st.vector_length_)
    (hV : st.vector_length_ < 2 ^ 32)
    (hfit : st.sampled_ms_ * st.code_length_ ≤ st.vector_length_) :
    ∃ st', BeidouB2aPcpsAcquisition.set_local_code g
        (BeidouB2aPcpsAcquisition.set_gnss_synchro st (some prn)) = some st' ∧
      st'.vector_length_ = st.vector_length_ ∧ st'.sampled_ms_ = st.sampled_ms_ ∧
      st'.code_length_ = st.code_length_ ∧ st'.code_.length = st.code_.length ∧
      ∀ p, st.sampled_ms_ * st.code_length_ ≤ p → st'.code_[p]? = st.code_[p]? := by
  have hprn : (BeidouB2aPcpsAcquisition.set_gnss_synchro st (some prn)).gnss_synchro_
      = some prn := rfl
  rw [b2a_set_local_code_eq g _ prn hprn]
  obtain ⟨buf', h1, h2, _, h4⟩ := copy_periods_spec
    (b2a_one_period g (BeidouB2aPcpsAcquisition.set_gnss_synchro st (some prn)) prn)
    st.code_length_ st.vector_length_ (b2a_one_period_length g _ prn) hV st.sampled_ms_ 0
    st.code_ hlen (by simpa using hfit) (fun i' hi' => absurd hi' (Nat.not_lt_zero _))
  refine ⟨{ BeidouB2aPcpsAcquisition.set_gnss_synchro st (some prn) with
      code_ := buf',
      acquisition_ := { (BeidouB2aPcpsAcquisition.set_gnss_synchro st (some prn)).acquisition_
        with local_code := some buf' } }, ?_, rfl, rfl, rfl, ?_, ?_⟩
  · unfold tile_and_forward
    show Option.map _ (copy_periods _ st.code_length_ st.vector_length_ st.sampled_ms_ 0
      st.code_) = _
    rw [h1]
    rfl
  · show buf'.length = st.code_.length
    rw [h2, hlen]
  · intro p hp
    exact h4 p (by simpa using hp)

theorem b2a_set_local_code_each_frame {α : Type} (g : CodeGenerators α) (prns : List Nat) :
    ∀ st : Adapter α, st.code_.length = st.vector_length_ → st.vector_length_ < 2 ^ 32 →
      st.sampled_ms_ * st.code_length_ ≤ st.vector_length_ →
      ∃ st', b2a_set_local_code_each g prns st = some st' ∧
        st'.vector_length_ = st.vector_length_ ∧ st'.sampled_ms_ = st.sampled_ms_ ∧
        st'.code_length_ = st.code_length_ ∧ st'.code_.length = st.code_.length ∧
        ∀ p, st.sampled_ms_ * st.code_length_ ≤ p → st'.code_[p]? = st.code_[p]? := by
  induction prns with
  | nil => intro st _ _ _; exact ⟨st, rfl, rfl, rfl, rfl, rfl, fun _ _ => rfl⟩
  | cons prn rest ih =>
    intro st hlen hV hfit
    obtain ⟨st1, h1, hv1, hn1, hL1, hlen1, hframe1⟩ :=
      b2a_set_local_code_frame g st prn hlen hV hfit
    obtain ⟨st2, h2, hv2, hn2, hL2, hlen2, hframe2⟩ := ih st1
      (by rw [hlen1, hv1, hlen]) (by rw [hv1]; exact hV) (by rw [hn1, hL1, hv1]; exact hfit)
    refine ⟨st2, ?_, by rw [hv2, hv1], by rw [hn2, hn1], by rw [hL2, hL1],
      by rw [hlen2, hlen1], ?_⟩
    · rw [b2a_set_local_code_each, h1]
      exact h2
    · intro p hp
      rw [hframe2 p (by rw [hn1, hL1]; exact hp), hframe1 p hp]

/-- C16 (as amended): in the B2a adapter with `bit_transition_flag` set whose buffer
has `vector_length = 2 * sampled_ms * code_length < 2 ^ 32` samples, any number of
successive `set_local_code` calls, for any PRNs, return; the buffer keeps the length
`2 * sampled_ms * code_length`, and every sample at an index
`>= sampled_ms * code_length` is what it was before the calls, zero when the buffer
was all zeros as on a freshly constructed adapter. -/
theorem C16_upper_half_untouched {α : Type} [Zero α] (g : CodeGenerators α) (st : Adapter α)
    (prns : List Nat)
    (hflag : st.bit_transition_flag_ = true)
    (hlen : st.code_.length = st.vector_length_)
    (hvec : st.vector_length_
      = st.sampled_ms_ * st.code_length_ * (if st.bit_transition_flag_ then 2 else 1))
    (hV : st.vector_length_ < 2 ^ 32) :
    ∃ st', b2a_set_local_code_each g prns st = some st' ∧
      st'.code_.length = 2 * st.sampled_ms_ * st.code_length_ ∧
      (∀ p, st.sampled_ms_ * st.code_length_ ≤ p → st'.code_[p]? = st.code_[p]?) ∧
      (st.code_ = List.replicate st.vector_length_ 0 →
        ∀ p, st.sampled_ms_ * st.code_length_ ≤ p → p < 2 * st.sampled_ms_ * st.code_length_ →
          st'.code_[p]? = some 0) := by
  rw [if_pos hflag] at hvec
  obtain ⟨st', h1, _, _, _, h5, h6⟩ := b2a_set_local_code_each_frame g prns st hlen hV
    (by rw [hvec]; omega)
  refine ⟨st', h1, by rw [h5, hlen, hvec]; ring, h6, ?_⟩
  intro hzero p hp hp2
  have h2 : 2 * st.sampled_ms_ * st.code_length_ = st.sampled_ms_ * st.code_length_ * 2 := by
    ring
  rw [h2] at hp2
  rw [h6 p hp, hzero, List.getElem?_replicate]
  rw [if_pos (by rw [hvec]; omega)]

theorem C16_upper_half_untouched_witness :
    ∃ st', b2a_set_local_code_each example_generators [19, 20, 19] (b2a_example 10 true)
        = some st' ∧
      st'.code_.length = 500000 ∧
      ∀ p, 250000 ≤ p → p < 500000 → st'.code_[p]? = some 0 := by
  have hL := b2a_example_code_length 10 true
  have hV : (b2a_example 10 true).vector_length_ = 500000 := by
    rw [b2a_example_vector_length]; decide
  have hn : (b2a_example 10 true).sampled_ms_ = 10 := by decide
  have hb : (b2a_example 10 true).bit_transition_flag_ = true := by decide
  obtain ⟨st', h1, h2, _, h4⟩ := C16_upper_half_untouched example_generators
    (b2a_example 10 true) [19, 20, 19] hb (b2a_example_code_size 10 true)
    (by rw [hV, hn, hL, hb]; decide) (by rw [hV]; decide)
  rw [hn, hL] at h2 h4
  exact ⟨st', h1, h2, fun p hp hp2 => h4 rfl p hp hp2⟩

/-- C16 (as stated) fails when the doubling wraps: at 25 Msps with
`coherent_integration_time_ms = 100000` and the flag set,
`2 * sampled_ms * code_length = 5000000000` but the buffer has
`5000000000 mod 2 ^ 32 = 705032704` samples. -/
theorem C16_counterexample :
    (b2a_example 100000 true).bit_transition_flag_ = true ∧
    (b2a_example 100000 true).sampled_ms_ = 100000 ∧
    (b2a_example 100000 true).code_length_ = 25000 ∧
    (b2a_example 100000 true).code_.length = 705032704 ∧
    (b2a_example 100000 true).code_.length
      ≠ 2 * (b2a_example 100000 true).sampled_ms_ * (b2a_example 100000 true).code_length_ := by
  have hL := b2a_example_code_length 100000 true
  have hV : (b2a_example 100000 true).vector_length_ = 705032704 := by
    rw [b2a_example_vector_length]; decide
  have hn : (b2a_example 100000 true).sampled_ms_ = 100000 := by decide
  have hlen : (b2a_example 100000 true).code_.length = 705032704 := by
    rw [b2a_example_code_size, hV]
  refine ⟨by decide, hn, hL, hlen, ?_⟩
  rw [hlen, hn, hL]
  decide

/-! ### C17 -/

theorem range_succ_map_affine (d : Int) (s : Nat) (n : Nat) :
    (List.range (n + 1)).map (fun k : Nat => d + (k : Int) * s)
      = d :: (List.range n).map (fun k : Nat => d + s + (k : Int) * s) := by
  rw [List.range_succ_eq_map, List.map_cons, List.map_map]
  congr 1
  · simp
  · apply List.map_congr_left
    intro k _
    simp only [Function.comp, Nat.succ_eq_add_one]
    push_cast
    ring

/-- The walk started at `doppler_max - r` counts the values `doppler_max - r + k * step`
for `k = 0 .. r / step`. -/
theorem doppler_walk_values_eq (doppler_max doppler_step : Nat) (hs : 0 < doppler_step)
    (hsum : doppler_max + doppler_step < 2 ^ 31) :
    ∀ (fuel r : Nat) (acc : List Int), r ≤ 2 * doppler_max → r / doppler_step + 2 ≤ fuel →
      doppler_walk_values fuel doppler_max doppler_step ((doppler_max : Int) - r) acc
        = some (acc ++ (List.range (r / doppler_step + 1)).map
            (fun k : Nat => (doppler_max : Int) - r + (k : Int) * doppler_step)) := by
  intro fuel
  induction fuel with
  | zero => intro r acc _ hf; exact absurd hf (by simp)
  | succ fuel ih =>
    intro r acc hr hf
    have hmax : toInt32 doppler_max = (doppler_max : Int) := toInt32_of_lt (by omega)
    have hstep : toInt32 (toUInt32 ((doppler_max : Int) - r) + doppler_step)
        = (doppler_max : Int) - r + doppler_step :=
      toInt32_step (by omega) (by omega) (by omega)
    rw [doppler_walk_values, hmax, if_pos (by omega), hstep]
    by_cases hle : doppler_step ≤ r
    · have hdiv : r / doppler_step = (r - doppler_step) / doppler_step + 1 := by
        rw [Nat.div_eq r doppler_step, if_pos ⟨hs, hle⟩]
      have hcast : (doppler_max : Int) - r + doppler_step
          = (doppler_max : Int) - ((r - doppler_step : Nat) : Int) := by omega
      have hih := ih (r - doppler_step) (acc ++ [(doppler_max : Int) - r]) (by omega)
      rw [hdiv] at hf ⊢
      rw [range_succ_map_affine, hcast, hih (by omega), List.append_assoc]
      rfl
    · have hdiv : r / doppler_step = 0 := Nat.div_eq_of_lt (by omega)
      rw [hdiv] at hf ⊢
      cases fuel with
      | zero => omega
      | succ fuel =>
        rw [doppler_walk_values, hmax, if_neg (by omega)]
        simp [List.range_succ]

/-- C17 (as amended): for `doppler_max > 0` and `doppler_step > 0` with
`doppler_max + doppler_step < 2 ^ 31`, the walk of `calculate_threshold` counts
exactly the values `-doppler_max + k * doppler_step`, `k = 0 .. bins - 1`, with
`bins` the bin count: the first is `-doppler_max`, the highest is
`-doppler_max + (bins - 1) * doppler_step`, which never exceeds `+doppler_max` and
equals it exactly when `doppler_step` divides `2 * doppler_max`. -/
theorem C17_counted_dopplers (doppler_max doppler_step fuel : Nat) (hm : 0 < doppler_max)
    (hs : 0 < doppler_step) (hsum : doppler_max + doppler_step < 2 ^ 31)
    (hf : 2 * doppler_max / doppler_step + 2 ≤ fuel) :
    ∃ (vs : List Int) (bins : Nat),
      counted_dopplers fuel doppler_max doppler_step = some vs ∧
      frequency_bins fuel doppler_max doppler_step = some bins ∧
      1 ≤ bins ∧ vs.length = bins ∧
      vs = (List.range bins).map
        (fun k : Nat => -(doppler_max : Int) + (k : Int) * doppler_step) ∧
      vs.head? = some (-(doppler_max : Int)) ∧
      vs.getLast? = some (-(doppler_max : Int) + ((bins - 1 : Nat) : Int) * doppler_step) ∧
      -(doppler_max : Int) + ((bins - 1 : Nat) : Int) * doppler_step ≤ doppler_max ∧
      (-(doppler_max : Int) + ((bins - 1 : Nat) : Int) * doppler_step = doppler_max
        ↔ doppler_step ∣ 2 * doppler_max) := by
  have hcast : -(doppler_max : Int) = (doppler_max : Int) - ((2 * doppler_max : Nat) : Int) := by
    push_cast; ring
  have hvals : counted_dopplers fuel doppler_max doppler_step
      = some ((List.range (2 * doppler_max / doppler_step + 1)).map
          (fun k : Nat => -(doppler_max : Int) + (k : Int) * doppler_step)) := by
    unfold counted_dopplers
    rw [toInt32_negUInt32 hm (by omega), hcast,
      doppler_walk_values_eq doppler_max doppler_step hs hsum fuel (2 * doppler_max) []
        (le_refl _) hf]
    rfl
  have hmul : 2 * doppler_max / doppler_step * doppler_step ≤ 2 * doppler_max :=
    Nat.div_mul_le_self _ _
  have hdvd : 2 * doppler_max / doppler_step * doppler_step = 2 * doppler_max
      ↔ doppler_step ∣ 2 * doppler_max :=
    ⟨fun h => Dvd.intro_left _ h, fun h => Nat.div_mul_cancel h⟩
  refine ⟨_, 2 * doppler_max / doppler_step + 1, hvals,
    frequency_bins_eq doppler_max doppler_step fuel hm hs hsum hf, Nat.le_add_left 1 _,
    by simp, rfl, ?_, ?_, ?_, ?_⟩
  · rw [List.range_succ_eq_map]
    simp
  · rw [List.range_succ, List.map_append]
    simp
  · simp only [Nat.add_sub_cancel]
    generalize 2 * doppler_max / doppler_step = q at hmul
    have h : (q : Int) * (doppler_step : Int) ≤ 2 * (doppler_max : Int) := by
      exact_mod_cast hmul
    linarith
  · simp only [Nat.add_sub_cancel]
    rw [← hdvd]
    generalize 2 * doppler_max / doppler_step = q
    constructor
    · intro h
      have h2 : (q : Int) * (doppler_step : Int) = 2 * (doppler_max : Int) := by linarith
      exact_mod_cast h2
    · intro h
      have h2 : (q : Int) * (doppler_step : Int) = 2 * (doppler_max : Int) := by
        exact_mod_cast h
      linarith

theorem C17_counted_dopplers_witness :
    ∃ (vs : List Int) (bins : Nat),
      counted_dopplers 7 5000 2000 = some vs ∧
      frequency_bins 7 5000 2000 = some bins ∧
      1 ≤ bins ∧ vs.length = bins ∧
      vs = (List.range bins).map (fun k : Nat => -((5000 : Nat) : Int) + (k : Int) * (2000 : Nat)) ∧
      vs.head? = some (-((5000 : Nat) : Int)) ∧
      vs.getLast? = some (-((5000 : Nat) : Int) + ((bins - 1 : Nat) : Int) * (2000 : Nat)) ∧
      -((5000 : Nat) : Int) + ((bins - 1 : Nat) : Int) * (2000 : Nat) ≤ (5000 : Nat) ∧
      (-((5000 : Nat) : Int) + ((bins - 1 : Nat) : Int) * (2000 : Nat) = (5000 : Nat)
        ↔ 2000 ∣ 2 * 5000) :=
  C17_counted_dopplers 5000 2000 7 (by decide) (by decide) (by decide) (by decide)

/-- C17 (as stated) fails for the 32-bit value `doppler_max = 3000000000` with
`doppler_step = 1000`: the walk starts at `+1294967296`, its bound is `-1294967296`,
and no value is counted, so the walk does not start at `-doppler_max`. -/
theorem C17_counterexample :
    toInt32 (negUInt32 3000000000) = 1294967296 ∧ toInt32 3000000000 = -1294967296 ∧
    counted_dopplers 1 3000000000 1000 = some [] ∧
    ∀ fuel, counted_dopplers (fuel + 1) 3000000000 1000 = some [] := by
  refine ⟨by decide, by decide, by decide, ?_⟩
  intro fuel
  unfold counted_dopplers
  rw [doppler_walk_values, if_neg (by decide)]

/-! ### C18 -/

/-- C18 (as amended): for `doppler_max, doppler_step > 0` with
`doppler_max + doppler_step < 2 ^ 31` and a `vector_length` whose product with the
bin count `floor (2 * doppler_max / doppler_step) + 1` is below `2 ^ 32`, the
32-bit `ncells` of `calculate_threshold` is the mathematical product
`vector_length * frequency_bins`, it is non-zero whenever `vector_length > 0`, and
it is the value whose reciprocal `calculate_threshold` uses as the exponent. -/
theorem C18_ncells_is_product (fuel vector_length doppler_max doppler_step : Nat) (pfa : ℝ)
    (hm : 0 < doppler_max) (hs : 0 < doppler_step)
    (hsum : doppler_max + doppler_step < 2 ^ 31)
    (hf : 2 * doppler_max / doppler_step + 2 ≤ fuel)
    (hn : vector_length * (2 * doppler_max / doppler_step + 1) < 2 ^ 32) :
    frequency_bins fuel doppler_max doppler_step = some (2 * doppler_max / doppler_step + 1) ∧
    ncells vector_length (2 * doppler_max / doppler_step + 1)
      = vector_length * (2 * doppler_max / doppler_step + 1) ∧
    (0 < vector_length → ncells vector_length (2 * doppler_max / doppler_step + 1) ≠ 0) ∧
    calculate_threshold fuel vector_length doppler_max doppler_step pfa
      = some (exponential_quantile (vector_length : ℝ)
          ((1 - pfa) ^ ((1 : ℝ)
            / ((ncells vector_length (2 * doppler_max / doppler_step + 1) : Nat) : ℝ)))) := by
  have hb := frequency_bins_eq doppler_max doppler_step fuel hm hs hsum hf
  have hprod : ncells vector_length (2 * doppler_max / doppler_step + 1)
      = vector_length * (2 * doppler_max / doppler_step + 1) := by
    unfold ncells
    exact Nat.mod_eq_of_lt hn
  refine ⟨hb, hprod, ?_, ?_⟩
  · intro hv
    rw [hprod]
    exact Nat.mul_ne_zero hv.ne' (Nat.succ_ne_zero _)
  · rw [calculate_threshold, hb]
    rfl

theorem C18_ncells_is_product_witness :
    frequency_bins 42 5000 250 = some (2 * 5000 / 250 + 1) ∧
    ncells 25000 (2 * 5000 / 250 + 1) = 25000 * (2 * 5000 / 250 + 1) ∧
    (0 < 25000 → ncells 25000 (2 * 5000 / 250 + 1) ≠ 0) ∧
    calculate_threshold 42 25000 5000 250 (1 / 1000)
      = some (exponential_quantile ((25000 : Nat) : ℝ)
          ((1 - (1 / 1000 : ℝ)) ^ ((1 : ℝ)
            / ((ncells 25000 (2 * 5000 / 250 + 1) : Nat) : ℝ)))) :=
  C18_ncells_is_product 42 25000 5000 250 (1 / 1000) (by decide) (by decide) (by decide)
    (by decide) (by decide)

/-- C18 (as stated) fails when the product reaches `2 ^ 32`: with
`vector_length = 65536` and the 65536 bins of `doppler_max = 65535`,
`doppler_step = 2`, the 32-bit `ncells` is 0 although `vector_length > 0`, not the
product `4294967296`. -/
theorem C18_counterexample :
    frequency_bins 65537 65535 2 = some 65536 ∧
    ncells 65536 65536 = 0 ∧
    ncells 65536 65536 ≠ 65536 * 65536 ∧
    ∀ pfa : ℝ, calculate_threshold 65537 65536 65535 2 pfa
      = some (exponential_quantile ((65536 : Nat) : ℝ)
          ((1 - pfa) ^ ((1 : ℝ) / ((ncells 65536 65536 : Nat) : ℝ)))) := by
  have hb : frequency_bins 65537 65535 2 = some 65536 :=
    frequency_bins_eq 65535 2 65537 (by decide) (by decide) (by decide) (by decide)
  refine ⟨hb, by decide, by decide, ?_⟩
  intro pfa
  rw [calculate_threshold, hb]
  rfl

/-! ### C19 -/

/-- C19 (as amended): the stream counts only select the error messages that the
constructors log.  Constructing either adapter with `in_streams > 1` or
`out_streams > 0` completes exactly as with one input and no output stream, and the
adapter and its engine are the same apart from the recorded `in_streams_` and
`out_streams_`; no message is logged exactly when `in_streams <= 1` and
`out_streams = 0`. -/
theorem C19_stream_counts_only_logged {α : Type} [Zero α] (k : Beidou_B1C)
    (FLAGS_doppler_max : Int) (acq0 : Acq_Conf) (cfg : ConfigurationInterface)
    (role : String) (ins outs : Nat) :
    (BeidouB2aPcpsAcquisition.BeidouB2aPcpsAcquisition FLAGS_doppler_max acq0 cfg role ins
        outs : Adapter α)
      = { (BeidouB2aPcpsAcquisition.BeidouB2aPcpsAcquisition FLAGS_doppler_max acq0 cfg role
            1 0 : Adapter α) with in_streams_ := ins, out_streams_ := outs } ∧
    (BeidouB1cPcpsAcquisition.BeidouB1cPcpsAcquisition k FLAGS_doppler_max acq0 cfg role ins
        outs : Option (Adapter α))
      = (BeidouB1cPcpsAcquisition.BeidouB1cPcpsAcquisition k FLAGS_doppler_max acq0 cfg role
          1 0).map (fun st => { st with in_streams_ := ins, out_streams_ := outs }) ∧
    (BeidouB1cPcpsAcquisition.BeidouB1cPcpsAcquisition k FLAGS_doppler_max acq0 cfg role ins
        outs : Option (Adapter α)).isSome
      = (BeidouB1cPcpsAcquisition.BeidouB1cPcpsAcquisition k FLAGS_doppler_max acq0 cfg role
          1 0 : Option (Adapter α)).isSome ∧
    (stream_errors ins outs = [] ↔ ins ≤ 1 ∧ outs = 0) := by
  have h2 : (BeidouB1cPcpsAcquisition.BeidouB1cPcpsAcquisition k FLAGS_doppler_max acq0 cfg
      role ins outs : Option (Adapter α))
      = (BeidouB1cPcpsAcquisition.BeidouB1cPcpsAcquisition k FLAGS_doppler_max acq0 cfg role
          1 0).map (fun st => { st with in_streams_ := ins, out_streams_ := outs }) := by
    unfold BeidouB1cPcpsAcquisition.BeidouB1cPcpsAcquisition
    simp only [Option.map_map]
    rfl
  refine ⟨rfl, h2, by rw [h2, Option.isSome_map'], ?_⟩
  unfold stream_errors
  by_cases h1 : ins > 1 <;> by_cases h0 : outs > 0 <;> simp [h1, h0] <;> omega

/-- C19 (as stated) fails: with two input streams and one output stream both
constructors complete and yield an adapter, whose engine is the one built for valid
stream counts; the two violations are error messages only. -/
theorem C19_counterexample :
    (BeidouB1cPcpsAcquisition.BeidouB1cPcpsAcquisition (b1c_constants 10230000) 0
        Acq_Conf_zero no_properties "Acquisition_B1" 2 1 : Option (Adapter Int)).isSome
      = true ∧
    (BeidouB2aPcpsAcquisition.BeidouB2aPcpsAcquisition 0 Acq_Conf_zero no_properties
        "Acquisition_5X" 2 1 : Adapter Int).in_streams_ = 2 ∧
    (BeidouB2aPcpsAcquisition.BeidouB2aPcpsAcquisition 0 Acq_Conf_zero no_properties
        "Acquisition_5X" 2 1 : Adapter Int).out_streams_ = 1 ∧
    (BeidouB2aPcpsAcquisition.BeidouB2aPcpsAcquisition 0 Acq_Conf_zero no_properties
        "Acquisition_5X" 2 1 : Adapter Int).acquisition_
      = (BeidouB2aPcpsAcquisition.BeidouB2aPcpsAcquisition 0 Acq_Conf_zero no_properties
        "Acquisition_5X" 1 0 : Adapter Int).acquisition_ ∧
    stream_errors 2 1 = ["This implementation only supports one input stream",
      "This implementation does not provide an output stream"] := by
  refine ⟨?_, rfl, rfl, rfl, by decide⟩
  obtain ⟨st, hst, _⟩ := b1c_ctor_no_resampler Int (b1c_constants 10230000) 0 Acq_Conf_zero
    no_properties "Acquisition_B1" 2 1 rfl
  rw [hst]
  rfl

/-! ### C20 -/

/-- C20 (as amended): in either adapter `stop_acquisition ()` changes nothing: the
adapter and its engine are exactly as before the call, so an engine made active by
`reset ()` is still active afterwards and whatever the engine held is retained. -/
theorem C20_stop_acquisition_is_noop {α : Type} (st : Adapter α) :
    BeidouB1cPcpsAcquisition.stop_acquisition st = st ∧
    BeidouB2aPcpsAcquisition.stop_acquisition st = st ∧
    (BeidouB1cPcpsAcquisition.stop_acquisition
      (BeidouB1cPcpsAcquisition.reset st)).acquisition_.active = true ∧
    (BeidouB2aPcpsAcquisition.stop_acquisition
      (BeidouB2aPcpsAcquisition.reset st)).acquisition_.active = true ∧
    (BeidouB2aPcpsAcquisition.stop_acquisition
      (BeidouB2aPcpsAcquisition.reset st)).acquisition_.local_code
        = st.acquisition_.local_code :=
  ⟨rfl, rfl, rfl, rfl, rfl⟩

/-- C20 (as stated) fails: on a freshly built B2a adapter (engine not active),
`reset ()` followed by `stop_acquisition ()` leaves the engine active, not idle; the
same holds with the B1C operations. -/
theorem C20_counterexample :
    (b2a_example 1 false).acquisition_.active = false ∧
    (BeidouB2aPcpsAcquisition.stop_acquisition
      (BeidouB2aPcpsAcquisition.reset (b2a_example 1 false))).acquisition_.active = true ∧
    (BeidouB1cPcpsAcquisition.stop_acquisition
      (BeidouB1cPcpsAcquisition.reset (b2a_example 1 false))).acquisition_.active = true :=
  ⟨rfl, rfl, rfl⟩

/-! ### C21 -/

/-- The B1C constructor with the resampler off: the members that depend on the
coherent integration time and on the input rate. -/
theorem b1c_ctor_plain (α : Type) [Zero α] (k : Beidou_B1C) (FLAGS_doppler_max : Int)
    (acq0 : Acq_Conf) (cfg : ConfigurationInterface) (role : String) (ins outs : Nat)
    (hoff : (cfg.property_bool "GNSS-SDR.use_acquisition_resampler").getD false = false) :
    ∃ st : Adapter α,
      BeidouB1cPcpsAcquisition.BeidouB1cPcpsAcquisition k FLAGS_doppler_max acq0 cfg role
        ins outs = some st ∧
      st.sampled_ms_
        = (cfg.property_uint (role ++ ".coherent_integration_time_ms")).getD 10 % 2 ^ 32 ∧
      st.acq_parameters_.sampled_ms
        = (if st.sampled_ms_ % 10 ≠ 0 then 10 else st.sampled_ms_) ∧
      st.acquisition_.acq_parameters.sampled_ms = st.acq_parameters_.sampled_ms ∧
      st.fs_in_ = (cfg.property_int "GNSS-SDR.internal_fs_sps").getD
          ((cfg.property_int "GNSS-SDR.internal_fs_hz").getD 4000000) ∧
      st.acq_parameters_.samples_per_ms = toFloat (toFloat (st.fs_in_ : ℚ) * (1 / 1000)) ∧
      st.bit_transition_flag_ = (cfg.property_bool (role ++ ".bit_transition_flag")).getD false ∧
      st.acq_iq_ = (cfg.property_bool (role ++ ".acquire_iq")).getD false ∧
      st.acq_pilot_ = (if (cfg.property_bool (role ++ ".acquire_iq")).getD false then false
        else (cfg.property_bool (role ++ ".acquire_pilot")).getD false) ∧
      st.code_length_ = toUInt32
        ⌊(st.fs_in_ : ℚ) / (k.BEIDOU_B1Cd_CODE_RATE_HZ / k.BEIDOU_B1Cd_CODE_LENGTH_CHIPS)⌋ ∧
      st.vector_length_
        = (if st.bit_transition_flag_ then
            (toUInt32 ⌊toFloat (toFloat (st.sampled_ms_ : ℚ)
              * st.acq_parameters_.samples_per_ms)⌋ * 2) % 2 ^ 32
          else toUInt32 ⌊toFloat (toFloat (st.sampled_ms_ : ℚ)
              * st.acq_parameters_.samples_per_ms)⌋) ∧
      st.code_ = List.replicate st.vector_length_ 0 ∧ st.gnss_synchro_ = none := by
  unfold BeidouB1cPcpsAcquisition.BeidouB1cPcpsAcquisition
  simp only [hoff, Bool.false_eq_true, false_and, if_false, Option.map_some']
  exact ⟨_, rfl, rfl, rfl, rfl, rfl, rfl, rfl, rfl, rfl, rfl, rfl, rfl, rfl⟩

/-- A B1C adapter built with the resampler off at 4 Msps, data component, no
bit-transition doubling, for the coherent integration time `c`. -/
theorem b1c_members_4msps (cfg : ConfigurationInterface) (ins outs c : Nat)
    (hc : 4000 * c ≤ 2 ^ 24)
    (h1 : (cfg.property_bool "GNSS-SDR.use_acquisition_resampler").getD false = false)
    (h2 : (cfg.property_uint ("Acquisition_B1" ++ ".coherent_integration_time_ms")).getD 10 = c)
    (h3 : (cfg.property_int "GNSS-SDR.internal_fs_sps").getD
      ((cfg.property_int "GNSS-SDR.internal_fs_hz").getD 4000000) = 4000000)
    (h4 : (cfg.property_bool ("Acquisition_B1" ++ ".bit_transition_flag")).getD false = false)
    (h5 : (cfg.property_bool ("Acquisition_B1" ++ ".acquire_iq")).getD false = false)
    (h6 : (cfg.property_bool ("Acquisition_B1" ++ ".acquire_pilot")).getD false = false) :
    ∃ st0 : Adapter Int,
      BeidouB1cPcpsAcquisition.BeidouB1cPcpsAcquisition (b1c_constants 10230000) 0
        Acq_Conf_zero cfg "Acquisition_B1" ins outs = some st0 ∧
      st0.sampled_ms_ = c ∧
      st0.acq_parameters_.sampled_ms = (if c % 10 ≠ 0 then 10 else c) ∧
      st0.acquisition_.acq_parameters.sampled_ms = st0.acq_parameters_.sampled_ms ∧
      st0.acq_parameters_.samples_per_ms = 4000 ∧
      st0.bit_transition_flag_ = false ∧ st0.acq_iq_ = false ∧ st0.acq_pilot_ = false ∧
      st0.code_length_ = 40000 ∧ st0.vector_length_ = (4000 * c) % 2 ^ 32 ∧
      st0.code_ = List.replicate st0.vector_length_ 0 ∧ st0.fs_in_ = 4000000 := by
  obtain ⟨st, hst, hn, hacq, heng, hfs, hms, hbit, hiq, hpilot, hL, hV, hcode, _⟩ :=
    b1c_ctor_plain Int (b1c_constants 10230000) 0 Acq_Conf_zero cfg "Acquisition_B1" ins outs h1
  have hn2 : st.sampled_ms_ = c := by rw [hn, h2, Nat.mod_eq_of_lt (by omega)]
  have hfs2 : st.fs_in_ = 4000000 := by rw [hfs, h3]
  have hbit2 : st.bit_transition_flag_ = false := by rw [hbit, h4]
  have hms2 : st.acq_parameters_.samples_per_ms = 4000 := by
    rw [hms, hfs2]; exact samples_per_ms_4msps
  have hL2 : st.code_length_ = 40000 := by
    rw [hL, hfs2]
    have hq : ((4000000 : Int) : ℚ) / ((b1c_constants 10230000).BEIDOU_B1Cd_CODE_RATE_HZ
        / (b1c_constants 10230000).BEIDOU_B1Cd_CODE_LENGTH_CHIPS) = ((40000 : Int) : ℚ) := by
      norm_num [b1c_constants]
    rw [hq, Int.floor_intCast]
    decide
  have hV2 : st.vector_length_ = (4000 * c) % 2 ^ 32 := by
    rw [hV, hbit2, hn2, hms, hfs2]
    simp only [Bool.false_eq_true, if_false]
    rw [vector_length_4msps c hc]
    omega
  exact ⟨st, hst, hn2, by rw [hacq, hn2], heng, hms2, hbit2, by rw [hiq, h5],
    by rw [hpilot, h5, h6]; rfl, hL2, hV2, hcode, hfs2⟩

/-- C21, the code at the failing input: with `coherent_integration_time_ms = 25` at
the default 4 Msps the engine is given `sampled_ms = 10` (25 is not a multiple of
10), but `vector_length_` is computed from the adapter's own `sampled_ms_ = 25`:
`vector_length = 25 * 4000 = 100000` and the buffer has 100000 samples, not
`samples_per_ms * acq_parameters.sampled_ms = 4000 * 10 = 40000`. -/
theorem C21_clamped_length_disagrees :
    ∃ st : Adapter Int,
      BeidouB1cPcpsAcquisition.BeidouB1cPcpsAcquisition (b1c_constants 10230000) 0
        Acq_Conf_zero (coherent_ms_only 25) "Acquisition_B1" 1 0 = some st ∧
      st.sampled_ms_ = 25 ∧
      st.acq_parameters_.sampled_ms = 10 ∧
      st.acquisition_.acq_parameters.sampled_ms = 10 ∧
      st.acq_parameters_.samples_per_ms = 4000 ∧
      st.bit_transition_flag_ = false ∧
      st.vector_length_ = 100000 ∧ st.code_.length = 100000 ∧
      (st.vector_length_ : ℚ)
        ≠ st.acq_parameters_.samples_per_ms * (st.acq_parameters_.sampled_ms : ℚ)
          * (if st.bit_transition_flag_ then 2 else 1) := by
  obtain ⟨st, hst, hn, hacq, heng, hms, hbit, _, _, _, hV, hcode, _⟩ :=
    b1c_members_4msps (coherent_ms_only 25) 1 0 25 (by decide) rfl rfl rfl rfl rfl rfl
  have hacq2 : st.acq_parameters_.sampled_ms = 10 := by rw [hacq]; decide
  have hV2 : st.vector_length_ = 100000 := by rw [hV]; decide
  refine ⟨st, hst, hn, hacq2, by rw [heng, hacq2], hms, hbit, hV2,
    by rw [hcode, List.length_replicate, hV2], ?_⟩
  rw [hV2, hms, hacq2, hbit]
  norm_num

/-! ### C9 -/

theorem b1c_set_local_code_eq {α : Type} [Zero α] (g : CodeGenerators α) (st : Adapter α)
    (prn : Nat) (hiq : st.acq_iq_ = false) (hprn : st.gnss_synchro_ = some prn) :
    BeidouB1cPcpsAcquisition.set_local_code g st
      = tile_and_forward st
          (if st.acq_pilot_ then
            generated g.beidou_b1cp_code_gen_complex_sampled_boc_61_11 prn st.fs_in_
              st.code_length_
          else
            generated g.beidou_b1cd_code_gen_complex_sampled_boc_11 prn st.fs_in_
              st.code_length_) := by
  unfold BeidouB1cPcpsAcquisition.set_local_code
  rw [hiq, hprn]
  rfl

/-- C22, the code at the failing input: in the default B1C configuration
(`fs_in = 4000000`, `coherent_integration_time_ms = 10`, no bit-transition doubling)
`code_length = 40000` is the sample count of one 10-ms code period and
`vector_length = 10 * 4000 = 40000` too, but the copy loop runs `sampled_ms_ = 10`
times: `sampled_ms * code_length = 400000 > vector_length`, the second segment
`[40000, 80000)` is outside the buffer, and `set_local_code` stops at the bounds
check of its `subspan` instead of returning. -/
theorem C22_default_segments_overrun :
    ∃ st : Adapter Int,
      BeidouB1cPcpsAcquisition.BeidouB1cPcpsAcquisition (b1c_constants 10230000) 0
        Acq_Conf_zero no_properties "Acquisition_B1" 1 0 = some st ∧
      st.fs_in_ = 4000000 ∧ st.sampled_ms_ = 10 ∧ st.bit_transition_flag_ = false ∧
      st.code_length_ = 40000 ∧ st.vector_length_ = 40000 ∧ st.code_.length = 40000 ∧
      ¬ (st.sampled_ms_ * st.code_length_ ≤ st.vector_length_) ∧
      ¬ ((1 + 1) * st.code_length_ ≤ st.vector_length_) ∧
      BeidouB1cPcpsAcquisition.set_local_code example_generators
        (BeidouB1cPcpsAcquisition.set_gnss_synchro st (some 19)) = none := by
  obtain ⟨st, hst, hn, _, _, _, hbit, hiq, _, hL, hV, hcode, hfs⟩ :=
    b1c_members_4msps no_properties 1 0 10 (by decide) rfl rfl rfl rfl rfl rfl
  have hV2 : st.vector_length_ = 40000 := by rw [hV]; decide
  refine ⟨st, hst, hfs, hn, hbit, hL, hV2, by rw [hcode, List.length_replicate, hV2],
    by rw [hn, hL, hV2]; decide, by rw [hL, hV2]; decide, ?_⟩
  rw [b1c_set_local_code_eq example_generators
    (BeidouB1cPcpsAcquisition.set_gnss_synchro st (some 19)) 19 hiq rfl]
  unfold tile_and_forward
  show Option.map _ (copy_periods _ st.code_length_ st.vector_length_ st.sampled_ms_ 0 _) = none
  rw [hn, hL, hV2, copy_periods_step _ _ _ _ _ _ (by decide),
    copy_periods_no_room _ _ _ _ _ _ (by decide) (by decide)]
  rfl

/-! ### C23 -/

/-- C24 (as amended): in both adapters the walk of `calculate_threshold` ends, with
`2 * doppler_max / doppler_step + 1` bins, for every `doppler_max` and every
`doppler_step > 0` with `doppler_max + doppler_step < 2 ^ 31`; with
`doppler_step = 0` it never ends when `doppler_max ≤ 2 ^ 31` and ends at once
with no bin when `2 ^ 31 < doppler_max < 2 ^ 32`.  Both constructors leave
`doppler_step_ = 0`, so for an adapter `st` whose `doppler_step_` is still `0`
and whose `doppler_max_` is at most `2 ^ 31`, `set_threshold` with a selected `pfa`
that is non-zero as a `float` does not return, whatever the fuel. -/
theorem C24_walk_termination {α : Type} [Zero α] (k : Beidou_B1C) (FLAGS_doppler_max : Int)
    (acq0 : Acq_Conf) (cfg : ConfigurationInterface) (role : String) (ins outs : Nat)
    (doppler_max doppler_step : Nat) (st : Adapter α) (t : ℝ) :
    (0 < doppler_step → doppler_max + doppler_step < 2 ^ 31 →
      ∀ fuel, 2 * doppler_max / doppler_step + 2 ≤ fuel →
        frequency_bins fuel doppler_max doppler_step
          = some (2 * doppler_max / doppler_step + 1)) ∧
    (doppler_max ≤ 2 ^ 31 → ∀ fuel, frequency_bins fuel doppler_max 0 = none) ∧
    (2 ^ 31 < doppler_max → doppler_max < 2 ^ 32 →
      ∀ fuel, frequency_bins (fuel + 1) doppler_max 0 = some 0) ∧
    (BeidouB2aPcpsAcquisition.BeidouB2aPcpsAcquisition FLAGS_doppler_max acq0 cfg role ins outs
      : Adapter α).doppler_step_ = 0 ∧
    (∀ st1 : Adapter α,
      BeidouB1cPcpsAcquisition.BeidouB1cPcpsAcquisition k FLAGS_doppler_max acq0 cfg role ins
        outs = some st1 → st1.doppler_step_ = 0) ∧
    (st.doppler_step_ = 0 → st.doppler_max_ ≤ 2 ^ 31 →
      toFloat ((st.configuration_.property_double (st.role_ ++ ".pfa")).getD 0) ≠ 0 →
      ∀ fuel, BeidouB2aPcpsAcquisition.set_threshold fuel st t = none) ∧
    (st.doppler_step_ = 0 → st.doppler_max_ ≤ 2 ^ 31 →
      (toFloat ((st.configuration_.property_double
          (st.role_ ++ toString st.channel_ ++ ".pfa")).getD 0) ≠ 0 ∨
        toFloat ((st.configuration_.property_double (st.role_ ++ ".pfa")).getD 0) ≠ 0) →
      ∀ fuel, BeidouB1cPcpsAcquisition.set_threshold fuel st t = none) := by
  refine ⟨fun hs hsum fuel hf => frequency_bins_terminates doppler_max doppler_step fuel hs hsum hf,
    fun hm fuel => frequency_bins_step_zero doppler_max hm fuel,
    fun hlo hhi fuel => frequency_bins_step_zero_wrapped doppler_max hlo hhi fuel, rfl, ?_, ?_, ?_⟩
  · intro st1 hst1
    exact (b1c_ctor_members α k FLAGS_doppler_max acq0 cfg role ins outs st1 hst1).2.2.2.2.1
  · intro hstep hmax hpfa fuel
    unfold BeidouB2aPcpsAcquisition.set_threshold
    simp only [hpfa, if_false]
    unfold calculate_threshold
    rw [hstep, frequency_bins_step_zero _ hmax]
    rfl
  · intro hstep hmax hpfa fuel
    unfold BeidouB1cPcpsAcquisition.set_threshold
    have hsel : (if toFloat ((st.configuration_.property_double
          (st.role_ ++ toString st.channel_ ++ ".pfa")).getD 0) = 0
        then toFloat ((st.configuration_.property_double (st.role_ ++ ".pfa")).getD 0)
        else toFloat ((st.configuration_.property_double
          (st.role_ ++ toString st.channel_ ++ ".pfa")).getD 0)) ≠ 0 := by
      split
      · rcases hpfa with h | h
        · contradiction
        · exact h
      · assumption
    simp only [hsel, if_false]
    unfold calculate_threshold
    rw [hstep, frequency_bins_step_zero _ hmax]
    rfl

theorem C24_walk_termination_witness :
    frequency_bins 42 5000 250 = some 41 ∧
    (∀ fuel, frequency_bins fuel 5000 0 = none) ∧
    (∀ fuel, frequency_bins (fuel + 1) 4294967295 0 = some 0) ∧
    (∀ fuel, BeidouB2aPcpsAcquisition.set_threshold fuel
      (BeidouB2aPcpsAcquisition.BeidouB2aPcpsAcquisition 0 Acq_Conf_zero
        (pfa_configuration "Acquisition_5X" 0 (1 / 100)) "Acquisition_5X" 1 0 : Adapter Int) 5
      = none) ∧
    (∀ fuel, BeidouB1cPcpsAcquisition.set_threshold fuel
      (BeidouB2aPcpsAcquisition.BeidouB2aPcpsAcquisition 0 Acq_Conf_zero
        (pfa_configuration "Acquisition_5X" (1 / 100) 0) "Acquisition_5X" 1 0 : Adapter Int) 5
      = none) :=
  ⟨(C24_walk_termination (α := Int) (b1c_constants 10230000) 0 Acq_Conf_zero no_properties
      "Acquisition_5X" 1 0 5000 250
      (BeidouB2aPcpsAcquisition.BeidouB2aPcpsAcquisition 0 Acq_Conf_zero no_properties
        "Acquisition_5X" 1 0) 5).1 (by decide) (by decide) 42 (by decide),
   (C24_walk_termination (α := Int) (b1c_constants 10230000) 0 Acq_Conf_zero no_properties
      "Acquisition_5X" 1 0 5000 250
      (BeidouB2aPcpsAcquisition.BeidouB2aPcpsAcquisition 0 Acq_Conf_zero no_properties
        "Acquisition_5X" 1 0) 5).2.1 (by decide),
   (C24_walk_termination (α := Int) (b1c_constants 10230000) 0 Acq_Conf_zero no_properties
      "Acquisition_5X" 1 0 4294967295 250
      (BeidouB2aPcpsAcquisition.BeidouB2aPcpsAcquisition 0 Acq_Conf_zero no_properties
        "Acquisition_5X" 1 0) 5).2.2.1 (by decide) (by decide),
   (C24_walk_termination (α := Int) (b1c_constants 10230000) 0 Acq_Conf_zero no_properties
      "Acquisition_5X" 1 0 5000 250
      (BeidouB2aPcpsAcquisition.BeidouB2aPcpsAcquisition 0 Acq_Conf_zero
        (pfa_configuration "Acquisition_5X" 0 (1 / 100)) "Acquisition_5X" 1 0) 5).2.2.2.2.2.1
      rfl (by decide) (by
        show toFloat (((pfa_configuration "Acquisition_5X" 0 (1 / 100)).property_double
          ("Acquisition_5X" ++ ".pfa")).getD 0) ≠ 0
        have h : ((pfa_configuration "Acquisition_5X" 0 (1 / 100)).property_double
          ("Acquisition_5X" ++ ".pfa")).getD 0 = 1 / 100 := rfl
        rw [h]; exact ne_of_gt (toFloat_pos _ (by norm_num))),
   (C24_walk_termination (α := Int) (b1c_constants 10230000) 0 Acq_Conf_zero no_properties
      "Acquisition_5X" 1 0 5000 250
      (BeidouB2aPcpsAcquisition.BeidouB2aPcpsAcquisition 0 Acq_Conf_zero
        (pfa_configuration "Acquisition_5X" (1 / 100) 0) "Acquisition_5X" 1 0) 5).2.2.2.2.2.2
      rfl (by decide) (Or.inl (by
        show toFloat (((pfa_configuration "Acquisition_5X" (1 / 100) 0).property_double
          ("Acquisition_5X" ++ toString (0 : Nat) ++ ".pfa")).getD 0) ≠ 0
        have h : ((pfa_configuration "Acquisition_5X" (1 / 100) 0).property_double
          ("Acquisition_5X" ++ toString (0 : Nat) ++ ".pfa")).getD 0 = 1 / 100 := rfl
        rw [h]; exact ne_of_gt (toFloat_pos _ (by norm_num))))⟩

/-- C24 (as stated) fails in two ways.  For `doppler_max_ = 4294967295`, the value
both constructors store for the override `-1`, with `doppler_step_` still `0` the
walk starts at `+1`, above its bound `-1`, and ends at once with no bin, so
`set_threshold` with the configured `pfa = 1/100` returns although
`set_doppler_step` was never called.  And with the default `doppler_max_ = 5000`
a configured `pfa = 2 ^ (-200)`, non-zero as a `double`, narrows to `0.0f`:
`set_threshold (t)` stores `t` without running the walk at all. -/
theorem C24_counterexample :
    (BeidouB2aPcpsAcquisition.BeidouB2aPcpsAcquisition (-1) Acq_Conf_zero
        (pfa_configuration "Acquisition_5X" 0 (1 / 100)) "Acquisition_5X" 1 0
        : Adapter Int).doppler_step_ = 0 ∧
    (BeidouB2aPcpsAcquisition.BeidouB2aPcpsAcquisition (-1) Acq_Conf_zero
        (pfa_configuration "Acquisition_5X" 0 (1 / 100)) "Acquisition_5X" 1 0
        : Adapter Int).doppler_max_ = 4294967295 ∧
    toFloat (((pfa_configuration "Acquisition_5X" 0 (1 / 100)).property_double
        ("Acquisition_5X" ++ ".pfa")).getD 0) ≠ 0 ∧
    frequency_bins 1 4294967295 0 = some 0 ∧
    (∀ t : ℝ, (BeidouB2aPcpsAcquisition.set_threshold 1
      (BeidouB2aPcpsAcquisition.BeidouB2aPcpsAcquisition (-1) Acq_Conf_zero
        (pfa_configuration "Acquisition_5X" 0 (1 / 100)) "Acquisition_5X" 1 0
        : Adapter Int) t).isSome = true) ∧
    (BeidouB2aPcpsAcquisition.BeidouB2aPcpsAcquisition 0 Acq_Conf_zero
        (pfa_configuration "Acquisition_5X" 0 (1 / 2 ^ 200)) "Acquisition_5X" 1 0
        : Adapter Int).doppler_step_ = 0 ∧
    (BeidouB2aPcpsAcquisition.BeidouB2aPcpsAcquisition 0 Acq_Conf_zero
        (pfa_configuration "Acquisition_5X" 0 (1 / 2 ^ 200)) "Acquisition_5X" 1 0
        : Adapter Int).doppler_max_ = 5000 ∧
    ((pfa_configuration "Acquisition_5X" 0 (1 / 2 ^ 200)).property_double
        ("Acquisition_5X" ++ ".pfa")).getD 0 ≠ 0 ∧
    (∀ (fuel : Nat) (t : ℝ), BeidouB2aPcpsAcquisition.set_threshold fuel
      (BeidouB2aPcpsAcquisition.BeidouB2aPcpsAcquisition 0 Acq_Conf_zero
        (pfa_configuration "Acquisition_5X" 0 (1 / 2 ^ 200)) "Acquisition_5X" 1 0
        : Adapter Int) t
      = some (store_threshold
        (BeidouB2aPcpsAcquisition.BeidouB2aPcpsAcquisition 0 Acq_Conf_zero
          (pfa_configuration "Acquisition_5X" 0 (1 / 2 ^ 200)) "Acquisition_5X" 1 0) t)) := by
  have hpfa : ((pfa_configuration "Acquisition_5X" 0 (1 / 100)).property_double
      ("Acquisition_5X" ++ ".pfa")).getD 0 = 1 / 100 := rfl
  have htiny : ((pfa_configuration "Acquisition_5X" 0 (1 / 2 ^ 200)).property_double
      ("Acquisition_5X" ++ ".pfa")).getD 0 = 1 / 2 ^ 200 := rfl
  have hmax : (BeidouB2aPcpsAcquisition.BeidouB2aPcpsAcquisition (-1) Acq_Conf_zero
      (pfa_configuration "Acquisition_5X" 0 (1 / 100)) "Acquisition_5X" 1 0
      : Adapter Int).doppler_max_ = 4294967295 := by decide
  have hne : toFloat (1 / 100) ≠ 0 := ne_of_gt (toFloat_pos _ (by norm_num))
  refine ⟨rfl, hmax, by rw [hpfa]; exact hne, by decide, ?_, rfl, by decide,
    by rw [htiny]; positivity, ?_⟩
  · intro t
    have hsel := (b2a_set_threshold_cases 1
      (BeidouB2aPcpsAcquisition.BeidouB2aPcpsAcquisition (-1) Acq_Conf_zero
        (pfa_configuration "Acquisition_5X" 0 (1 / 100)) "Acquisition_5X" 1 0 : Adapter Int)
      t (toFloat (1 / 100)) (by
        show toFloat (((pfa_configuration "Acquisition_5X" 0 (1 / 100)).property_double
          ("Acquisition_5X" ++ ".pfa")).getD 0) = _
        rw [hpfa])).1 hne
    rw [hsel]
    unfold calculate_threshold
    rw [hmax]
    have hz : (BeidouB2aPcpsAcquisition.BeidouB2aPcpsAcquisition (-1) Acq_Conf_zero
        (pfa_configuration "Acquisition_5X" 0 (1 / 100)) "Acquisition_5X" 1 0
        : Adapter Int).doppler_step_ = 0 := rfl
    rw [hz, frequency_bins_step_zero_wrapped 4294967295 (by decide) (by decide) 0]
    rfl
  · intro fuel t
    exact (b2a_set_threshold_cases fuel
      (BeidouB2aPcpsAcquisition.BeidouB2aPcpsAcquisition 0 Acq_Conf_zero
        (pfa_configuration "Acquisition_5X" 0 (1 / 2 ^ 200)) "Acquisition_5X" 1 0 : Adapter Int)
      t 0 (by
        show toFloat (((pfa_configuration "Acquisition_5X" 0 (1 / 2 ^ 200)).property_double
          ("Acquisition_5X" ++ ".pfa")).getD 0) = _
        rw [htiny]
        exact toFloat_tiny)).2 rfl

/-! ### C25 -/

/-- The two component flags of a constructed B1C adapter. -/
theorem b1c_ctor_flags (α : Type) [Zero α] (k : Beidou_B1C) (FLAGS_doppler_max : Int)
    (acq0 : Acq_Conf) (cfg : ConfigurationInterface) (role : String) (ins outs : Nat)
    (st : Adapter α)
    (hst : BeidouB1cPcpsAcquisition.BeidouB1cPcpsAcquisition k FLAGS_doppler_max acq0 cfg role
      ins outs = some st) :
    st.acq_iq_ = (cfg.property_bool (role ++ ".acquire_iq")).getD false ∧
    st.acq_pilot_ = (if (cfg.property_bool (role ++ ".acquire_iq")).getD false then false
      else (cfg.property_bool (role ++ ".acquire_pilot")).getD false) := by
  unfold BeidouB1cPcpsAcquisition.BeidouB1cPcpsAcquisition at hst
  obtain ⟨rs, _, hrs⟩ := Option.map_eq_some'.mp hst
  subst hrs
  exact ⟨rfl, rfl⟩

/-- B2a `set_local_code ()` tiles the buffer that its generator calls leave. -/
theorem b2a_set_local_code_runs_calls {α : Type} [Zero α] (g : CodeGenerators α)
    (st : Adapter α) :
    BeidouB2aPcpsAcquisition.set_local_code g st
      = (BeidouB2aPcpsAcquisition.set_local_code_calls st).bind
          (fun calls => tile_and_forward st
            (run_calls g (List.replicate st.code_length_ 0) calls)) := by
  unfold BeidouB2aPcpsAcquisition.set_local_code BeidouB2aPcpsAcquisition.set_local_code_calls
  cases st.gnss_synchro_ with
  | none => rfl
  | some p => cases st.acq_iq_ <;> cases st.acq_pilot_ <;> rfl

/-- B1C `set_local_code ()` tiles the buffer that its generator calls leave. -/
theorem b1c_set_local_code_runs_calls {α : Type} [Zero α] (g : CodeGenerators α)
    (st : Adapter α) :
    BeidouB1cPcpsAcquisition.set_local_code g st
      = (BeidouB1cPcpsAcquisition.set_local_code_calls st).bind
          (fun calls => tile_and_forward st
            (run_calls g (List.replicate st.code_length_ 0) calls)) := by
  unfold BeidouB1cPcpsAcquisition.set_local_code BeidouB1cPcpsAcquisition.set_local_code_calls
  cases st.acq_iq_ with
  | true => rfl
  | false =>
    cases st.gnss_synchro_ with
    | none => rfl
    | some p => cases st.acq_pilot_ <;> rfl

/-- C25: in both adapters `acquire_iq` has precedence over `acquire_pilot`.  For
configured flags `iq` and `pilot`, after construction `acq_iq_ = iq` and
`acq_pilot_ = (pilot and not iq)`.  With a satellite assigned, `set_local_code`
makes at most one generator call, for `code_length_` samples at `fs_in_`: the
pilot generator exactly when `pilot` and not `iq`, the data generator exactly when
neither flag is set; with `iq`, B2a calls the data+pilot generator and B1C calls
none.  In every state the buffer that `set_local_code` tiles is the one left by
these calls. -/
theorem C25_component_selection {α : Type} [Zero α] (k : Beidou_B1C) (FLAGS_doppler_max : Int)
    (acq0 : Acq_Conf) (cfg : ConfigurationInterface) (role : String) (ins outs : Nat)
    (iq pilot : Bool)
    (hiq : (cfg.property_bool (role ++ ".acquire_iq")).getD false = iq)
    (hpilot : (cfg.property_bool (role ++ ".acquire_pilot")).getD false = pilot)
    (g : CodeGenerators α) (prn : Nat) :
    ((BeidouB2aPcpsAcquisition.BeidouB2aPcpsAcquisition FLAGS_doppler_max acq0 cfg role ins outs
        : Adapter α).acq_iq_ = iq ∧
      (BeidouB2aPcpsAcquisition.BeidouB2aPcpsAcquisition FLAGS_doppler_max acq0 cfg role ins outs
        : Adapter α).acq_pilot_ = (pilot && !iq) ∧
      BeidouB2aPcpsAcquisition.set_local_code_calls
          (BeidouB2aPcpsAcquisition.set_gnss_synchro
            (BeidouB2aPcpsAcquisition.BeidouB2aPcpsAcquisition FLAGS_doppler_max acq0 cfg role
              ins outs : Adapter α) (some prn))
        = some [⟨if iq then Generator.beidou_b2a_code_gen_complex_sampled
                 else if pilot then Generator.beidou_b2ap_code_gen_complex_sampled
                 else Generator.beidou_b2ad_code_gen_complex_sampled,
                prn,
                (BeidouB2aPcpsAcquisition.BeidouB2aPcpsAcquisition FLAGS_doppler_max acq0 cfg
                  role ins outs : Adapter α).fs_in_,
                (BeidouB2aPcpsAcquisition.BeidouB2aPcpsAcquisition FLAGS_doppler_max acq0 cfg
                  role ins outs : Adapter α).code_length_⟩]) ∧
    (∀ st : Adapter α,
      BeidouB1cPcpsAcquisition.BeidouB1cPcpsAcquisition k FLAGS_doppler_max acq0 cfg role ins
        outs = some st →
      st.acq_iq_ = iq ∧ st.acq_pilot_ = (pilot && !iq) ∧
      BeidouB1cPcpsAcquisition.set_local_code_calls
          (BeidouB1cPcpsAcquisition.set_gnss_synchro st (some prn))
        = some (if iq then []
            else [⟨if pilot then Generator.beidou_b1cp_code_gen_complex_sampled_boc_61_11
                   else Generator.beidou_b1cd_code_gen_complex_sampled_boc_11,
                  prn, st.fs_in_, st.code_length_⟩])) ∧
    (∀ st : Adapter α,
      BeidouB2aPcpsAcquisition.set_local_code g st
        = (BeidouB2aPcpsAcquisition.set_local_code_calls st).bind
            (fun calls => tile_and_forward st
              (run_calls g (List.replicate st.code_length_ 0) calls))) ∧
    (∀ st : Adapter α,
      BeidouB1cPcpsAcquisition.set_local_code g st
        = (BeidouB1cPcpsAcquisition.set_local_code_calls st).bind
            (fun calls => tile_and_forward st
              (run_calls g (List.replicate st.code_length_ 0) calls))) := by
  have h2iq : (BeidouB2aPcpsAcquisition.BeidouB2aPcpsAcquisition FLAGS_doppler_max acq0 cfg
      role ins outs : Adapter α).acq_iq_ = iq := hiq
  have h2p : (BeidouB2aPcpsAcquisition.BeidouB2aPcpsAcquisition FLAGS_doppler_max acq0 cfg
      role ins outs : Adapter α).acq_pilot_ = (pilot && !iq) := by
    have h : (BeidouB2aPcpsAcquisition.BeidouB2aPcpsAcquisition FLAGS_doppler_max acq0 cfg
        role ins outs : Adapter α).acq_pilot_
        = (if (cfg.property_bool (role ++ ".acquire_iq")).getD false then false
            else (cfg.property_bool (role ++ ".acquire_pilot")).getD false) := rfl
    rw [h, hiq, hpilot]
    cases iq <;> cases pilot <;> rfl
  refine ⟨⟨h2iq, h2p, ?_⟩, ?_, b2a_set_local_code_runs_calls g, b1c_set_local_code_runs_calls g⟩
  · unfold BeidouB2aPcpsAcquisition.set_local_code_calls
    show (if (BeidouB2aPcpsAcquisition.BeidouB2aPcpsAcquisition FLAGS_doppler_max acq0 cfg
          role ins outs : Adapter α).acq_iq_ then _
        else if (BeidouB2aPcpsAcquisition.BeidouB2aPcpsAcquisition FLAGS_doppler_max acq0 cfg
          role ins outs : Adapter α).acq_pilot_ then _ else _) = _
    rw [h2iq, h2p]
    cases iq <;> cases pilot <;> rfl
  · intro st hst
    obtain ⟨h1iq, h1p⟩ := b1c_ctor_flags α k FLAGS_doppler_max acq0 cfg role ins outs st hst
    rw [hiq] at h1iq
    rw [hiq, hpilot] at h1p
    have h1p2 : st.acq_pilot_ = (pilot && !iq) := by
      rw [h1p]; cases iq <;> cases pilot <;> rfl
    refine ⟨h1iq, h1p2, ?_⟩
    unfold BeidouB1cPcpsAcquisition.set_local_code_calls
    show (if st.acq_iq_ then _ else
      (if st.acq_pilot_ then _ else _)) = _
    rw [h1iq, h1p2]
    cases iq <;> cases pilot <;> rfl
theorem C25_component_selection_witness :
    ((BeidouB2aPcpsAcquisition.BeidouB2aPcpsAcquisition 0 Acq_Conf_zero
        (component_flags "Acquisition_5X" true true) "Acquisition_5X" 1 0
        : Adapter Int).acq_iq_ = true ∧
      (BeidouB2aPcpsAcquisition.BeidouB2aPcpsAcquisition 0 Acq_Conf_zero
        (component_flags "Acquisition_5X" true true) "Acquisition_5X" 1 0
        : Adapter Int).acq_pilot_ = false ∧
      BeidouB2aPcpsAcquisition.set_local_code_calls
          (BeidouB2aPcpsAcquisition.set_gnss_synchro
            (BeidouB2aPcpsAcquisition.BeidouB2aPcpsAcquisition 0 Acq_Conf_zero
              (component_flags "Acquisition_5X" true true) "Acquisition_5X" 1 0
              : Adapter Int) (some 19))
        = some [⟨Generator.beidou_b2a_code_gen_complex_sampled, 19,
            (BeidouB2aPcpsAcquisition.BeidouB2aPcpsAcquisition 0 Acq_Conf_zero
              (component_flags "Acquisition_5X" true true) "Acquisition_5X" 1 0
              : Adapter Int).fs_in_,
            (BeidouB2aPcpsAcquisition.BeidouB2aPcpsAcquisition 0 Acq_Conf_zero
              (component_flags "Acquisition_5X" true true) "Acquisition_5X" 1 0
              : Adapter Int).code_length_⟩]) ∧
    ∃ st : Adapter Int,
      BeidouB1cPcpsAcquisition.BeidouB1cPcpsAcquisition (b1c_constants 10230000) 0
        Acq_Conf_zero (component_flags "Acquisition_B1" false true) "Acquisition_B1" 1 0
        = some st ∧
      st.acq_iq_ = false ∧ st.acq_pilot_ = true ∧
      BeidouB1cPcpsAcquisition.set_local_code_calls
          (BeidouB1cPcpsAcquisition.set_gnss_synchro st (some 19))
        = some [⟨Generator.beidou_b1cp_code_gen_complex_sampled_boc_61_11, 19, st.fs_in_,
            st.code_length_⟩] := by
  obtain ⟨st, hst, _⟩ := b1c_ctor_no_resampler Int (b1c_constants 10230000) 0 Acq_Conf_zero
    (component_flags "Acquisition_B1" false true) "Acquisition_B1" 1 0 rfl
  have h2 := (C25_component_selection (α := Int) (b1c_constants 10230000) 0 Acq_Conf_zero
    (component_flags "Acquisition_5X" true true) "Acquisition_5X" 1 0 true true rfl rfl
    example_generators 19).1
  have h1 := (C25_component_selection (α := Int) (b1c_constants 10230000) 0 Acq_Conf_zero
    (component_flags "Acquisition_B1" false true) "Acquisition_B1" 1 0 false true rfl rfl
    example_generators 19).2.1 st hst
  exact ⟨h2, st, hst, h1⟩

/-! ### C26 -/

/-- C26, the constants as the header has them: the data secondary code string has
its declared 5 symbols and both strings hold only the symbols 0 and 1, but the
pilot secondary code string has 101 symbols, one more than the declared
`BEIDOU_B2ap_SECONDARY_CODE_LENGTH = 100`. -/
theorem C26_pilot_secondary_code_too_long :
    BEIDOU_B2ap_SECONDARY_CODE_LENGTH = 100 ∧
    BEIDOU_B2ap_SECONDARY_CODE.length = 101 ∧
    (BEIDOU_B2ap_SECONDARY_CODE.length : Int) ≠ BEIDOU_B2ap_SECONDARY_CODE_LENGTH ∧
    BEIDOU_B2ad_SECONDARY_CODE_LENGTH = 5 ∧
    (BEIDOU_B2ad_SECONDARY_CODE.length : Int) = BEIDOU_B2ad_SECONDARY_CODE_LENGTH ∧
    BEIDOU_B2ap_SECONDARY_CODE.data.all (fun c => c == '0' || c == '1') = true ∧
    BEIDOU_B2ad_SECONDARY_CODE.data.all (fun c => c == '0' || c == '1') = true := by
  decide

/-! ### C27 -/

/-- C27: for each CNAV2 message type of the header (10, 11, 30, 31, 32, 33, 34 and
40) the fields `PRN`, `MesType`, `SOW`, then the fields of that type in
declaration order, then `CRC`, tile the message exactly: the first field starts
at bit 1, each field starts at the previous field's first bit plus its length,
and `CRC` ends at bit `BEIDOU_CNAV2_DATA_BITS = 288`. -/
theorem C27_cnav2_fields_tile_message :
    BEIDOU_CNAV2_DATA_BITS = 288 ∧
    tiles_exactly 1 BEIDOU_CNAV2_DATA_BITS message_type_10 ∧
    tiles_exactly 1 BEIDOU_CNAV2_DATA_BITS message_type_11 ∧
    tiles_exactly 1 BEIDOU_CNAV2_DATA_BITS message_type_30 ∧
    tiles_exactly 1 BEIDOU_CNAV2_DATA_BITS message_type_31 ∧
    tiles_exactly 1 BEIDOU_CNAV2_DATA_BITS message_type_32 ∧
    tiles_exactly 1 BEIDOU_CNAV2_DATA_BITS message_type_33 ∧
    tiles_exactly 1 BEIDOU_CNAV2_DATA_BITS message_type_34 ∧
    tiles_exactly 1 BEIDOU_CNAV2_DATA_BITS message_type_40 := by
  unfold tiles_exactly
  decide

end GnssSdr
